import Mathlib

/-! VolView ITK plugins: dispatch and adaptation layer.

A shallow embedding of the eight plugin sources under `src/ITK`
(`vvITKAntiAlias.cxx`, `vvITKConfidenceConnected.cxx`,
`vvITKGeodesicActiveContour.cxx`, `vvITKGeodesicActiveContourModule.cxx`,
`vvITKGradientAnisotropicDiffusion.cxx`, `vvITKGradientMagnitude.cxx`,
`vvITKIntensityWindowing.cxx`, `vvITKSigmoid.cxx`).

Each source defines a runner class template with one method `Execute`, and the
three entry points `ProcessData`, `UpdateGUI` and the exported `...Init`.

Conventions of the embedding:

* `float` and `double` values are idealised as rationals (`ℚ`); C `int` values
  are integers, conversions to `unsigned int` are written `% 2 ^ 32`.
* A call is run on a `World` (the plugin info, the process-data struct and the
  log of the calls made so far) and ends either normally or with an `Abort`
  (a thrown C++ exception, or a read through a null pointer).
* What the sources take from headers that are not among them (VTK's scalar type
  tags, the C library conversions) is the parameter `Headers`; the behaviour of
  the ITK module behind `module.ProcessData( pds )` is the parameter `Pipeline`.
-/

set_option linter.unusedVariables false

namespace VolViewPlugins

/-! ## Data model -/

/-- The ten C types for which every source instantiates its runner template. -/
inductive PixelType
  | signedChar | unsignedChar | signedShort | unsignedShort | signedInt | unsignedInt
  | signedLong | unsignedLong | float | double
  deriving DecidableEq, Repr

/-- The eight plugins, one per source file. -/
inductive Plugin
  | AntiAlias | ConfidenceConnected | GeodesicActiveContour | GeodesicActiveContourModule
  | GradientAnisotropicDiffusion | GradientMagnitude | IntensityWindowing | Sigmoid
  deriving DecidableEq, Repr

/-- Keys of `info->SetProperty` used by the sources (`VVP_*` macros of the plugin API). -/
inductive Property
  | VVP_ERROR | VVP_REPORT_TEXT | VVP_NAME | VVP_GROUP | VVP_TERSE_DOCUMENTATION
  | VVP_FULL_DOCUMENTATION | VVP_SUPPORTS_IN_PLACE_PROCESSING | VVP_SUPPORTS_PROCESSING_PIECES
  | VVP_NUMBER_OF_GUI_ITEMS | VVP_REQUIRED_Z_OVERLAP | VVP_PER_VOXEL_MEMORY_REQUIRED
  | VVP_REQUIRES_SECOND_INPUT | VVP_REQUIRES_SERIES_INPUT
  | VVP_SUPPORTS_PROCESSING_SERIES_BY_VOLUMES | VVP_PRODUCES_OUTPUT_SERIES
  | VVP_PRODUCES_PLOTTING_OUTPUT
  deriving DecidableEq, Repr

/-- Keys of `info->SetGUIProperty` / `info->GetGUIProperty` (`VVP_GUI_*` macros). -/
inductive GUIProperty
  | VVP_GUI_LABEL | VVP_GUI_TYPE | VVP_GUI_DEFAULT | VVP_GUI_HELP | VVP_GUI_HINTS | VVP_GUI_VALUE
  deriving DecidableEq, Repr

/-- The widget kind `VVP_GUI_SCALE` (a string macro of the plugin API). -/
def VVP_GUI_SCALE : String := "scale"

/-- The widget kind `VVP_GUI_CHECKBOX` (a string macro of the plugin API). -/
def VVP_GUI_CHECKBOX : String := "checkbox"

/-- The fields of `vtkVVPluginInfo` that the sources read or write. The two
stores stand for the host side of `SetProperty` and of
`SetGUIProperty`/`GetGUIProperty`; a key that was never set reads as the null
pointer (`none`). -/
structure vtkVVPluginInfo where
  InputVolumeScalarType : Int
  InputVolumeScalarSize : Int
  InputVolumeNumberOfComponents : Int
  InputVolumeDimensions : Fin 3 → Int
  InputVolumeSpacing : Fin 3 → ℚ
  InputVolumeOrigin : Fin 3 → ℚ
  InputVolumeScalarRange : Nat → ℚ
  NumberOfMarkers : Int
  Markers : Nat → ℚ
  OutputVolumeScalarType : Int
  OutputVolumeNumberOfComponents : Int
  OutputVolumeDimensions : Fin 3 → Int
  OutputVolumeSpacing : Fin 3 → ℚ
  OutputVolumeOrigin : Fin 3 → ℚ
  properties : Property → Option String
  guiProperties : Nat → GUIProperty → Option String

namespace vtkVVPluginInfo

/-- Host side of `info->SetProperty( info, key, value )`. -/
def SetProperty (info : vtkVVPluginInfo) (key : Property) (value : String) : vtkVVPluginInfo :=
  { info with properties := fun k => if k = key then some value else info.properties k }

/-- Host side of `info->SetGUIProperty( info, item, key, value )`. -/
def SetGUIProperty (info : vtkVVPluginInfo) (item : Nat) (key : GUIProperty) (value : String) :
    vtkVVPluginInfo :=
  { info with guiProperties := fun i k =>
      if i = item ∧ k = key then some value else info.guiProperties i k }

/-- Host side of `info->GetGUIProperty( info, item, key )`; `none` is the null pointer. -/
def GetGUIProperty (info : vtkVVPluginInfo) (item : Nat) (key : GUIProperty) : Option String :=
  info.guiProperties item key

/-- The assignment `info->OutputVolumeScalarType = value`. -/
def setOutputVolumeScalarType (info : vtkVVPluginInfo) (value : Int) : vtkVVPluginInfo :=
  { info with OutputVolumeScalarType := value }

/-- The assignment `info->OutputVolumeNumberOfComponents = value`. -/
def setOutputVolumeNumberOfComponents (info : vtkVVPluginInfo) (value : Int) : vtkVVPluginInfo :=
  { info with OutputVolumeNumberOfComponents := value }

/-- The assignment `info->OutputVolumeDimensions[d] = value`. -/
def setOutputVolumeDimension (info : vtkVVPluginInfo) (d : Fin 3) (value : Int) : vtkVVPluginInfo :=
  { info with OutputVolumeDimensions := Function.update info.OutputVolumeDimensions d value }

/-- The statement `memcpy(info->OutputVolumeDimensions, source, 3*sizeof(int))`. -/
def setOutputVolumeDimensions (info : vtkVVPluginInfo) (source : Fin 3 → Int) : vtkVVPluginInfo :=
  { info with OutputVolumeDimensions := source }

/-- The statement `memcpy(info->OutputVolumeSpacing, source, 3*sizeof(float))`. -/
def setOutputVolumeSpacing (info : vtkVVPluginInfo) (source : Fin 3 → ℚ) : vtkVVPluginInfo :=
  { info with OutputVolumeSpacing := source }

/-- The statement `memcpy(info->OutputVolumeOrigin, source, 3*sizeof(float))`. -/
def setOutputVolumeOrigin (info : vtkVVPluginInfo) (source : Fin 3 → ℚ) : vtkVVPluginInfo :=
  { info with OutputVolumeOrigin := source }

end vtkVVPluginInfo

/-- Declarations the sources use from headers outside the eight files: the VTK
scalar type tags (distinct integer constants, as the labels of one `switch`
must be), the width of `long`, the C library conversions `atoi` and `atof`,
the `%g` rendering of `sprintf`, and the string helpers of `FilterModuleBase`
that `UpdateGUI` uses for the defaults and hints of its widgets. -/
structure Headers where
  VTK_CHAR : Int
  VTK_UNSIGNED_CHAR : Int
  VTK_SHORT : Int
  VTK_UNSIGNED_SHORT : Int
  VTK_INT : Int
  VTK_UNSIGNED_INT : Int
  VTK_LONG : Int
  VTK_UNSIGNED_LONG : Int
  VTK_FLOAT : Int
  VTK_DOUBLE : Int
  tags_nodup : [VTK_CHAR, VTK_UNSIGNED_CHAR, VTK_SHORT, VTK_UNSIGNED_SHORT, VTK_INT,
    VTK_UNSIGNED_INT, VTK_LONG, VTK_UNSIGNED_LONG, VTK_FLOAT, VTK_DOUBLE].Nodup
  longBits : Nat
  atoi : String → Int
  atof : String → ℚ
  sprintf_g : ℚ → String
  GetInputVolumeScalarMinimum : vtkVVPluginInfo → String
  GetInputVolumeScalarMaximum : vtkVVPluginInfo → String
  GetInputVolumeScalarRange : vtkVVPluginInfo → String
  GetInputVolumeScalarTypeMinimum : vtkVVPluginInfo → String
  GetInputVolumeScalarTypeMaximum : vtkVVPluginInfo → String
  GetInputVolumeScalarTypeRange : vtkVVPluginInfo → String

/-- The buffers of `vtkVVProcessDataStruct`; the plugin sources only pass the
struct on to the module. -/
structure vtkVVProcessDataStruct where
  inData : List Int
  outData : List Int

/-- Argument of a logged call. `pixel none` is a `static_cast` whose value the
language leaves undefined. -/
inductive Arg
  | none
  | int (n : Int)
  | real (x : ℚ)
  | bool (b : Bool)
  | str (s : String)
  | index (i j k : Int)
  | pixel (v : Option ℚ)
  deriving DecidableEq

/-- The calls a `ProcessData` makes, in program order. -/
inductive Event
  | Execute (plugin : Plugin) (p : PixelType)
  | module (method : String) (arg : Arg)
  | filter (method : String) (arg : Arg)
  | SetProperty (key : Property) (value : String)
  | UpdateProgress (fraction : ℚ) (message : String)
  deriving DecidableEq

/-- Ways a call can end other than by returning: a thrown `itk::ExceptionObject`
(or an object of a class derived from it) with the text of its `what()`; a
thrown object of any other class; a read through the null pointer (undefined
behaviour, which no handler intercepts). -/
inductive Abort
  | itkExceptionObject (what : String)
  | otherException (what : String)
  | nullPointerRead
  deriving DecidableEq

/-- State of one invocation. -/
structure World where
  info : vtkVVPluginInfo
  pds : vtkVVProcessDataStruct
  log : List Event

/-- How a call ended and the state it left. -/
structure Outcome (α : Type) where
  result : Except Abort α
  world : World

/-- A C++ call: from the state before to an outcome. -/
def Run (α : Type) : Type := World → Outcome α

namespace Run

/-- Apply a call to a state. -/
def run {α : Type} (x : Run α) (w : World) : Outcome α := x w

/-- Sequencing: the second call runs only if the first returned. -/
def seq {α β : Type} (x : Run α) (f : α → Run β) : Run β := fun w =>
  match x w with
  | ⟨.ok a, w1⟩ => f a w1
  | ⟨.error e, w1⟩ => ⟨.error e, w1⟩

instance : Monad Run where
  pure a := fun w => ⟨.ok a, w⟩
  bind := seq

/-- Leave the current call with `e`. -/
def abort {α : Type} (e : Abort) : Run α := fun w => ⟨.error e, w⟩

/-- Read the plugin info. -/
def getInfo : Run vtkVVPluginInfo := fun w => ⟨.ok w.info, w⟩

/-- Append one event to the log. -/
def emit (e : Event) : Run Unit := fun w => ⟨.ok (), { w with log := w.log ++ [e] }⟩

/-- The statement `info->SetProperty( info, key, value )`. -/
def SetProperty (key : Property) (value : String) : Run Unit := fun w =>
  ⟨.ok (), { w with info := w.info.SetProperty key value,
                    log := w.log ++ [Event.SetProperty key value] }⟩

/-- The statement `info->UpdateProgress( info, fraction, message )`, a host callback. -/
def UpdateProgress (fraction : ℚ) (message : String) : Run Unit :=
  emit (Event.UpdateProgress fraction message)

/-- The block `try { body } catch( itk::ExceptionObject & except ) { handler }`. -/
def tryCatch {α : Type} (body : Run α) (handler : String → Run α) : Run α := fun w =>
  match body w with
  | ⟨.error (.itkExceptionObject what), w1⟩ => handler what w1
  | o => o

end Run

/-! ## What every source shares -/

/-- The scalar type tag of each of the ten C types. -/
def Headers.tag (H : Headers) : PixelType → Int
  | .signedChar => H.VTK_CHAR
  | .unsignedChar => H.VTK_UNSIGNED_CHAR
  | .signedShort => H.VTK_SHORT
  | .unsignedShort => H.VTK_UNSIGNED_SHORT
  | .signedInt => H.VTK_INT
  | .unsignedInt => H.VTK_UNSIGNED_INT
  | .signedLong => H.VTK_LONG
  | .unsignedLong => H.VTK_UNSIGNED_LONG
  | .float => H.VTK_FLOAT
  | .double => H.VTK_DOUBLE

/-- The case labels of `switch( info->InputVolumeScalarType )`, the same ten in
the same order in every source: the template argument of the runner of the
selected case, or `none` when no label matches. -/
def scalarTypeSwitch (H : Headers) (scalarType : Int) : Option PixelType :=
  if scalarType = H.VTK_CHAR then some .signedChar
  else if scalarType = H.VTK_UNSIGNED_CHAR then some .unsignedChar
  else if scalarType = H.VTK_SHORT then some .signedShort
  else if scalarType = H.VTK_UNSIGNED_SHORT then some .unsignedShort
  else if scalarType = H.VTK_INT then some .signedInt
  else if scalarType = H.VTK_UNSIGNED_INT then some .unsignedInt
  else if scalarType = H.VTK_LONG then some .signedLong
  else if scalarType = H.VTK_UNSIGNED_LONG then some .unsignedLong
  else if scalarType = H.VTK_FLOAT then some .float
  else if scalarType = H.VTK_DOUBLE then some .double
  else none

/-- The expression `atoi( info->GetGUIProperty(info, item, VVP_GUI_VALUE ) )`:
the host returns the null pointer for a value that does not exist, and `atoi`
reads through its argument. -/
def atoiGUIValue (H : Headers) (item : Nat) : Run Int := fun w =>
  match w.info.GetGUIProperty item .VVP_GUI_VALUE with
  | some s => ⟨.ok (H.atoi s), w⟩
  | none => ⟨.error .nullPointerRead, w⟩

/-- The expression `atof( info->GetGUIProperty(info, item, VVP_GUI_VALUE ) )`. -/
def atofGUIValue (H : Headers) (item : Nat) : Run ℚ := fun w =>
  match w.info.GetGUIProperty item .VVP_GUI_VALUE with
  | some s => ⟨.ok (H.atof s), w⟩
  | none => ⟨.error .nullPointerRead, w⟩

/-- Conversion of an `int` to `unsigned int`. -/
def toUnsignedInt (n : Int) : Int := n % 2 ^ 32

/-- The value an `int` holds after an arithmetic result `n`: `n` itself when it
is between -2^31 and 2^31 - 1, and otherwise the two's complement wrap-around the
compiled code leaves (the C++ standard leaves signed overflow undefined). -/
def toSignedInt (n : Int) : Int := (n + 2 ^ 31) % 2 ^ 32 - 2 ^ 31

/-- The binary exponent of a positive value `a * 2^e0`: the `e` with
2^e <= a * 2^e0 < 2^(e+1), found by halving or doubling `a` at most `fuel` times. -/
def binaryExponent : Nat → ℚ → Int → Int
  | 0, _, e => e
  | fuel + 1, a, e =>
    if 2 ≤ a then binaryExponent fuel (a / 2) (e + 1)
    else if a < 1 then binaryExponent fuel (a * 2) (e - 1)
    else e

/-- Rounding to the nearest integer, halves to the even one. -/
def roundHalfEven (x : ℚ) : Int :=
  if x - ⌊x⌋ < 1 / 2 then ⌊x⌋
  else if 1 / 2 < x - ⌊x⌋ then ⌊x⌋ + 1
  else if ⌊x⌋ % 2 = 0 then ⌊x⌋ else ⌊x⌋ + 1

/-- The value a `float` (IEEE 754 binary32) holds after `const float v = x` with
`x` a `double`: the nearest value with a significand of 24 bits, halves to the
even one; below 2^-126 the values are 2^-149 apart. A magnitude beyond the
range of `float` (2^128 and more after rounding) is not modelled. -/
def toFloat (x : ℚ) : ℚ :=
  if x = 0 then 0
  else
    let e := max (binaryExponent 1100 |x| 0) (-126)
    let quantum : ℚ := 2 ^ (e - 23)
    (if x < 0 then -1 else 1) * (roundHalfEven (|x| / quantum) : ℚ) * quantum

/-- Least and greatest value of an integer pixel type; `none` for `float` and `double`. -/
def PixelType.limits (H : Headers) : PixelType → Option (Int × Int)
  | .signedChar => some (-128, 127)
  | .unsignedChar => some (0, 255)
  | .signedShort => some (-32768, 32767)
  | .unsignedShort => some (0, 65535)
  | .signedInt => some (-2147483648, 2147483647)
  | .unsignedInt => some (0, 4294967295)
  | .signedLong => some (-(2 ^ (H.longBits - 1)), 2 ^ (H.longBits - 1) - 1)
  | .unsignedLong => some (0, 2 ^ H.longBits - 1)
  | .float => none
  | .double => none

/-- The integer part of `x`, the fraction discarded (towards zero). -/
def truncate (x : ℚ) : Int := if 0 ≤ x then ⌊x⌋ else ⌈x⌉

/-- The conversion `static_cast<PixelType>( x )` of a floating value: to an
integer type the fraction is discarded and the result is defined only if it is
a value of the type (`none` otherwise); to `float` or `double` the value is kept. -/
def static_cast (H : Headers) (p : PixelType) (x : ℚ) : Option ℚ :=
  match p.limits H with
  | some (lo, hi) => if lo ≤ truncate x ∧ truncate x ≤ hi then some (truncate x) else none
  | none => some x

/-- What `module.ProcessData( pds )` left behind: the info and buffers after
the call, what the filter then answers to `GetElapsedIterations()` and
`GetRMSChange()`, and the exception it raised, if any. -/
structure ModuleResult where
  info : vtkVVPluginInfo
  pds : vtkVVProcessDataStruct
  ElapsedIterations : Int
  RMSChange : ℚ
  thrown : Option Abort

/-- Behaviour of the ITK module classes (`FilterModule`, `FilterModuleWithRescaling`,
`FilterModuleWithCasting`, `FilterModuleDoubleOutput`, `GeodesicActiveContour`,
`GeodesicActiveContourModule`), which the sources only call: for the runner of a
plugin and pixel type, and the state at the call (its log holds every setter
call made on the module), the result of `module.ProcessData( pds )`. -/
def Pipeline : Type := Plugin → PixelType → World → ModuleResult

/-- The statement `module.ProcessData( pds )`. -/
def moduleProcessData (P : Pipeline) (plugin : Plugin) (p : PixelType) : Run ModuleResult :=
  fun w =>
    let w1 : World := { w with log := w.log ++ [Event.module "ProcessData" Arg.none] }
    let r := P plugin p w1
    let w2 : World := { info := r.info, pds := r.pds, log := w1.log }
    match r.thrown with
    | some e => ⟨.error e, w2⟩
    | none => ⟨.ok r, w2⟩

/-- Rounding to the nearest integer, halves away from zero. -/
def roundNearest (x : ℚ) : Int := if 0 ≤ x then ⌊x + 1 / 2⌋ else ⌈x - 1 / 2⌉

/-- Modelled from the spec: the descriptive message of the rejection of a seed
outside the volume; the spec fixes no text. -/
def seedOutsideVolume : String := "Seed point is outside of the volume"

/-- Modelled from the spec: the index the Coordinate Converter gives marker `i`,
`idx[d] = round((physical[d] - origin[d]) / spacing[d])`, the marker occupying
`Markers[3*i .. 3*i+2]`. -/
def markerIndex (info : vtkVVPluginInfo) (i : Nat) : Fin 3 → Int := fun d =>
  roundNearest ((info.Markers (3 * i + d.val) - info.InputVolumeOrigin d) / info.InputVolumeSpacing d)

/-- Modelled from the spec: an index is inside the volume when every coordinate
lies in `[0, dimensions[d]-1]`. -/
def insideVolume (info : vtkVVPluginInfo) (idx : Fin 3 → Int) : Prop :=
  ∀ d : Fin 3, 0 ≤ idx d ∧ idx d ≤ info.InputVolumeDimensions d - 1

instance (info : vtkVVPluginInfo) (idx : Fin 3 → Int) : Decidable (insideVolume info idx) := by
  unfold insideVolume
  infer_instance

/-- Modelled from the spec: `FilterModuleBase::Convert3DMarkerToIndex( info, i, seed )`
is defined in a header of this repository that is not among the sources. By the
spec (Coordinate Converter) it yields `markerIndex` and rejects the whole
invocation if that index is not `insideVolume`. The callers ignore the return
value, so the rejection is an ITK exception. -/
def Convert3DMarkerToIndex (i : Nat) : Run (Fin 3 → Int) := fun w =>
  if insideVolume w.info (markerIndex w.info i) then
    ⟨.ok (markerIndex w.info i), w⟩
  else
    ⟨.error (.itkExceptionObject seedOutsideVolume), w⟩

/-- The loop `for( unsigned int i=0; i<numberOfSeeds; i++) { Convert3DMarkerToIndex( info, i, seed ); AddSeed( seed ); }`
of the two seeded runners, over the values `i` still to come; `AddSeed` names
the object the seed is added to. -/
def seedLoop (AddSeed : Arg → Event) : List Nat → Run Unit
  | [] => pure ()
  | i :: rest => do
    let seed ← Convert3DMarkerToIndex i
    Run.emit (AddSeed (Arg.index (seed 0) (seed 1) (seed 2)))
    seedLoop AddSeed rest

/-- The rendering of `%d` and `%i` by `sprintf`. -/
def sprintf_d (n : Int) : String := toString n

/-- The text `sprintf(tmp,"Total number of iterations = %d \n Final RMS error = %g", n, e)`
leaves in `tmp`. -/
def reportText (H : Headers) (n : Int) (e : ℚ) : String :=
  "Total number of iterations = " ++ sprintf_d n ++ " \n Final RMS error = " ++ H.sprintf_g e

/-! ## vvITKAntiAlias.cxx -/

namespace vvITKAntiAlias

/-- The method `AntiAliasRunner<TInputPixelType>::Execute`. -/
def AntiAliasRunner.Execute (H : Headers) (P : Pipeline) (p : PixelType) : Run Unit := do
  Run.emit (Event.Execute .AntiAlias p)
  let maxNumberOfIterations := toUnsignedInt (← atoiGUIValue H 0)
  let maximumRMSError := toFloat (← atofGUIValue H 1)
  Run.emit (Event.module "SetPluginInfo" Arg.none)
  Run.emit (Event.module "SetUpdateMessage" (Arg.str "Reducing aliasing effects..."))
  Run.emit (Event.filter "SetNumberOfIterations" (Arg.int maxNumberOfIterations))
  Run.emit (Event.filter "SetMaximumRMSError" (Arg.real maximumRMSError))
  Run.emit (Event.module "SetOutputMinimum" (Arg.int 0))
  Run.emit (Event.module "SetOutputMaximum" (Arg.int 255))
  let _ ← moduleProcessData P .AntiAlias p
  pure ()

/-- The function `ProcessData` of vvITKAntiAlias.cxx. Inside the `try` block the value is
`some r` for `return r` and `none` when control leaves the `switch` by `break`. -/
def ProcessData (H : Headers) (P : Pipeline) : Run Int := do
  let info ← Run.getInfo
  if info.InputVolumeNumberOfComponents ≠ 1 then
    Run.SetProperty .VVP_ERROR "The AntiAlias filter only works with single component data"
    pure (-1)
  else
    let returned ← Run.tryCatch
      (do
        match scalarTypeSwitch H info.InputVolumeScalarType with
        | some p =>
          AntiAliasRunner.Execute H P p
          pure none
        | none =>
          Run.SetProperty .VVP_ERROR "Pixel Type Unknown for the AntiAlias filter"
          pure (some (-1)))
      (fun what => do
        Run.SetProperty .VVP_ERROR what
        pure (some (-1)))
    match returned with
    | some r => pure r
    | none =>
      pure 0

/-- The function `UpdateGUI` of vvITKAntiAlias.cxx: the value returned and the info it leaves. -/
def UpdateGUI (H : Headers) (info : vtkVVPluginInfo) : Int × vtkVVPluginInfo :=
  let info := info.SetGUIProperty 0 .VVP_GUI_LABEL "Number of Iterations "
  let info := info.SetGUIProperty 0 .VVP_GUI_TYPE VVP_GUI_SCALE
  let info := info.SetGUIProperty 0 .VVP_GUI_DEFAULT "5"
  let info := info.SetGUIProperty 0 .VVP_GUI_HELP "Number of times that the diffusion approximation will be computed. The more iterations, the stronger the smoothing"
  let info := info.SetGUIProperty 0 .VVP_GUI_HINTS "1 100 1"
  let info := info.SetGUIProperty 1 .VVP_GUI_LABEL "Maximum RMS Error"
  let info := info.SetGUIProperty 1 .VVP_GUI_TYPE VVP_GUI_SCALE
  let info := info.SetGUIProperty 1 .VVP_GUI_DEFAULT "0.05"
  let info := info.SetGUIProperty 1 .VVP_GUI_HELP "Maximum RMS error allows. This value defines the convergence criterion for the smoothing."
  let info := info.SetGUIProperty 1 .VVP_GUI_HINTS "0.001 0.1 0.001"
  let stringValue := info.GetGUIProperty 0 .VVP_GUI_VALUE
  let info :=
    match stringValue with
    | none => info.SetProperty .VVP_REQUIRED_Z_OVERLAP "0"
    | some s => info.SetProperty .VVP_REQUIRED_Z_OVERLAP s
  let info := info.setOutputVolumeScalarType H.VTK_UNSIGNED_CHAR
  let info := info.setOutputVolumeNumberOfComponents 1
  let info := info.setOutputVolumeDimension 0 (info.InputVolumeDimensions 0)
  let info := info.setOutputVolumeDimension 1 (info.InputVolumeDimensions 1)
  let info := info.setOutputVolumeDimension 2 (info.InputVolumeDimensions 2)
  let info := info.setOutputVolumeSpacing info.InputVolumeSpacing
  let info := info.setOutputVolumeOrigin info.InputVolumeOrigin
  (1, info)

/-- The exported function `vvITKAntiAliasInit`, without the version check and the two
assignments of function pointers. -/
def vvITKAntiAliasInit (H : Headers) (info : vtkVVPluginInfo) : vtkVVPluginInfo :=
  let info := info.SetProperty .VVP_NAME "Anti-Aliasing (ITK)"
  let info := info.SetProperty .VVP_GROUP "Surface Generation"
  let info := info.SetProperty .VVP_TERSE_DOCUMENTATION "Reduction of aliasing effects"
  let info := info.SetProperty .VVP_FULL_DOCUMENTATION "This filter applies a level set evolution over a binary image in order to produce a smoother contour that is suitable for extracting iso-surfaces. The resulting contour is encoded as the zero-set of the output level set. The zero set will be rescaled as the mid-value of the intensity range corresponding to the pixel type used. This filter processes the whole image in one piece, and does not change the dimensions, or spacing of the volume. The pixel type however, is converted to unsigned 8 bits since it is enough for representing the implicit smoothed surface."
  let info := info.SetProperty .VVP_SUPPORTS_IN_PLACE_PROCESSING "0"
  let info := info.SetProperty .VVP_SUPPORTS_PROCESSING_PIECES "0"
  let info := info.SetProperty .VVP_NUMBER_OF_GUI_ITEMS "2"
  let info := info.SetProperty .VVP_REQUIRED_Z_OVERLAP "0"
  let info := info.SetProperty .VVP_PER_VOXEL_MEMORY_REQUIRED "8"
  let info := info.SetProperty .VVP_REQUIRES_SERIES_INPUT "0"
  let info := info.SetProperty .VVP_SUPPORTS_PROCESSING_SERIES_BY_VOLUMES "0"
  let info := info.SetProperty .VVP_PRODUCES_OUTPUT_SERIES "0"
  let info := info.SetProperty .VVP_PRODUCES_PLOTTING_OUTPUT "0"
  info

end vvITKAntiAlias

/-! ## vvITKConfidenceConnected.cxx -/

namespace vvITKConfidenceConnected

/-- The method `ConfidenceConnectedRunner<InputPixelType>::Execute`. -/
def ConfidenceConnectedRunner.Execute (H : Headers) (P : Pipeline) (p : PixelType) : Run Unit := do
  Run.emit (Event.Execute .ConfidenceConnected p)
  let numberOfIterations := toUnsignedInt (← atoiGUIValue H 0)
  let multiplier := toFloat (← atofGUIValue H 1)
  let replaceValue ← atoiGUIValue H 2
  let initialRadius := toUnsignedInt (← atoiGUIValue H 3)
  let compositeOutput := decide ((← atoiGUIValue H 4) ≠ 0)
  Run.emit (Event.module "SetPluginInfo" Arg.none)
  Run.emit (Event.module "SetUpdateMessage" (Arg.str "Confidence Connected Region Growing..."))
  Run.emit (Event.filter "SetNumberOfIterations" (Arg.int numberOfIterations))
  Run.emit (Event.filter "SetMultiplier" (Arg.real multiplier))
  Run.emit (Event.filter "SetReplaceValue" (Arg.int replaceValue))
  Run.emit (Event.filter "SetInitialNeighborhoodRadius" (Arg.int initialRadius))
  let numberOfSeeds := toUnsignedInt (← Run.getInfo).NumberOfMarkers
  seedLoop (Event.filter "AddSeed") (List.range numberOfSeeds.toNat)
  Run.emit (Event.module "SetProduceDoubleOutput" (Arg.bool compositeOutput))
  let _ ← moduleProcessData P .ConfidenceConnected p
  pure ()

/-- The function `ProcessData` of vvITKConfidenceConnected.cxx. Inside the `try` block the value is
`some r` for `return r` and `none` when control leaves the `switch` (by `break`,
or because no label matches: this `switch` has no `default`). -/
def ProcessData (H : Headers) (P : Pipeline) : Run Int := do
  let info ← Run.getInfo
  if info.InputVolumeNumberOfComponents ≠ 1 then
    Run.SetProperty .VVP_ERROR "This filter requires a single-component data set as input"
    pure (-1)
  else if info.NumberOfMarkers < 1 then
    Run.SetProperty .VVP_ERROR "Please select seed points using the 3D Markers in the Annotation menu"
    pure (-1)
  else
    let returned ← Run.tryCatch
      (do
        match scalarTypeSwitch H info.InputVolumeScalarType with
        | some p =>
          ConfidenceConnectedRunner.Execute H P p
          pure none
        | none =>
          pure none)
      (fun what => do
        Run.SetProperty .VVP_ERROR what
        pure (some (-1)))
    match returned with
    | some r => pure r
    | none =>
      pure 0

/-- The function `UpdateGUI` of vvITKConfidenceConnected.cxx: the value returned and the info it leaves. -/
def UpdateGUI (H : Headers) (info : vtkVVPluginInfo) : Int × vtkVVPluginInfo :=
  let info := info.SetGUIProperty 0 .VVP_GUI_LABEL "Number of Iterations"
  let info := info.SetGUIProperty 0 .VVP_GUI_TYPE VVP_GUI_SCALE
  let info := info.SetGUIProperty 0 .VVP_GUI_DEFAULT "5"
  let info := info.SetGUIProperty 0 .VVP_GUI_HELP "Number of times that region growing process should be repeated. If initial statistical estimations are good, further iterations may improve the segmentation. After a certain number of iterations the result will not change. "
  let info := info.SetGUIProperty 0 .VVP_GUI_HINTS "1 20 1"
  let info := info.SetGUIProperty 1 .VVP_GUI_LABEL "Variance Multiplier"
  let info := info.SetGUIProperty 1 .VVP_GUI_TYPE VVP_GUI_SCALE
  let info := info.SetGUIProperty 1 .VVP_GUI_DEFAULT "2.5"
  let info := info.SetGUIProperty 1 .VVP_GUI_HELP "Factor that will multiplies the variance of the pixels region in order to define the intensity range for which new pixels will be accepted in the region."
  let info := info.SetGUIProperty 1 .VVP_GUI_HINTS "0.1 10.0 0.1"
  let info := info.SetGUIProperty 2 .VVP_GUI_LABEL "Replace Value"
  let info := info.SetGUIProperty 2 .VVP_GUI_TYPE VVP_GUI_SCALE
  let info := info.SetGUIProperty 2 .VVP_GUI_DEFAULT "255"
  let info := info.SetGUIProperty 2 .VVP_GUI_HELP "Value to assign to the binary mask of the segmented region. The rest of the image will be set to zero."
  let info := info.SetGUIProperty 2 .VVP_GUI_HINTS "1 255.0 1.0"
  let info := info.SetGUIProperty 3 .VVP_GUI_LABEL "Initial Neighborhood Radius"
  let info := info.SetGUIProperty 3 .VVP_GUI_TYPE VVP_GUI_SCALE
  let info := info.SetGUIProperty 3 .VVP_GUI_DEFAULT "2"
  let info := info.SetGUIProperty 3 .VVP_GUI_HELP "Size of the initial neighborhood used to compute the statistics of the region. If the region in which the seed points are placed happens to be a homogeneous intensity distribution, increasing this radius will safely improve the statistical estimation of mean and variance. Make sure that the radius is not large enough to make contours participate in the computation of the estimation. That is, from any seed point to the nearest important edge, there should be a distance larger than this radius."
  let info := info.SetGUIProperty 3 .VVP_GUI_HINTS "1 20.0 1.0"
  let info := info.SetGUIProperty 4 .VVP_GUI_LABEL "Produce composite output"
  let info := info.SetGUIProperty 4 .VVP_GUI_TYPE VVP_GUI_CHECKBOX
  let info := info.SetGUIProperty 4 .VVP_GUI_DEFAULT "0"
  let info := info.SetGUIProperty 4 .VVP_GUI_HELP "This filter produce by default a binary image as output. Enabling this option will instead generate a composite output combining the input image and the binary mask as an image of two components. This is convenient for evaluating the quality of a segmentation."
  let info := info.SetProperty .VVP_REQUIRED_Z_OVERLAP "0"
  let info := info.setOutputVolumeScalarType H.VTK_UNSIGNED_CHAR
  let info := info.setOutputVolumeNumberOfComponents 1
  let info := info.SetProperty .VVP_PER_VOXEL_MEMORY_REQUIRED "1"
  let compositeOutputProperty := info.GetGUIProperty 4 .VVP_GUI_VALUE
  let info :=
    match compositeOutputProperty with
    | some s =>
      let compositeOutput := decide (H.atoi s ≠ 0)
      if compositeOutput then
        let info := info.setOutputVolumeScalarType info.InputVolumeScalarType
        let info := info.setOutputVolumeNumberOfComponents 2
        info.SetProperty .VVP_PER_VOXEL_MEMORY_REQUIRED "2"
      else
        info
    | none => info
  let info := info.setOutputVolumeDimensions info.InputVolumeDimensions
  let info := info.setOutputVolumeSpacing info.InputVolumeSpacing
  let info := info.setOutputVolumeOrigin info.InputVolumeOrigin
  (1, info)

/-- The exported function `vvITKConfidenceConnectedInit`, without the version check and the two
assignments of function pointers. -/
def vvITKConfidenceConnectedInit (H : Headers) (info : vtkVVPluginInfo) : vtkVVPluginInfo :=
  let info := info.SetProperty .VVP_NAME "Confidence Connected (ITK) "
  let info := info.SetProperty .VVP_GROUP "Segmentation - Region Growing"
  let info := info.SetProperty .VVP_TERSE_DOCUMENTATION "Confidence Connected Segmentation"
  let info := info.SetProperty .VVP_FULL_DOCUMENTATION "This filter applies an region growing algorithm for segmentation. The criterion for including new pixels in the region is defined by an intensity range around the mean value of the pixels existing in the region. The extent of the intensity interval is computed as the product of the variance and a multiplier provided by the user. The coordinates of the seed points are used as the initial position for start growing the region."
  let info := info.SetProperty .VVP_SUPPORTS_IN_PLACE_PROCESSING "0"
  let info := info.SetProperty .VVP_SUPPORTS_PROCESSING_PIECES "0"
  let info := info.SetProperty .VVP_NUMBER_OF_GUI_ITEMS "5"
  let info := info.SetProperty .VVP_REQUIRED_Z_OVERLAP "0"
  let info := info.setOutputVolumeScalarType H.VTK_UNSIGNED_CHAR
  let info := info.setOutputVolumeNumberOfComponents 1
  let info := info.SetProperty .VVP_PER_VOXEL_MEMORY_REQUIRED "1"
  let info := info.SetProperty .VVP_REQUIRES_SERIES_INPUT "0"
  let info := info.SetProperty .VVP_SUPPORTS_PROCESSING_SERIES_BY_VOLUMES "0"
  let info := info.SetProperty .VVP_PRODUCES_OUTPUT_SERIES "0"
  let info := info.SetProperty .VVP_PRODUCES_PLOTTING_OUTPUT "0"
  info

end vvITKConfidenceConnected

/-! ## vvITKGeodesicActiveContour.cxx -/

namespace vvITKGeodesicActiveContour

/-- The method `GeodesicActiveContoureRunner<InputPixelType>::Execute`. -/
def GeodesicActiveContoureRunner.Execute (H : Headers) (P : Pipeline) (p : PixelType) : Run Unit := do
  Run.emit (Event.Execute .GeodesicActiveContour p)
  Run.emit (Event.module "SetPluginInfo" Arg.none)
  Run.emit (Event.module "SetUpdateMessage" (Arg.str "Computing Geodesic Active Contour..."))
  let result ← moduleProcessData P .GeodesicActiveContour p
  Run.SetProperty .VVP_REPORT_TEXT (reportText H result.ElapsedIterations result.RMSChange)

/-- The function `ProcessData` of vvITKGeodesicActiveContour.cxx. Inside the `try` block the value is
`some r` for `return r` and `none` when control leaves the `switch` (by `break`,
or because no label matches: this `switch` has no `default`). -/
def ProcessData (H : Headers) (P : Pipeline) : Run Int := do
  let info ← Run.getInfo
  if info.InputVolumeNumberOfComponents ≠ 1 then
    Run.SetProperty .VVP_ERROR "This filter requires a single-component data set as input"
    pure (-1)
  else
    let returned ← Run.tryCatch
      (do
        match scalarTypeSwitch H info.InputVolumeScalarType with
        | some p =>
          GeodesicActiveContoureRunner.Execute H P p
          pure none
        | none =>
          pure none)
      (fun what => do
        Run.SetProperty .VVP_ERROR what
        pure (some (-1)))
    match returned with
    | some r => pure r
    | none =>
      Run.UpdateProgress 1 "Geodesic Active Contour LevelSet Done !"
      pure 0

/-- The function `UpdateGUI` of vvITKGeodesicActiveContour.cxx: the value returned and the info it leaves. -/
def UpdateGUI (H : Headers) (info : vtkVVPluginInfo) : Int × vtkVVPluginInfo :=
  let info := info.SetGUIProperty 0 .VVP_GUI_LABEL "Sigma for gradient magnitude."
  let info := info.SetGUIProperty 0 .VVP_GUI_TYPE VVP_GUI_SCALE
  let info := info.SetGUIProperty 0 .VVP_GUI_DEFAULT "1.0"
  let info := info.SetGUIProperty 0 .VVP_GUI_HELP "Sigma used by the smoothing previous to computing the gradient magnitude. Large values of sigma will reduce noise in the image but will also degrade contours. Sigma is measured in millimeters, not pixels"
  let info := info.SetGUIProperty 0 .VVP_GUI_HINTS "0.1 10.0 0.1"
  let info := info.SetGUIProperty 1 .VVP_GUI_LABEL "Curvature scaling."
  let info := info.SetGUIProperty 1 .VVP_GUI_TYPE VVP_GUI_SCALE
  let info := info.SetGUIProperty 1 .VVP_GUI_DEFAULT "1.0"
  let info := info.SetGUIProperty 1 .VVP_GUI_HELP "Scaling factor for the curvature contribution. Larger values will result in smoother contours"
  let info := info.SetGUIProperty 1 .VVP_GUI_HINTS "0.1 10.0 0.1"
  let info := info.SetGUIProperty 2 .VVP_GUI_LABEL "Propagation scaling."
  let info := info.SetGUIProperty 2 .VVP_GUI_TYPE VVP_GUI_SCALE
  let info := info.SetGUIProperty 2 .VVP_GUI_DEFAULT "1.0"
  let info := info.SetGUIProperty 2 .VVP_GUI_HELP "Scaling factor for the inflation factor. Larger factors will result in rapid expansion with irregular borders"
  let info := info.SetGUIProperty 2 .VVP_GUI_HINTS "0.1 10.0 0.1"
  let info := info.SetGUIProperty 3 .VVP_GUI_LABEL "Advection scaling."
  let info := info.SetGUIProperty 3 .VVP_GUI_TYPE VVP_GUI_SCALE
  let info := info.SetGUIProperty 3 .VVP_GUI_DEFAULT "1.0"
  let info := info.SetGUIProperty 3 .VVP_GUI_HELP "Scaling factor for the advection factor. This factor generates a force that is proportional to the slant of the level set at a point."
  let info := info.SetGUIProperty 3 .VVP_GUI_HINTS "0.1 10.0 0.1"
  let info := info.SetGUIProperty 4 .VVP_GUI_LABEL "Maximum RMS Error."
  let info := info.SetGUIProperty 4 .VVP_GUI_TYPE VVP_GUI_SCALE
  let info := info.SetGUIProperty 4 .VVP_GUI_DEFAULT "0.06"
  let info := info.SetGUIProperty 4 .VVP_GUI_HELP "Threshold of the RMS change between one iteration and the previous one. This is a convergence criteria, the process will stop when the RMS change is lower than the value set here"
  let info := info.SetGUIProperty 4 .VVP_GUI_HINTS "0.01 0.5 0.01"
  let info := info.SetGUIProperty 5 .VVP_GUI_LABEL "Maximum iterations."
  let info := info.SetGUIProperty 5 .VVP_GUI_TYPE VVP_GUI_SCALE
  let info := info.SetGUIProperty 5 .VVP_GUI_DEFAULT "100.0"
  let info := info.SetGUIProperty 5 .VVP_GUI_HELP "The maximum number of iteration to apply the time step in the partial differental equation."
  let info := info.SetGUIProperty 5 .VVP_GUI_HINTS "1.0 500.0 1.0"
  let info := info.SetProperty .VVP_REQUIRED_Z_OVERLAP "0"
  let info := info.setOutputVolumeScalarType H.VTK_UNSIGNED_CHAR
  let info := info.setOutputVolumeNumberOfComponents 1
  let info := info.setOutputVolumeDimensions info.InputVolumeDimensions
  let info := info.setOutputVolumeSpacing info.InputVolumeSpacing
  let info := info.setOutputVolumeOrigin info.InputVolumeOrigin
  (1, info)

/-- The exported function `vvITKGeodesicActiveContourInit`, without the version check and the two
assignments of function pointers. -/
def vvITKGeodesicActiveContourInit (H : Headers) (info : vtkVVPluginInfo) : vtkVVPluginInfo :=
  let info := info.SetProperty .VVP_NAME "Geodesic Active Contour (ITK)"
  let info := info.SetProperty .VVP_GROUP "Segmentation - Level Sets"
  let info := info.SetProperty .VVP_TERSE_DOCUMENTATION "Geodesic Active Contour"
  let info := info.SetProperty .VVP_FULL_DOCUMENTATION "This module applies the Geodesic Active Contour method for segmenting a volume. No preprocessing is performed here. The user must provide as inputs an initial level set and the feature image which will be used to compute speeds. The current image being visualized will be taken as the initial level set. The speed image required  as a second input can be specified by providinng a file name in the GUI."
  let info := info.SetProperty .VVP_SUPPORTS_IN_PLACE_PROCESSING "0"
  let info := info.SetProperty .VVP_SUPPORTS_PROCESSING_PIECES "0"
  let info := info.SetProperty .VVP_NUMBER_OF_GUI_ITEMS "6"
  let info := info.SetProperty .VVP_REQUIRED_Z_OVERLAP "0"
  let info := info.SetProperty .VVP_PER_VOXEL_MEMORY_REQUIRED "16"
  let info := info.SetProperty .VVP_REQUIRES_SECOND_INPUT "1"
  let info := info.SetProperty .VVP_REQUIRES_SERIES_INPUT "0"
  let info := info.SetProperty .VVP_SUPPORTS_PROCESSING_SERIES_BY_VOLUMES "0"
  let info := info.SetProperty .VVP_PRODUCES_OUTPUT_SERIES "0"
  let info := info.SetProperty .VVP_PRODUCES_PLOTTING_OUTPUT "0"
  info

end vvITKGeodesicActiveContour

/-! ## vvITKGeodesicActiveContourModule.cxx -/

namespace vvITKGeodesicActiveContourModule

/-- The method `GeodesicActiveContourModuleRunner<InputPixelType>::Execute`. -/
def GeodesicActiveContourModuleRunner.Execute (H : Headers) (P : Pipeline) (p : PixelType) : Run Unit := do
  Run.emit (Event.Execute .GeodesicActiveContourModule p)
  let distanceFromSeeds := toFloat (← atofGUIValue H 0)
  let gaussianSigma := toFloat (← atofGUIValue H 1)
  let lowestBasinValue := toFloat (← atofGUIValue H 2)
  let lowestBorderValue := toFloat (← atofGUIValue H 3)
  let curvatureScaling := toFloat (← atofGUIValue H 4)
  let propagationScaling := toFloat (← atofGUIValue H 5)
  let advectionScaling := toFloat (← atofGUIValue H 6)
  let maximumRMSError := toFloat (← atofGUIValue H 7)
  let maximumNumberOfIterations := toUnsignedInt (← atoiGUIValue H 8)
  let numberOfSeeds := toUnsignedInt (← Run.getInfo).NumberOfMarkers
  Run.emit (Event.module "SetPluginInfo" Arg.none)
  Run.emit (Event.module "SetUpdateMessage" (Arg.str "Computing Geodesic Active Contour Module..."))
  Run.emit (Event.module "SetDistanceFromSeeds" (Arg.real distanceFromSeeds))
  Run.emit (Event.module "SetSigma" (Arg.real gaussianSigma))
  Run.emit (Event.module "SetLowestBasinValue" (Arg.real lowestBasinValue))
  Run.emit (Event.module "SetLowestBorderValue" (Arg.real lowestBorderValue))
  Run.emit (Event.module "SetCurvatureScaling" (Arg.real curvatureScaling))
  Run.emit (Event.module "SetPropagationScaling" (Arg.real propagationScaling))
  Run.emit (Event.module "SetAdvectionScaling" (Arg.real advectionScaling))
  Run.emit (Event.module "SetMaximumRMSError" (Arg.real maximumRMSError))
  Run.emit (Event.module "SetNumberOfIterations" (Arg.int maximumNumberOfIterations))
  seedLoop (Event.module "AddSeed") (List.range numberOfSeeds.toNat)
  let result ← moduleProcessData P .GeodesicActiveContourModule p
  Run.SetProperty .VVP_REPORT_TEXT (reportText H result.ElapsedIterations result.RMSChange)

/-- The function `ProcessData` of vvITKGeodesicActiveContourModule.cxx. Inside the `try` block the value is
`some r` for `return r` and `none` when control leaves the `switch` (by `break`,
or because no label matches: this `switch` has no `default`). -/
def ProcessData (H : Headers) (P : Pipeline) : Run Int := do
  let info ← Run.getInfo
  if info.InputVolumeNumberOfComponents ≠ 1 then
    Run.SetProperty .VVP_ERROR "This filter requires a single-component data set as input"
    pure (-1)
  else if info.NumberOfMarkers < 1 then
    Run.SetProperty .VVP_ERROR "Please select points using the 3D Markers in the Annotation menu"
    pure (-1)
  else
    let returned ← Run.tryCatch
      (do
        match scalarTypeSwitch H info.InputVolumeScalarType with
        | some p =>
          GeodesicActiveContourModuleRunner.Execute H P p
          pure none
        | none =>
          pure none)
      (fun what => do
        Run.SetProperty .VVP_ERROR what
        pure (some (-1)))
    match returned with
    | some r => pure r
    | none =>
      Run.UpdateProgress 1 "Geodesic Active Contour LevelSet Done !"
      pure 0

/-- The function `UpdateGUI` of vvITKGeodesicActiveContourModule.cxx: the value returned and the info it leaves. -/
def UpdateGUI (H : Headers) (info : vtkVVPluginInfo) : Int × vtkVVPluginInfo :=
  let info := info.SetGUIProperty 0 .VVP_GUI_LABEL "Distance from seeds."
  let info := info.SetGUIProperty 0 .VVP_GUI_TYPE VVP_GUI_SCALE
  let info := info.SetGUIProperty 0 .VVP_GUI_DEFAULT "5.0"
  let info := info.SetGUIProperty 0 .VVP_GUI_HELP "An initial level will be created using the seed points. The zero set will be placed at a certain distance from the seed points. The value set in this scale is the distance to be used"
  let info := info.SetGUIProperty 0 .VVP_GUI_HINTS "1.0 100.0 1.0"
  let info := info.SetGUIProperty 1 .VVP_GUI_LABEL "Sigma for gradient magnitude."
  let info := info.SetGUIProperty 1 .VVP_GUI_TYPE VVP_GUI_SCALE
  let info := info.SetGUIProperty 1 .VVP_GUI_DEFAULT "1.0"
  let info := info.SetGUIProperty 1 .VVP_GUI_HELP "Sigma used by the smoothing previous to computing the gradient magnitude. Large values of sigma will reduce noise in the image but will also degrade contours. Sigma is measured in millimeters, not pixels"
  let info := info.SetGUIProperty 1 .VVP_GUI_HINTS "0.1 10.0 0.1"
  let info := info.SetGUIProperty 2 .VVP_GUI_LABEL "Bottom of basin."
  let info := info.SetGUIProperty 2 .VVP_GUI_TYPE VVP_GUI_SCALE
  let info := info.SetGUIProperty 2 .VVP_GUI_DEFAULT "0.0"
  let info := info.SetGUIProperty 2 .VVP_GUI_HELP "The lowest value of the gradient magnitude in the inside of the region to be segmented. This value will be mapped by the Sigmoid into the fastest propagation in the speed image."
  let info := info.SetGUIProperty 2 .VVP_GUI_HINTS "0.1 10.0 0.1"
  let info := info.SetGUIProperty 3 .VVP_GUI_LABEL "Lowest of basin border."
  let info := info.SetGUIProperty 3 .VVP_GUI_TYPE VVP_GUI_SCALE
  let info := info.SetGUIProperty 3 .VVP_GUI_DEFAULT "6.0"
  let info := info.SetGUIProperty 3 .VVP_GUI_HELP "The lowest value of the gradient magnitude in the border of the region to be segmented. This value will be mapped by the Sigmoid into the slowest propagation in the speed image."
  let info := info.SetGUIProperty 3 .VVP_GUI_HINTS "0.1 50.0 0.1"
  let info := info.SetGUIProperty 4 .VVP_GUI_LABEL "Curvature scaling."
  let info := info.SetGUIProperty 4 .VVP_GUI_TYPE VVP_GUI_SCALE
  let info := info.SetGUIProperty 4 .VVP_GUI_DEFAULT "1.0"
  let info := info.SetGUIProperty 4 .VVP_GUI_HELP "Scaling factor for the curvature contribution. Larger values will result in smoother contours"
  let info := info.SetGUIProperty 4 .VVP_GUI_HINTS "0.1 10.0 0.1"
  let info := info.SetGUIProperty 5 .VVP_GUI_LABEL "Propagation scaling."
  let info := info.SetGUIProperty 5 .VVP_GUI_TYPE VVP_GUI_SCALE
  let info := info.SetGUIProperty 5 .VVP_GUI_DEFAULT "1.0"
  let info := info.SetGUIProperty 5 .VVP_GUI_HELP "Scaling factor for the inflation factor. Larger factors will result in rapid expansion with irregular borders"
  let info := info.SetGUIProperty 5 .VVP_GUI_HINTS "0.1 10.0 0.1"
  let info := info.SetGUIProperty 6 .VVP_GUI_LABEL "Advection scaling."
  let info := info.SetGUIProperty 6 .VVP_GUI_TYPE VVP_GUI_SCALE
  let info := info.SetGUIProperty 6 .VVP_GUI_DEFAULT "1.0"
  let info := info.SetGUIProperty 6 .VVP_GUI_HELP "Scaling factor for the advection factor. This factor generates a force that is proportional to the slant of the level set at a point."
  let info := info.SetGUIProperty 6 .VVP_GUI_HINTS "0.1 10.0 0.1"
  let info := info.SetGUIProperty 7 .VVP_GUI_LABEL "Maximum RMS Error."
  let info := info.SetGUIProperty 7 .VVP_GUI_TYPE VVP_GUI_SCALE
  let info := info.SetGUIProperty 7 .VVP_GUI_DEFAULT "0.06"
  let info := info.SetGUIProperty 7 .VVP_GUI_HELP "Threshold of the RMS change between one iteration and the previous one. This is a convergence criteria, the process will stop when the RMS change is lower than the value set here"
  let info := info.SetGUIProperty 7 .VVP_GUI_HINTS "0.01 0.5 0.01"
  let info := info.SetGUIProperty 8 .VVP_GUI_LABEL "Maximum iterations."
  let info := info.SetGUIProperty 8 .VVP_GUI_TYPE VVP_GUI_SCALE
  let info := info.SetGUIProperty 8 .VVP_GUI_DEFAULT "100.0"
  let info := info.SetGUIProperty 8 .VVP_GUI_HELP "The maximum number of iteration to apply the time step in the partial differental equation."
  let info := info.SetGUIProperty 8 .VVP_GUI_HINTS "1.0 500.0 1.0"
  let info := info.SetProperty .VVP_REQUIRED_Z_OVERLAP "0"
  let info := info.setOutputVolumeScalarType H.VTK_UNSIGNED_CHAR
  let info := info.setOutputVolumeNumberOfComponents 1
  let info := info.setOutputVolumeDimensions info.InputVolumeDimensions
  let info := info.setOutputVolumeSpacing info.InputVolumeSpacing
  let info := info.setOutputVolumeOrigin info.InputVolumeOrigin
  (1, info)

/-- The exported function `vvITKGeodesicActiveContourModuleInit`, without the version check and the two
assignments of function pointers. -/
def vvITKGeodesicActiveContourModuleInit (H : Headers) (info : vtkVVPluginInfo) : vtkVVPluginInfo :=
  let info := info.SetProperty .VVP_NAME "Geodesic Active Contour Module (ITK)"
  let info := info.SetProperty .VVP_GROUP "Segmentation - Level Sets"
  let info := info.SetProperty .VVP_TERSE_DOCUMENTATION "Geodesic Active Contour Module"
  let info := info.SetProperty .VVP_FULL_DOCUMENTATION "This module applies the Geodesic Active Contour method for segmenting a volume. All the necessary  preprocessing is packaged in this module. This makes it a good choice when you are already familiar with the parameters settings requires for you particular data set. When you are applying GeodesicActiveContour to a new data set, you may want to rather go step by step using each one the individual filters. Please experience first with the FastMarching modules, since it is used here for preprocessing the data set before applying the GeodesicActiveContour filter."
  let info := info.SetProperty .VVP_SUPPORTS_IN_PLACE_PROCESSING "0"
  let info := info.SetProperty .VVP_SUPPORTS_PROCESSING_PIECES "0"
  let info := info.SetProperty .VVP_NUMBER_OF_GUI_ITEMS "9"
  let info := info.SetProperty .VVP_REQUIRED_Z_OVERLAP "0"
  let info := info.SetProperty .VVP_PER_VOXEL_MEMORY_REQUIRED "16"
  let info := info.SetProperty .VVP_REQUIRES_SERIES_INPUT "0"
  let info := info.SetProperty .VVP_SUPPORTS_PROCESSING_SERIES_BY_VOLUMES "0"
  let info := info.SetProperty .VVP_PRODUCES_OUTPUT_SERIES "0"
  let info := info.SetProperty .VVP_PRODUCES_PLOTTING_OUTPUT "0"
  info

end vvITKGeodesicActiveContourModule

/-! ## vvITKGradientAnisotropicDiffusion.cxx -/

namespace vvITKGradientAnisotropicDiffusion

/-- The method `GradientAnisotropicDiffusionRunner<InputPixelType>::Execute`. -/
def GradientAnisotropicDiffusionRunner.Execute (H : Headers) (P : Pipeline) (p : PixelType) : Run Unit := do
  Run.emit (Event.Execute .GradientAnisotropicDiffusion p)
  let numberOfIterations := toUnsignedInt (← atoiGUIValue H 0)
  let timeStep := toFloat (← atofGUIValue H 1)
  let conductance := toFloat (← atofGUIValue H 2)
  Run.emit (Event.module "SetPluginInfo" Arg.none)
  Run.emit (Event.module "SetUpdateMessage" (Arg.str "Smoothing with Gradient Anisotropic Diffusion..."))
  Run.emit (Event.filter "SetNumberOfIterations" (Arg.int numberOfIterations))
  Run.emit (Event.filter "SetTimeStep" (Arg.real timeStep))
  Run.emit (Event.filter "SetConductanceParameter" (Arg.real conductance))
  let _ ← moduleProcessData P .GradientAnisotropicDiffusion p
  pure ()

/-- The function `ProcessData` of vvITKGradientAnisotropicDiffusion.cxx. Inside the `try` block the value is
`some r` for `return r` and `none` when control leaves the `switch` (by `break`,
or because no label matches: this `switch` has no `default`). -/
def ProcessData (H : Headers) (P : Pipeline) : Run Int := do
  let info ← Run.getInfo
  let returned ← Run.tryCatch
    (do
      match scalarTypeSwitch H info.InputVolumeScalarType with
      | some p =>
        GradientAnisotropicDiffusionRunner.Execute H P p
        pure none
      | none =>
        pure none)
    (fun what => do
      Run.SetProperty .VVP_ERROR what
      pure (some (-1)))
  match returned with
  | some r => pure r
  | none =>
    pure 0

/-- The function `UpdateGUI` of vvITKGradientAnisotropicDiffusion.cxx: the value returned and the info it leaves. -/
def UpdateGUI (H : Headers) (info : vtkVVPluginInfo) : Int × vtkVVPluginInfo :=
  let info := info.SetGUIProperty 0 .VVP_GUI_LABEL "Number of Iterations "
  let info := info.SetGUIProperty 0 .VVP_GUI_TYPE VVP_GUI_SCALE
  let info := info.SetGUIProperty 0 .VVP_GUI_DEFAULT "5"
  let info := info.SetGUIProperty 0 .VVP_GUI_HELP "Number of times that the diffusion approximation will be computed. The more iterations, the stronger the smoothing"
  let info := info.SetGUIProperty 0 .VVP_GUI_HINTS "1 100 1"
  let info := info.SetGUIProperty 1 .VVP_GUI_LABEL "Time Step"
  let info := info.SetGUIProperty 1 .VVP_GUI_TYPE VVP_GUI_SCALE
  let info := info.SetGUIProperty 1 .VVP_GUI_DEFAULT "0.05"
  let info := info.SetGUIProperty 1 .VVP_GUI_HELP "Discretization of time for approximating the diffusion process."
  let info := info.SetGUIProperty 1 .VVP_GUI_HINTS "0.01 1.0 0.005"
  let info := info.SetGUIProperty 2 .VVP_GUI_LABEL "Conductance"
  let info := info.SetGUIProperty 2 .VVP_GUI_TYPE VVP_GUI_SCALE
  let info := info.SetGUIProperty 2 .VVP_GUI_DEFAULT "3.0"
  let info := info.SetGUIProperty 2 .VVP_GUI_HELP "Factor that multiplies the image gradient in order to compute the effective conductance locally. The higher the value of this parameter, the stronger the diffusion will be"
  let info := info.SetGUIProperty 2 .VVP_GUI_HINTS "0.1 10.0 0.1"
  let stringValue := info.GetGUIProperty 0 .VVP_GUI_VALUE
  let info :=
    match stringValue with
    | none => info.SetProperty .VVP_REQUIRED_Z_OVERLAP "0"
    | some s => info.SetProperty .VVP_REQUIRED_Z_OVERLAP s
  let info := info.setOutputVolumeScalarType info.InputVolumeScalarType
  let info := info.setOutputVolumeNumberOfComponents info.InputVolumeNumberOfComponents
  let info := info.setOutputVolumeDimension 0 (info.InputVolumeDimensions 0)
  let info := info.setOutputVolumeDimension 1 (info.InputVolumeDimensions 1)
  let info := info.setOutputVolumeDimension 2 (info.InputVolumeDimensions 2)
  let info := info.setOutputVolumeSpacing info.InputVolumeSpacing
  let info := info.setOutputVolumeOrigin info.InputVolumeOrigin
  let sizeReq : Int := 2 * 4
  let sizeReq :=
    if info.InputVolumeNumberOfComponents > 1 then toSignedInt (sizeReq + info.InputVolumeScalarSize)
    else sizeReq
  let info := info.SetProperty .VVP_PER_VOXEL_MEMORY_REQUIRED (sprintf_d sizeReq)
  (1, info)

/-- The exported function `vvITKGradientAnisotropicDiffusionInit`, without the version check and the two
assignments of function pointers. -/
def vvITKGradientAnisotropicDiffusionInit (H : Headers) (info : vtkVVPluginInfo) : vtkVVPluginInfo :=
  let info := info.SetProperty .VVP_NAME "Gradient Anisotropic Diffusion (ITK)"
  let info := info.SetProperty .VVP_GROUP "Noise Suppression"
  let info := info.SetProperty .VVP_TERSE_DOCUMENTATION "Anisotropic diffusion smoothing"
  let info := info.SetProperty .VVP_FULL_DOCUMENTATION "This filter applies an edge-preserving smoothing to a volume by computing the evolution of an anisotropic diffusion partial differential equation. Diffusion is regulated by the gradient of the image. This filter processes the whole image in one piece, and does not change the dimensions, data type, or spacing of the volume."
  let info := info.SetProperty .VVP_SUPPORTS_IN_PLACE_PROCESSING "0"
  let info := info.SetProperty .VVP_SUPPORTS_PROCESSING_PIECES "0"
  let info := info.SetProperty .VVP_NUMBER_OF_GUI_ITEMS "3"
  let info := info.SetProperty .VVP_REQUIRED_Z_OVERLAP "0"
  let info := info.SetProperty .VVP_PER_VOXEL_MEMORY_REQUIRED "8"
  let info := info.SetProperty .VVP_REQUIRES_SERIES_INPUT "0"
  let info := info.SetProperty .VVP_SUPPORTS_PROCESSING_SERIES_BY_VOLUMES "0"
  let info := info.SetProperty .VVP_PRODUCES_OUTPUT_SERIES "0"
  let info := info.SetProperty .VVP_PRODUCES_PLOTTING_OUTPUT "0"
  info

end vvITKGradientAnisotropicDiffusion

/-! ## vvITKGradientMagnitude.cxx -/

namespace vvITKGradientMagnitude

/-- The method `GradientMagnitudeRunner<InputPixelType>::Execute`. -/
def GradientMagnitudeRunner.Execute (H : Headers) (P : Pipeline) (p : PixelType) : Run Unit := do
  Run.emit (Event.Execute .GradientMagnitude p)
  Run.emit (Event.module "SetPluginInfo" Arg.none)
  Run.emit (Event.module "SetUpdateMessage" (Arg.str "Computing the gradient magnitude..."))
  let _ ← moduleProcessData P .GradientMagnitude p
  pure ()

/-- The function `ProcessData` of vvITKGradientMagnitude.cxx. Inside the `try` block the value is
`some r` for `return r` and `none` when control leaves the `switch` (by `break`,
or because no label matches: this `switch` has no `default`). -/
def ProcessData (H : Headers) (P : Pipeline) : Run Int := do
  let info ← Run.getInfo
  let returned ← Run.tryCatch
    (do
      match scalarTypeSwitch H info.InputVolumeScalarType with
      | some p =>
        GradientMagnitudeRunner.Execute H P p
        pure none
      | none =>
        pure none)
    (fun what => do
      Run.SetProperty .VVP_ERROR what
      pure (some (-1)))
  match returned with
  | some r => pure r
  | none =>
    pure 0

/-- The function `UpdateGUI` of vvITKGradientMagnitude.cxx: the value returned and the info it leaves. -/
def UpdateGUI (H : Headers) (info : vtkVVPluginInfo) : Int × vtkVVPluginInfo :=
  let info := info.SetProperty .VVP_REQUIRED_Z_OVERLAP "0"
  let info := info.setOutputVolumeScalarType info.InputVolumeScalarType
  let info := info.setOutputVolumeNumberOfComponents info.InputVolumeNumberOfComponents
  let info := info.setOutputVolumeDimensions info.InputVolumeDimensions
  let info := info.setOutputVolumeSpacing info.InputVolumeSpacing
  let info := info.setOutputVolumeOrigin info.InputVolumeOrigin
  let info :=
    if info.InputVolumeNumberOfComponents > 1 then
      let sizeReq := toSignedInt (2 * info.InputVolumeScalarSize)
      info.SetProperty .VVP_PER_VOXEL_MEMORY_REQUIRED (sprintf_d sizeReq)
    else
      info.SetProperty .VVP_PER_VOXEL_MEMORY_REQUIRED "0"
  (1, info)

/-- The exported function `vvITKGradientMagnitudeInit`, without the version check and the two
assignments of function pointers. -/
def vvITKGradientMagnitudeInit (H : Headers) (info : vtkVVPluginInfo) : vtkVVPluginInfo :=
  let info := info.SetProperty .VVP_NAME "Gradient Magnitude (ITK)"
  let info := info.SetProperty .VVP_GROUP "Utility"
  let info := info.SetProperty .VVP_TERSE_DOCUMENTATION "Gradient Magnitude"
  let info := info.SetProperty .VVP_FULL_DOCUMENTATION "This filter computes the magnitude if the gradient using finite differences. Basically by convolving with masks of type [-1,0,1]."
  let info := info.SetProperty .VVP_SUPPORTS_IN_PLACE_PROCESSING "0"
  let info := info.SetProperty .VVP_SUPPORTS_PROCESSING_PIECES "0"
  let info := info.SetProperty .VVP_NUMBER_OF_GUI_ITEMS "0"
  let info := info.SetProperty .VVP_REQUIRED_Z_OVERLAP "0"
  let info := info.SetProperty .VVP_PER_VOXEL_MEMORY_REQUIRED "0"
  let info := info.SetProperty .VVP_REQUIRES_SERIES_INPUT "0"
  let info := info.SetProperty .VVP_SUPPORTS_PROCESSING_SERIES_BY_VOLUMES "0"
  let info := info.SetProperty .VVP_PRODUCES_OUTPUT_SERIES "0"
  let info := info.SetProperty .VVP_PRODUCES_PLOTTING_OUTPUT "0"
  info

end vvITKGradientMagnitude

/-! ## vvITKIntensityWindowing.cxx -/

namespace vvITKIntensityWindowing

/-- The method `IntensityWindowingRunner<InputPixelType>::Execute`. -/
def IntensityWindowingRunner.Execute (H : Headers) (P : Pipeline) (p : PixelType) : Run Unit := do
  Run.emit (Event.Execute .IntensityWindowing p)
  let windowMinimum := toFloat (← atofGUIValue H 0)
  let windowMaximum := toFloat (← atofGUIValue H 1)
  let outputMinimum := toFloat (← atofGUIValue H 2)
  let outputMaximum := toFloat (← atofGUIValue H 3)
  Run.emit (Event.module "SetPluginInfo" Arg.none)
  Run.emit (Event.module "SetUpdateMessage" (Arg.str "Transforming intensities with a IntensityWindowing function..."))
  Run.emit (Event.filter "SetWindowMinimum" (Arg.pixel (static_cast H p windowMinimum)))
  Run.emit (Event.filter "SetWindowMaximum" (Arg.pixel (static_cast H p windowMaximum)))
  Run.emit (Event.filter "SetOutputMinimum" (Arg.pixel (static_cast H p outputMinimum)))
  Run.emit (Event.filter "SetOutputMaximum" (Arg.pixel (static_cast H p outputMaximum)))
  let _ ← moduleProcessData P .IntensityWindowing p
  pure ()

/-- The function `ProcessData` of vvITKIntensityWindowing.cxx. Inside the `try` block the value is
`some r` for `return r` and `none` when control leaves the `switch` (by `break`,
or because no label matches: this `switch` has no `default`). -/
def ProcessData (H : Headers) (P : Pipeline) : Run Int := do
  let info ← Run.getInfo
  let returned ← Run.tryCatch
    (do
      match scalarTypeSwitch H info.InputVolumeScalarType with
      | some p =>
        IntensityWindowingRunner.Execute H P p
        pure none
      | none =>
        pure none)
    (fun what => do
      Run.SetProperty .VVP_ERROR what
      pure (some (-1)))
  match returned with
  | some r => pure r
  | none =>
    pure 0

/-- The function `UpdateGUI` of vvITKIntensityWindowing.cxx: the value returned and the info it leaves. -/
def UpdateGUI (H : Headers) (info : vtkVVPluginInfo) : Int × vtkVVPluginInfo :=
  let info := info.SetGUIProperty 0 .VVP_GUI_LABEL "Window Minimum"
  let info := info.SetGUIProperty 0 .VVP_GUI_TYPE VVP_GUI_SCALE
  let info := info.SetGUIProperty 0 .VVP_GUI_DEFAULT (H.GetInputVolumeScalarMinimum info)
  let info := info.SetGUIProperty 0 .VVP_GUI_HELP "Desired value for the minimum intensity of the input window."
  let info := info.SetGUIProperty 0 .VVP_GUI_HINTS (H.GetInputVolumeScalarRange info)
  let info := info.SetGUIProperty 1 .VVP_GUI_LABEL "Window Maximum"
  let info := info.SetGUIProperty 1 .VVP_GUI_TYPE VVP_GUI_SCALE
  let info := info.SetGUIProperty 1 .VVP_GUI_DEFAULT (H.GetInputVolumeScalarMaximum info)
  let info := info.SetGUIProperty 1 .VVP_GUI_HELP "Desired value for the maximum intensity of the input window."
  let info := info.SetGUIProperty 1 .VVP_GUI_HINTS (H.GetInputVolumeScalarRange info)
  let info := info.SetGUIProperty 2 .VVP_GUI_LABEL "Output Minimum"
  let info := info.SetGUIProperty 2 .VVP_GUI_TYPE VVP_GUI_SCALE
  let info := info.SetGUIProperty 2 .VVP_GUI_DEFAULT (H.GetInputVolumeScalarTypeMinimum info)
  let info := info.SetGUIProperty 2 .VVP_GUI_HELP "Desired value for the minimum intensity of the output image."
  let info := info.SetGUIProperty 2 .VVP_GUI_HINTS (H.GetInputVolumeScalarTypeRange info)
  let info := info.SetGUIProperty 3 .VVP_GUI_LABEL "Output Maximum"
  let info := info.SetGUIProperty 3 .VVP_GUI_TYPE VVP_GUI_SCALE
  let info := info.SetGUIProperty 3 .VVP_GUI_DEFAULT (H.GetInputVolumeScalarTypeMaximum info)
  let info := info.SetGUIProperty 3 .VVP_GUI_HELP "Desired value for the maximum intensity of the output image."
  let info := info.SetGUIProperty 3 .VVP_GUI_HINTS (H.GetInputVolumeScalarTypeRange info)
  let info := info.SetProperty .VVP_REQUIRED_Z_OVERLAP "0"
  let info := info.setOutputVolumeScalarType info.InputVolumeScalarType
  let info := info.setOutputVolumeNumberOfComponents info.InputVolumeNumberOfComponents
  let info := info.setOutputVolumeDimensions info.InputVolumeDimensions
  let info := info.setOutputVolumeSpacing info.InputVolumeSpacing
  let info := info.setOutputVolumeOrigin info.InputVolumeOrigin
  let info :=
    if info.InputVolumeNumberOfComponents > 1 then
      let sizeReq := toSignedInt (2 * info.InputVolumeScalarSize)
      info.SetProperty .VVP_PER_VOXEL_MEMORY_REQUIRED (sprintf_d sizeReq)
    else
      info.SetProperty .VVP_PER_VOXEL_MEMORY_REQUIRED "0"
  (1, info)

/-- The exported function `vvITKIntensityWindowingInit`, without the version check and the two
assignments of function pointers. -/
def vvITKIntensityWindowingInit (H : Headers) (info : vtkVVPluginInfo) : vtkVVPluginInfo :=
  let info := info.SetProperty .VVP_NAME "Intensity Windowing (ITK)"
  let info := info.SetProperty .VVP_GROUP "Intensity Transformation"
  let info := info.SetProperty .VVP_TERSE_DOCUMENTATION "Intensity Windowing Transform"
  let info := info.SetProperty .VVP_FULL_DOCUMENTATION "This filters applies a pixel-wise intensity transform by using a IntensityWindowing function"
  let info := info.SetProperty .VVP_SUPPORTS_IN_PLACE_PROCESSING "0"
  let info := info.SetProperty .VVP_SUPPORTS_PROCESSING_PIECES "1"
  let info := info.SetProperty .VVP_NUMBER_OF_GUI_ITEMS "4"
  let info := info.SetProperty .VVP_REQUIRED_Z_OVERLAP "0"
  let info := info.SetProperty .VVP_PER_VOXEL_MEMORY_REQUIRED "0"
  let info := info.SetProperty .VVP_REQUIRES_SERIES_INPUT "0"
  let info := info.SetProperty .VVP_SUPPORTS_PROCESSING_SERIES_BY_VOLUMES "0"
  let info := info.SetProperty .VVP_PRODUCES_OUTPUT_SERIES "0"
  let info := info.SetProperty .VVP_PRODUCES_PLOTTING_OUTPUT "0"
  info

end vvITKIntensityWindowing

/-! ## vvITKSigmoid.cxx -/

namespace vvITKSigmoid

/-- The local `alpha` of `SigmoidRunner::Execute`. -/
def SigmoidRunner.alpha (normalizedAlpha lower upper : ℚ) : ℚ :=
  normalizedAlpha * upper - normalizedAlpha * lower

/-- The local `beta` of `SigmoidRunner::Execute`. -/
def SigmoidRunner.beta (normalizedBeta lower upper : ℚ) : ℚ :=
  (1 + normalizedBeta) / 2 * upper + (1 - normalizedBeta) / 2 * lower

/-- The method `SigmoidRunner<InputPixelType>::Execute`. -/
def SigmoidRunner.Execute (H : Headers) (P : Pipeline) (p : PixelType) : Run Unit := do
  Run.emit (Event.Execute .Sigmoid p)
  let normalizedAlpha ← atofGUIValue H 0
  let normalizedBeta ← atofGUIValue H 1
  let minimum ← atofGUIValue H 2
  let maximum ← atofGUIValue H 3
  let lower := (← Run.getInfo).InputVolumeScalarRange 0
  let upper := (← Run.getInfo).InputVolumeScalarRange 1
  let alpha := SigmoidRunner.alpha normalizedAlpha lower upper
  let beta := SigmoidRunner.beta normalizedBeta lower upper
  Run.emit (Event.module "SetPluginInfo" Arg.none)
  Run.emit (Event.module "SetUpdateMessage" (Arg.str "Transforming intensities with a Sigmoid function..."))
  Run.emit (Event.filter "SetAlpha" (Arg.real alpha))
  Run.emit (Event.filter "SetBeta" (Arg.real beta))
  Run.emit (Event.filter "SetOutputMinimum" (Arg.pixel (static_cast H p minimum)))
  Run.emit (Event.filter "SetOutputMaximum" (Arg.pixel (static_cast H p maximum)))
  let _ ← moduleProcessData P .Sigmoid p
  pure ()

/-- The function `ProcessData` of vvITKSigmoid.cxx. Inside the `try` block the value is
`some r` for `return r` and `none` when control leaves the `switch` (by `break`,
or because no label matches: this `switch` has no `default`). -/
def ProcessData (H : Headers) (P : Pipeline) : Run Int := do
  let info ← Run.getInfo
  let returned ← Run.tryCatch
    (do
      match scalarTypeSwitch H info.InputVolumeScalarType with
      | some p =>
        SigmoidRunner.Execute H P p
        pure none
      | none =>
        pure none)
    (fun what => do
      Run.SetProperty .VVP_ERROR what
      pure (some (-1)))
  match returned with
  | some r => pure r
  | none =>
    pure 0

/-- The function `UpdateGUI` of vvITKSigmoid.cxx: the value returned and the info it leaves. -/
def UpdateGUI (H : Headers) (info : vtkVVPluginInfo) : Int × vtkVVPluginInfo :=
  let info := info.SetGUIProperty 0 .VVP_GUI_LABEL "Alpha"
  let info := info.SetGUIProperty 0 .VVP_GUI_TYPE VVP_GUI_SCALE
  let info := info.SetGUIProperty 0 .VVP_GUI_DEFAULT "5.0"
  let info := info.SetGUIProperty 0 .VVP_GUI_HELP "Factor that defines the width of the Sigmoid in the range scale. Setting a small alpha results in a step transion on the Sigmoid function. A large alpha value produces a very smooth and low slanted Sigmoid."
  let info := info.SetGUIProperty 0 .VVP_GUI_HINTS "-10 10 0.1"
  let info := info.SetGUIProperty 1 .VVP_GUI_LABEL "Beta"
  let info := info.SetGUIProperty 1 .VVP_GUI_TYPE VVP_GUI_SCALE
  let info := info.SetGUIProperty 1 .VVP_GUI_DEFAULT "0.0"
  let info := info.SetGUIProperty 1 .VVP_GUI_HELP "Origin of the Sigmoid function in the range scale. Normalized in the range [-1:1]. It corresponds to the intensity of the imput image that will be mapped almost linearly to the output image. Intensities far from this value will be transformed non-linearly."
  let info := info.SetGUIProperty 1 .VVP_GUI_HINTS "-1.0 1.0 0.01"
  let info := info.SetGUIProperty 2 .VVP_GUI_LABEL "Output Minimum"
  let info := info.SetGUIProperty 2 .VVP_GUI_TYPE VVP_GUI_SCALE
  let info := info.SetGUIProperty 2 .VVP_GUI_DEFAULT (H.GetInputVolumeScalarTypeMinimum info)
  let info := info.SetGUIProperty 2 .VVP_GUI_HELP "Desired value for the minimum intensity of the output image."
  let info := info.SetGUIProperty 2 .VVP_GUI_HINTS (H.GetInputVolumeScalarTypeRange info)
  let info := info.SetGUIProperty 3 .VVP_GUI_LABEL "Output Maximum"
  let info := info.SetGUIProperty 3 .VVP_GUI_TYPE VVP_GUI_SCALE
  let info := info.SetGUIProperty 3 .VVP_GUI_DEFAULT (H.GetInputVolumeScalarTypeMaximum info)
  let info := info.SetGUIProperty 3 .VVP_GUI_HELP "Desired value for the maximum intensity of the output image."
  let info := info.SetGUIProperty 3 .VVP_GUI_HINTS (H.GetInputVolumeScalarTypeRange info)
  let info := info.SetProperty .VVP_REQUIRED_Z_OVERLAP "0"
  let info := info.setOutputVolumeScalarType info.InputVolumeScalarType
  let info := info.setOutputVolumeNumberOfComponents info.InputVolumeNumberOfComponents
  let info := info.setOutputVolumeDimensions info.InputVolumeDimensions
  let info := info.setOutputVolumeSpacing info.InputVolumeSpacing
  let info := info.setOutputVolumeOrigin info.InputVolumeOrigin
  let info :=
    if info.InputVolumeNumberOfComponents > 1 then
      let sizeReq := toSignedInt (2 * info.InputVolumeScalarSize)
      info.SetProperty .VVP_PER_VOXEL_MEMORY_REQUIRED (sprintf_d sizeReq)
    else
      info.SetProperty .VVP_PER_VOXEL_MEMORY_REQUIRED "0"
  (1, info)

/-- The exported function `vvITKSigmoidInit`, without the version check and the two
assignments of function pointers. -/
def vvITKSigmoidInit (H : Headers) (info : vtkVVPluginInfo) : vtkVVPluginInfo :=
  let info := info.SetProperty .VVP_NAME "Sigmoid (ITK)"
  let info := info.SetProperty .VVP_GROUP "Intensity Transformation"
  let info := info.SetProperty .VVP_TERSE_DOCUMENTATION "Simoid Intensity Transform"
  let info := info.SetProperty .VVP_FULL_DOCUMENTATION "This filters applies a pixel-wise intensity transform by using a Sigmoid function"
  let info := info.SetProperty .VVP_SUPPORTS_IN_PLACE_PROCESSING "0"
  let info := info.SetProperty .VVP_SUPPORTS_PROCESSING_PIECES "1"
  let info := info.SetProperty .VVP_NUMBER_OF_GUI_ITEMS "4"
  let info := info.SetProperty .VVP_REQUIRED_Z_OVERLAP "0"
  let info := info.SetProperty .VVP_PER_VOXEL_MEMORY_REQUIRED "0"
  let info := info.SetProperty .VVP_REQUIRES_SERIES_INPUT "0"
  let info := info.SetProperty .VVP_SUPPORTS_PROCESSING_SERIES_BY_VOLUMES "0"
  let info := info.SetProperty .VVP_PRODUCES_OUTPUT_SERIES "0"
  let info := info.SetProperty .VVP_PRODUCES_PLOTTING_OUTPUT "0"
  info

end vvITKSigmoid

/-! ## The eight plugins together -/

/-- The `ProcessData` of each plugin. -/
def Plugin.ProcessData (H : Headers) (P : Pipeline) : Plugin → Run Int
  | .AntiAlias => vvITKAntiAlias.ProcessData H P
  | .ConfidenceConnected => vvITKConfidenceConnected.ProcessData H P
  | .GeodesicActiveContour => vvITKGeodesicActiveContour.ProcessData H P
  | .GeodesicActiveContourModule => vvITKGeodesicActiveContourModule.ProcessData H P
  | .GradientAnisotropicDiffusion => vvITKGradientAnisotropicDiffusion.ProcessData H P
  | .GradientMagnitude => vvITKGradientMagnitude.ProcessData H P
  | .IntensityWindowing => vvITKIntensityWindowing.ProcessData H P
  | .Sigmoid => vvITKSigmoid.ProcessData H P

/-- The runner `Execute` of each plugin. -/
def Plugin.Execute (H : Headers) (P : Pipeline) : Plugin → PixelType → Run Unit
  | .AntiAlias => vvITKAntiAlias.AntiAliasRunner.Execute H P
  | .ConfidenceConnected => vvITKConfidenceConnected.ConfidenceConnectedRunner.Execute H P
  | .GeodesicActiveContour => vvITKGeodesicActiveContour.GeodesicActiveContoureRunner.Execute H P
  | .GeodesicActiveContourModule =>
    vvITKGeodesicActiveContourModule.GeodesicActiveContourModuleRunner.Execute H P
  | .GradientAnisotropicDiffusion =>
    vvITKGradientAnisotropicDiffusion.GradientAnisotropicDiffusionRunner.Execute H P
  | .GradientMagnitude => vvITKGradientMagnitude.GradientMagnitudeRunner.Execute H P
  | .IntensityWindowing => vvITKIntensityWindowing.IntensityWindowingRunner.Execute H P
  | .Sigmoid => vvITKSigmoid.SigmoidRunner.Execute H P

/-- The `UpdateGUI` of each plugin. -/
def Plugin.UpdateGUI (H : Headers) : Plugin → vtkVVPluginInfo → Int × vtkVVPluginInfo
  | .AntiAlias => vvITKAntiAlias.UpdateGUI H
  | .ConfidenceConnected => vvITKConfidenceConnected.UpdateGUI H
  | .GeodesicActiveContour => vvITKGeodesicActiveContour.UpdateGUI H
  | .GeodesicActiveContourModule => vvITKGeodesicActiveContourModule.UpdateGUI H
  | .GradientAnisotropicDiffusion => vvITKGradientAnisotropicDiffusion.UpdateGUI H
  | .GradientMagnitude => vvITKGradientMagnitude.UpdateGUI H
  | .IntensityWindowing => vvITKIntensityWindowing.UpdateGUI H
  | .Sigmoid => vvITKSigmoid.UpdateGUI H

/-- The exported `Init` function of each plugin. -/
def Plugin.Init (H : Headers) : Plugin → vtkVVPluginInfo → vtkVVPluginInfo
  | .AntiAlias => vvITKAntiAlias.vvITKAntiAliasInit H
  | .ConfidenceConnected => vvITKConfidenceConnected.vvITKConfidenceConnectedInit H
  | .GeodesicActiveContour => vvITKGeodesicActiveContour.vvITKGeodesicActiveContourInit H
  | .GeodesicActiveContourModule =>
    vvITKGeodesicActiveContourModule.vvITKGeodesicActiveContourModuleInit H
  | .GradientAnisotropicDiffusion =>
    vvITKGradientAnisotropicDiffusion.vvITKGradientAnisotropicDiffusionInit H
  | .GradientMagnitude => vvITKGradientMagnitude.vvITKGradientMagnitudeInit H
  | .IntensityWindowing => vvITKIntensityWindowing.vvITKIntensityWindowingInit H
  | .Sigmoid => vvITKSigmoid.vvITKSigmoidInit H

/-! ## Vocabulary of the claims -/

/-- The plugins whose `ProcessData` accepts single-component input only. -/
def Plugin.singleComponentOnly : Plugin → Bool
  | .AntiAlias | .ConfidenceConnected | .GeodesicActiveContour | .GeodesicActiveContourModule => true
  | _ => false

/-- The plugins whose `ProcessData` requires seeds (host markers). -/
def Plugin.requiresSeeds : Plugin → Bool
  | .ConfidenceConnected | .GeodesicActiveContourModule => true
  | _ => false

/-- The preconditions a plugin's `ProcessData` checks before its `try` block. -/
def Plugin.preconditions (plugin : Plugin) (info : vtkVVPluginInfo) : Prop :=
  (plugin.singleComponentOnly = true → info.InputVolumeNumberOfComponents = 1) ∧
  (plugin.requiresSeeds = true → 1 ≤ info.NumberOfMarkers)

/-- The plugins whose runner reads GUI values. -/
def Plugin.readsParameters : Plugin → Bool
  | .GeodesicActiveContour | .GradientMagnitude => false
  | _ => true

/-- The number of GUI items of each plugin (`VVP_NUMBER_OF_GUI_ITEMS` in its
`Init`); their values are items `0 .. numberOfGUIItems - 1`. -/
def Plugin.numberOfGUIItems : Plugin → Nat
  | .AntiAlias => 2
  | .ConfidenceConnected => 5
  | .GeodesicActiveContour => 6
  | .GeodesicActiveContourModule => 9
  | .GradientAnisotropicDiffusion => 3
  | .GradientMagnitude => 0
  | .IntensityWindowing => 4
  | .Sigmoid => 4

/-- Every GUI value of the plugin is present (not the null pointer). -/
def Plugin.valuesPresent (plugin : Plugin) (info : vtkVVPluginInfo) : Prop :=
  ∀ i, i < plugin.numberOfGUIItems → info.guiProperties i .VVP_GUI_VALUE ≠ none

instance (plugin : Plugin) (info : vtkVVPluginInfo) : Decidable (plugin.valuesPresent info) := by
  unfold Plugin.valuesPresent
  infer_instance

/-- Whether an event is the invocation of a runner. -/
def Event.isExecute : Event → Bool
  | .Execute _ _ => true
  | _ => false

/-- The runner invocations in a log, in order. -/
def runnerCalls (log : List Event) : List Event := log.filter Event.isExecute

/-- The call by which the runner of a seeded plugin adds a seed: on the filter
in ConfidenceConnected, on the module in GeodesicActiveContourModule. -/
def Plugin.AddSeed : Plugin → Arg → Event
  | .ConfidenceConnected => Event.filter "AddSeed"
  | _ => Event.module "AddSeed"

/-- Whether an event adds a seed. -/
def Event.isAddSeed : Event → Bool
  | .filter method _ => method = "AddSeed"
  | .module method _ => method = "AddSeed"
  | _ => false

/-- The seed additions in a log, in order. -/
def seedsAdded (log : List Event) : List Event := log.filter Event.isAddSeed

/-- Whether an event is the execution of the pipeline, `module.ProcessData( pds )`. -/
def Event.isPipelineRun : Event → Bool
  | .module method _ => method = "ProcessData"
  | _ => false

/-- The executions of the pipeline in a log. -/
def pipelineRuns (log : List Event) : List Event := log.filter Event.isPipelineRun

/-- The seed the converter makes of marker `i`, as an argument of `AddSeed`. -/
def seedOfMarker (info : vtkVVPluginInfo) (i : Nat) : Arg :=
  Arg.index (markerIndex info i 0) (markerIndex info i 1) (markerIndex info i 2)

/-- The error message of the component-count check of each single-component-only plugin. -/
def Plugin.singleComponentMessage : Plugin → String
  | .AntiAlias => "The AntiAlias filter only works with single component data"
  | _ => "This filter requires a single-component data set as input"

/-- The error message of the marker check of each seed-requiring plugin. -/
def Plugin.markersMessage : Plugin → String
  | .ConfidenceConnected => "Please select seed points using the 3D Markers in the Annotation menu"
  | _ => "Please select points using the 3D Markers in the Annotation menu"

/-- The state a failed precondition check leaves: `VVP_ERROR` set to `message`,
that one call logged, nothing else touched. -/
def World.withError (w : World) (message : String) : World :=
  { w with info := w.info.SetProperty .VVP_ERROR message,
           log := w.log ++ [Event.SetProperty .VVP_ERROR message] }

/-- The plugins whose `ProcessData` ends with `info->UpdateProgress( info, 1.0, ... )`. -/
def Plugin.reportsDone : Plugin → Bool
  | .GeodesicActiveContour | .GeodesicActiveContourModule => true
  | _ => false

/-- What `ProcessData` makes of the way the runner selected by its `switch`
ended: 0 after a normal return (the two level-set plugins report progress 1.0
first), -1 with `VVP_ERROR` set to the message of a caught
`itk::ExceptionObject`, and anything else passes through. -/
def atBoundary (reportsDone : Bool) : Outcome Unit → Outcome Int
  | ⟨.ok _, w1⟩ =>
    ⟨.ok 0, if reportsDone then
      { w1 with log := w1.log ++
          [Event.UpdateProgress 1 "Geodesic Active Contour LevelSet Done !"] }
      else w1⟩
  | ⟨.error (.itkExceptionObject what), w1⟩ => ⟨.ok (-1), w1.withError what⟩
  | ⟨.error e, w1⟩ => ⟨.error e, w1⟩

/-- A call that invokes no runner, however it ends. -/
structure Run.Silent {α : Type} (x : Run α) : Prop where
  calls : ∀ w, runnerCalls (x w).world.log = runnerCalls w.log

/-- The output type and component count `UpdateGUI` leaves are those of the
input, and the call leaves these two input fields as they were. -/
def Plugin.keepsDataType (H : Headers) (plugin : Plugin) (info : vtkVVPluginInfo) : Prop :=
  (plugin.UpdateGUI H info).2.OutputVolumeScalarType = info.InputVolumeScalarType ∧
  (plugin.UpdateGUI H info).2.OutputVolumeNumberOfComponents
    = info.InputVolumeNumberOfComponents ∧
  (plugin.UpdateGUI H info).2.InputVolumeScalarType = info.InputVolumeScalarType ∧
  (plugin.UpdateGUI H info).2.InputVolumeNumberOfComponents
    = info.InputVolumeNumberOfComponents

/-- Whether an event is a call on the module or on its filter: a parameter
setter, a seed addition or the execution of the pipeline. -/
def Event.onModule : Event → Bool
  | .module _ _ => true
  | .filter _ _ => true
  | _ => false

/-- Whether an event is a call `info->SetProperty( info, VVP_REPORT_TEXT, ... )`. -/
def Event.isReport : Event → Bool
  | .SetProperty key _ => key = .VVP_REPORT_TEXT
  | _ => false

/-- The calls that set `VVP_REPORT_TEXT` in a log, in order. -/
def reports (log : List Event) : List Event := log.filter Event.isReport

/-- A call that may log anything but an execution of the pipeline. -/
structure Run.Configures {α : Type} (x : Run α) : Prop where
  logs : ∀ w, ∃ pre, (x w).world.log = w.log ++ pre ∧ pipelineRuns pre = []

/-- A call that logs no call on the module or its filter. -/
structure Run.Quiet {α : Type} (x : Run α) : Prop where
  logs : ∀ w, ∃ rest, (x w).world.log = w.log ++ rest ∧ ∀ e ∈ rest, e.onModule = false

/-- A call whose log splits in two: first events without an execution of the
pipeline; then nothing at all, or one execution of the pipeline followed by
events that are not calls on the module or its filter. A call that returns has
executed the pipeline. -/
structure Run.Ordered {α : Type} (x : Run α) : Prop where
  logs : ∀ w, ∃ pre post, (x w).world.log = w.log ++ pre ++ post ∧ pipelineRuns pre = [] ∧
    (post = [] ∨ ∃ rest, post = Event.module "ProcessData" Arg.none :: rest ∧
      ∀ e ∈ rest, e.onModule = false) ∧
    ((∃ a, (x w).result = .ok a) → post ≠ [])

/-- Whether an event is a call `info->UpdateProgress( info, ... )`. -/
def Event.isProgress : Event → Bool
  | .UpdateProgress _ _ => true
  | _ => false

/-- Whether an event is a call `info->SetProperty( info, VVP_ERROR, ... )`. -/
def Event.isError : Event → Bool
  | .SetProperty key _ => key = .VVP_ERROR
  | _ => false

/-- A call that logs no event of the kind `q`, however it ends. -/
structure Run.Avoids (q : Event → Bool) {α : Type} (x : Run α) : Prop where
  logs : ∀ w, ∃ events, (x w).world.log = w.log ++ events ∧ ∀ e ∈ events, q e = false

namespace Reference

/-- The characters `isspace` accepts in the C locale. -/
def isspace (c : Char) : Bool :=
  c.toNat = 32 || c.toNat = 9 || c.toNat = 10 || c.toNat = 11 || c.toNat = 12 || c.toNat = 13

/-- Value of the leading decimal digits of `cs`, continuing from `acc`. -/
def digitsValue : List Char → Nat → Nat
  | [], acc => acc
  | c :: cs, acc => if c.isDigit then digitsValue cs (10 * acc + (c.toNat - 48)) else acc

/-- An optional sign in front of `cs`: whether it is a minus, and what follows it. -/
def sign : List Char → Bool × List Char
  | '-' :: cs => (true, cs)
  | '+' :: cs => (false, cs)
  | cs => (false, cs)

/-- The C library `atoi` on values that fit an `int`: white space is skipped, an
optional sign and the decimal digits that follow are converted, and the rest of
the text is ignored; a text without such digits gives 0. -/
def atoi (s : String) : Int :=
  let (negative, cs) := sign (s.toList.dropWhile isspace)
  if negative then -(digitsValue cs 0 : Int) else (digitsValue cs 0 : Int)

/-- The exponent part `e[sign]digits` in front of `cs`, 0 when there is none. -/
def exponent : List Char → Int
  | c :: cs =>
    if c = 'e' ∨ c = 'E' then
      let (negative, ds) := sign cs
      if negative then -(digitsValue ds 0 : Int) else (digitsValue ds 0 : Int)
    else 0
  | [] => 0

/-- The C library `atof` on decimal texts (`[sign]digits[.digits][e[sign]digits]`
after optional white space), as an exact rational; a text that does not start
with such a number gives 0. -/
def atof (s : String) : ℚ :=
  let (negative, cs) := sign (s.toList.dropWhile isspace)
  let whole := cs.takeWhile Char.isDigit
  let rest := cs.dropWhile Char.isDigit
  let fraction := match rest with
    | '.' :: r => r.takeWhile Char.isDigit
    | _ => []
  let rest := match rest with
    | '.' :: r => r.dropWhile Char.isDigit
    | _ => rest
  if whole = [] ∧ fraction = [] then 0
  else
    let mantissa : ℚ := (digitsValue (whole ++ fraction) 0 : ℚ) / 10 ^ fraction.length
    let value := mantissa * 10 ^ exponent rest
    if negative then -value else value

/-- The tags of `vtkSystemIncludes.h`, a 64-bit `long` and the conversions
above. `sprintf_g` prints the integer part in decimal, which is what `%g` prints
for an integral value below 10^6 in magnitude; the widget helpers render the
scalar range and an 8-bit type range in the same way. -/
def headers : Headers where
  VTK_CHAR := 2
  VTK_UNSIGNED_CHAR := 3
  VTK_SHORT := 4
  VTK_UNSIGNED_SHORT := 5
  VTK_INT := 6
  VTK_UNSIGNED_INT := 7
  VTK_LONG := 8
  VTK_UNSIGNED_LONG := 9
  VTK_FLOAT := 10
  VTK_DOUBLE := 11
  tags_nodup := by decide
  longBits := 64
  atoi := atoi
  atof := atof
  sprintf_g := fun x => sprintf_d (truncate x)
  GetInputVolumeScalarMinimum := fun info => sprintf_d (truncate (info.InputVolumeScalarRange 0))
  GetInputVolumeScalarMaximum := fun info => sprintf_d (truncate (info.InputVolumeScalarRange 1))
  GetInputVolumeScalarRange := fun info =>
    sprintf_d (truncate (info.InputVolumeScalarRange 0)) ++ " " ++
      sprintf_d (truncate (info.InputVolumeScalarRange 1)) ++ " 1"
  GetInputVolumeScalarTypeMinimum := fun _ => "0"
  GetInputVolumeScalarTypeMaximum := fun _ => "255"
  GetInputVolumeScalarTypeRange := fun _ => "0 255 1"

/-- A pipeline that completes: it leaves the info as it is, fills the output
buffer with the input and reports one iteration. -/
def pipeline : Pipeline := fun _ _ w =>
  { info := w.info, pds := { w.pds with outData := w.pds.inData },
    ElapsedIterations := 1, RMSChange := 0, thrown := none }

/-- A pipeline that completes after `iterations` iterations with the RMS change
`rms`: it leaves the info as it is and fills the output buffer with the input. -/
def converged (iterations : Int) (rms : ℚ) : Pipeline := fun _ _ w =>
  { info := w.info, pds := { w.pds with outData := w.pds.inData },
    ElapsedIterations := iterations, RMSChange := rms, thrown := none }

/-- A pipeline that raises `e` without touching anything. -/
def failing (e : Abort) : Pipeline := fun _ _ w =>
  { info := w.info, pds := w.pds, ElapsedIterations := 0, RMSChange := 0, thrown := some e }

/-- A 4x4x4 single-component `unsigned char` volume with unit spacing, one
marker at the origin, and the GUI values `values`, item by item. -/
def info (values : List String) : vtkVVPluginInfo where
  InputVolumeScalarType := 3
  InputVolumeScalarSize := 1
  InputVolumeNumberOfComponents := 1
  InputVolumeDimensions := fun _ => 4
  InputVolumeSpacing := fun _ => 1
  InputVolumeOrigin := fun _ => 0
  InputVolumeScalarRange := fun i => if i = 0 then 0 else 255
  NumberOfMarkers := 1
  Markers := fun _ => 0
  OutputVolumeScalarType := 0
  OutputVolumeNumberOfComponents := 0
  OutputVolumeDimensions := fun _ => 0
  OutputVolumeSpacing := fun _ => 0
  OutputVolumeOrigin := fun _ => 0
  properties := fun _ => none
  guiProperties := fun i k => if k = .VVP_GUI_VALUE then values.get? i else none

/-- The state before a call on `info values`: empty buffers of one voxel, nothing logged. -/
def world (values : List String) : World :=
  { info := info values, pds := { inData := [7], outData := [0] }, log := [] }

/-- The same volume with two markers: the first at the origin, the second at
physical position (9, 0, 0), outside the 4x4x4 volume. -/
def twoMarkers (values : List String) : World :=
  { info := { info values with NumberOfMarkers := 2, Markers := fun j => if j = 3 then 9 else 0 },
    pds := { inData := [7], outData := [0] }, log := [] }

/-- The same volume and values with the scalar type tag `scalarType`. -/
def ofScalarType (scalarType : Int) (values : List String) : World :=
  { info := { info values with InputVolumeScalarType := scalarType },
    pds := { inData := [7], outData := [0] }, log := [] }

/-- The same volume and values with `components` components per voxel. -/
def ofComponents (components : Int) (values : List String) : World :=
  { info := { info values with InputVolumeNumberOfComponents := components },
    pds := { inData := [7], outData := [0] }, log := [] }

/-- The same volume and values without any marker. -/
def noMarkers (values : List String) : World :=
  { info := { info values with NumberOfMarkers := 0 },
    pds := { inData := [7], outData := [0] }, log := [] }

/-- The same volume and values with `components` components per voxel and the
scalar size `size` in `InputVolumeScalarSize`. -/
def ofScalarSize (components size : Int) (values : List String) : vtkVVPluginInfo :=
  { info values with InputVolumeNumberOfComponents := components, InputVolumeScalarSize := size }

/-- The same volume and values with `components` components per voxel and no
marker. -/
def unseeded (components : Int) (values : List String) : World :=
  { info := { info values with InputVolumeNumberOfComponents := components,
                               NumberOfMarkers := 0 },
    pds := { inData := [7], outData := [0] }, log := [] }

end Reference

/-! ## Projections of the host stores -/

namespace vtkVVPluginInfo

@[simp] theorem SetGUIProperty_InputVolumeScalarType (info : vtkVVPluginInfo) (item : Nat) (key : GUIProperty)
    (value : String) : (info.SetGUIProperty item key value).InputVolumeScalarType = info.InputVolumeScalarType := rfl

@[simp] theorem SetProperty_InputVolumeScalarType (info : vtkVVPluginInfo) (key : Property) (value : String) :
    (info.SetProperty key value).InputVolumeScalarType = info.InputVolumeScalarType := rfl

@[simp] theorem SetGUIProperty_InputVolumeScalarSize (info : vtkVVPluginInfo) (item : Nat) (key : GUIProperty)
    (value : String) : (info.SetGUIProperty item key value).InputVolumeScalarSize = info.InputVolumeScalarSize := rfl

@[simp] theorem SetProperty_InputVolumeScalarSize (info : vtkVVPluginInfo) (key : Property) (value : String) :
    (info.SetProperty key value).InputVolumeScalarSize = info.InputVolumeScalarSize := rfl

@[simp] theorem SetGUIProperty_InputVolumeNumberOfComponents (info : vtkVVPluginInfo) (item : Nat) (key : GUIProperty)
    (value : String) : (info.SetGUIProperty item key value).InputVolumeNumberOfComponents = info.InputVolumeNumberOfComponents := rfl

@[simp] theorem SetProperty_InputVolumeNumberOfComponents (info : vtkVVPluginInfo) (key : Property) (value : String) :
    (info.SetProperty key value).InputVolumeNumberOfComponents = info.InputVolumeNumberOfComponents := rfl

@[simp] theorem SetGUIProperty_InputVolumeDimensions (info : vtkVVPluginInfo) (item : Nat) (key : GUIProperty)
    (value : String) : (info.SetGUIProperty item key value).InputVolumeDimensions = info.InputVolumeDimensions := rfl

@[simp] theorem SetProperty_InputVolumeDimensions (info : vtkVVPluginInfo) (key : Property) (value : String) :
    (info.SetProperty key value).InputVolumeDimensions = info.InputVolumeDimensions := rfl

@[simp] theorem SetGUIProperty_InputVolumeSpacing (info : vtkVVPluginInfo) (item : Nat) (key : GUIProperty)
    (value : String) : (info.SetGUIProperty item key value).InputVolumeSpacing = info.InputVolumeSpacing := rfl

@[simp] theorem SetProperty_InputVolumeSpacing (info : vtkVVPluginInfo) (key : Property) (value : String) :
    (info.SetProperty key value).InputVolumeSpacing = info.InputVolumeSpacing := rfl

@[simp] theorem SetGUIProperty_InputVolumeOrigin (info : vtkVVPluginInfo) (item : Nat) (key : GUIProperty)
    (value : String) : (info.SetGUIProperty item key value).InputVolumeOrigin = info.InputVolumeOrigin := rfl

@[simp] theorem SetProperty_InputVolumeOrigin (info : vtkVVPluginInfo) (key : Property) (value : String) :
    (info.SetProperty key value).InputVolumeOrigin = info.InputVolumeOrigin := rfl

@[simp] theorem SetGUIProperty_InputVolumeScalarRange (info : vtkVVPluginInfo) (item : Nat) (key : GUIProperty)
    (value : String) : (info.SetGUIProperty item key value).InputVolumeScalarRange = info.InputVolumeScalarRange := rfl

@[simp] theorem SetProperty_InputVolumeScalarRange (info : vtkVVPluginInfo) (key : Property) (value : String) :
    (info.SetProperty key value).InputVolumeScalarRange = info.InputVolumeScalarRange := rfl

@[simp] theorem SetGUIProperty_NumberOfMarkers (info : vtkVVPluginInfo) (item : Nat) (key : GUIProperty)
    (value : String) : (info.SetGUIProperty item key value).NumberOfMarkers = info.NumberOfMarkers := rfl

@[simp] theorem SetProperty_NumberOfMarkers (info : vtkVVPluginInfo) (key : Property) (value : String) :
    (info.SetProperty key value).NumberOfMarkers = info.NumberOfMarkers := rfl

@[simp] theorem SetGUIProperty_Markers (info : vtkVVPluginInfo) (item : Nat) (key : GUIProperty)
    (value : String) : (info.SetGUIProperty item key value).Markers = info.Markers := rfl

@[simp] theorem SetProperty_Markers (info : vtkVVPluginInfo) (key : Property) (value : String) :
    (info.SetProperty key value).Markers = info.Markers := rfl

@[simp] theorem SetGUIProperty_OutputVolumeScalarType (info : vtkVVPluginInfo) (item : Nat) (key : GUIProperty)
    (value : String) : (info.SetGUIProperty item key value).OutputVolumeScalarType = info.OutputVolumeScalarType := rfl

@[simp] theorem SetProperty_OutputVolumeScalarType (info : vtkVVPluginInfo) (key : Property) (value : String) :
    (info.SetProperty key value).OutputVolumeScalarType = info.OutputVolumeScalarType := rfl

@[simp] theorem SetGUIProperty_OutputVolumeNumberOfComponents (info : vtkVVPluginInfo) (item : Nat) (key : GUIProperty)
    (value : String) : (info.SetGUIProperty item key value).OutputVolumeNumberOfComponents = info.OutputVolumeNumberOfComponents := rfl

@[simp] theorem SetProperty_OutputVolumeNumberOfComponents (info : vtkVVPluginInfo) (key : Property) (value : String) :
    (info.SetProperty key value).OutputVolumeNumberOfComponents = info.OutputVolumeNumberOfComponents := rfl

@[simp] theorem SetGUIProperty_OutputVolumeDimensions (info : vtkVVPluginInfo) (item : Nat) (key : GUIProperty)
    (value : String) : (info.SetGUIProperty item key value).OutputVolumeDimensions = info.OutputVolumeDimensions := rfl

@[simp] theorem SetProperty_OutputVolumeDimensions (info : vtkVVPluginInfo) (key : Property) (value : String) :
    (info.SetProperty key value).OutputVolumeDimensions = info.OutputVolumeDimensions := rfl

@[simp] theorem SetGUIProperty_OutputVolumeSpacing (info : vtkVVPluginInfo) (item : Nat) (key : GUIProperty)
    (value : String) : (info.SetGUIProperty item key value).OutputVolumeSpacing = info.OutputVolumeSpacing := rfl

@[simp] theorem SetProperty_OutputVolumeSpacing (info : vtkVVPluginInfo) (key : Property) (value : String) :
    (info.SetProperty key value).OutputVolumeSpacing = info.OutputVolumeSpacing := rfl

@[simp] theorem SetGUIProperty_OutputVolumeOrigin (info : vtkVVPluginInfo) (item : Nat) (key : GUIProperty)
    (value : String) : (info.SetGUIProperty item key value).OutputVolumeOrigin = info.OutputVolumeOrigin := rfl

@[simp] theorem SetProperty_OutputVolumeOrigin (info : vtkVVPluginInfo) (key : Property) (value : String) :
    (info.SetProperty key value).OutputVolumeOrigin = info.OutputVolumeOrigin := rfl

@[simp] theorem SetGUIProperty_properties (info : vtkVVPluginInfo) (item : Nat) (key : GUIProperty)
    (value : String) : (info.SetGUIProperty item key value).properties = info.properties := rfl

@[simp] theorem SetProperty_guiProperties (info : vtkVVPluginInfo) (key : Property) (value : String) :
    (info.SetProperty key value).guiProperties = info.guiProperties := rfl

@[simp] theorem setOutputVolumeScalarType_InputVolumeScalarType (info : vtkVVPluginInfo) (value : Int) :
    (info.setOutputVolumeScalarType value).InputVolumeScalarType = info.InputVolumeScalarType := rfl

@[simp] theorem setOutputVolumeScalarType_InputVolumeScalarSize (info : vtkVVPluginInfo) (value : Int) :
    (info.setOutputVolumeScalarType value).InputVolumeScalarSize = info.InputVolumeScalarSize := rfl

@[simp] theorem setOutputVolumeScalarType_InputVolumeNumberOfComponents (info : vtkVVPluginInfo) (value : Int) :
    (info.setOutputVolumeScalarType value).InputVolumeNumberOfComponents = info.InputVolumeNumberOfComponents := rfl

@[simp] theorem setOutputVolumeScalarType_InputVolumeDimensions (info : vtkVVPluginInfo) (value : Int) :
    (info.setOutputVolumeScalarType value).InputVolumeDimensions = info.InputVolumeDimensions := rfl

@[simp] theorem setOutputVolumeScalarType_InputVolumeSpacing (info : vtkVVPluginInfo) (value : Int) :
    (info.setOutputVolumeScalarType value).InputVolumeSpacing = info.InputVolumeSpacing := rfl

@[simp] theorem setOutputVolumeScalarType_InputVolumeOrigin (info : vtkVVPluginInfo) (value : Int) :
    (info.setOutputVolumeScalarType value).InputVolumeOrigin = info.InputVolumeOrigin := rfl

@[simp] theorem setOutputVolumeScalarType_InputVolumeScalarRange (info : vtkVVPluginInfo) (value : Int) :
    (info.setOutputVolumeScalarType value).InputVolumeScalarRange = info.InputVolumeScalarRange := rfl

@[simp] theorem setOutputVolumeScalarType_NumberOfMarkers (info : vtkVVPluginInfo) (value : Int) :
    (info.setOutputVolumeScalarType value).NumberOfMarkers = info.NumberOfMarkers := rfl

@[simp] theorem setOutputVolumeScalarType_Markers (info : vtkVVPluginInfo) (value : Int) :
    (info.setOutputVolumeScalarType value).Markers = info.Markers := rfl

@[simp] theorem setOutputVolumeScalarType_OutputVolumeScalarType (info : vtkVVPluginInfo) (value : Int) :
    (info.setOutputVolumeScalarType value).OutputVolumeScalarType = value := rfl

@[simp] theorem setOutputVolumeScalarType_OutputVolumeNumberOfComponents (info : vtkVVPluginInfo) (value : Int) :
    (info.setOutputVolumeScalarType value).OutputVolumeNumberOfComponents = info.OutputVolumeNumberOfComponents := rfl

@[simp] theorem setOutputVolumeScalarType_OutputVolumeDimensions (info : vtkVVPluginInfo) (value : Int) :
    (info.setOutputVolumeScalarType value).OutputVolumeDimensions = info.OutputVolumeDimensions := rfl

@[simp] theorem setOutputVolumeScalarType_OutputVolumeSpacing (info : vtkVVPluginInfo) (value : Int) :
    (info.setOutputVolumeScalarType value).OutputVolumeSpacing = info.OutputVolumeSpacing := rfl

@[simp] theorem setOutputVolumeScalarType_OutputVolumeOrigin (info : vtkVVPluginInfo) (value : Int) :
    (info.setOutputVolumeScalarType value).OutputVolumeOrigin = info.OutputVolumeOrigin := rfl

@[simp] theorem setOutputVolumeScalarType_properties (info : vtkVVPluginInfo) (value : Int) :
    (info.setOutputVolumeScalarType value).properties = info.properties := rfl

@[simp] theorem setOutputVolumeScalarType_guiProperties (info : vtkVVPluginInfo) (value : Int) :
    (info.setOutputVolumeScalarType value).guiProperties = info.guiProperties := rfl

@[simp] theorem GetGUIProperty_setOutputVolumeScalarType (info : vtkVVPluginInfo) (value : Int) (item : Nat)
    (key : GUIProperty) : (info.setOutputVolumeScalarType value).GetGUIProperty item key
      = info.GetGUIProperty item key := rfl

@[simp] theorem setOutputVolumeNumberOfComponents_InputVolumeScalarType (info : vtkVVPluginInfo) (value : Int) :
    (info.setOutputVolumeNumberOfComponents value).InputVolumeScalarType = info.InputVolumeScalarType := rfl

@[simp] theorem setOutputVolumeNumberOfComponents_InputVolumeScalarSize (info : vtkVVPluginInfo) (value : Int) :
    (info.setOutputVolumeNumberOfComponents value).InputVolumeScalarSize = info.InputVolumeScalarSize := rfl

@[simp] theorem setOutputVolumeNumberOfComponents_InputVolumeNumberOfComponents (info : vtkVVPluginInfo) (value : Int) :
    (info.setOutputVolumeNumberOfComponents value).InputVolumeNumberOfComponents = info.InputVolumeNumberOfComponents := rfl

@[simp] theorem setOutputVolumeNumberOfComponents_InputVolumeDimensions (info : vtkVVPluginInfo) (value : Int) :
    (info.setOutputVolumeNumberOfComponents value).InputVolumeDimensions = info.InputVolumeDimensions := rfl

@[simp] theorem setOutputVolumeNumberOfComponents_InputVolumeSpacing (info : vtkVVPluginInfo) (value : Int) :
    (info.setOutputVolumeNumberOfComponents value).InputVolumeSpacing = info.InputVolumeSpacing := rfl

@[simp] theorem setOutputVolumeNumberOfComponents_InputVolumeOrigin (info : vtkVVPluginInfo) (value : Int) :
    (info.setOutputVolumeNumberOfComponents value).InputVolumeOrigin = info.InputVolumeOrigin := rfl

@[simp] theorem setOutputVolumeNumberOfComponents_InputVolumeScalarRange (info : vtkVVPluginInfo) (value : Int) :
    (info.setOutputVolumeNumberOfComponents value).InputVolumeScalarRange = info.InputVolumeScalarRange := rfl

@[simp] theorem setOutputVolumeNumberOfComponents_NumberOfMarkers (info : vtkVVPluginInfo) (value : Int) :
    (info.setOutputVolumeNumberOfComponents value).NumberOfMarkers = info.NumberOfMarkers := rfl

@[simp] theorem setOutputVolumeNumberOfComponents_Markers (info : vtkVVPluginInfo) (value : Int) :
    (info.setOutputVolumeNumberOfComponents value).Markers = info.Markers := rfl

@[simp] theorem setOutputVolumeNumberOfComponents_OutputVolumeScalarType (info : vtkVVPluginInfo) (value : Int) :
    (info.setOutputVolumeNumberOfComponents value).OutputVolumeScalarType = info.OutputVolumeScalarType := rfl

@[simp] theorem setOutputVolumeNumberOfComponents_OutputVolumeNumberOfComponents (info : vtkVVPluginInfo) (value : Int) :
    (info.setOutputVolumeNumberOfComponents value).OutputVolumeNumberOfComponents = value := rfl

@[simp] theorem setOutputVolumeNumberOfComponents_OutputVolumeDimensions (info : vtkVVPluginInfo) (value : Int) :
    (info.setOutputVolumeNumberOfComponents value).OutputVolumeDimensions = info.OutputVolumeDimensions := rfl

@[simp] theorem setOutputVolumeNumberOfComponents_OutputVolumeSpacing (info : vtkVVPluginInfo) (value : Int) :
    (info.setOutputVolumeNumberOfComponents value).OutputVolumeSpacing = info.OutputVolumeSpacing := rfl

@[simp] theorem setOutputVolumeNumberOfComponents_OutputVolumeOrigin (info : vtkVVPluginInfo) (value : Int) :
    (info.setOutputVolumeNumberOfComponents value).OutputVolumeOrigin = info.OutputVolumeOrigin := rfl

@[simp] theorem setOutputVolumeNumberOfComponents_properties (info : vtkVVPluginInfo) (value : Int) :
    (info.setOutputVolumeNumberOfComponents value).properties = info.properties := rfl

@[simp] theorem setOutputVolumeNumberOfComponents_guiProperties (info : vtkVVPluginInfo) (value : Int) :
    (info.setOutputVolumeNumberOfComponents value).guiProperties = info.guiProperties := rfl

@[simp] theorem GetGUIProperty_setOutputVolumeNumberOfComponents (info : vtkVVPluginInfo) (value : Int) (item : Nat)
    (key : GUIProperty) : (info.setOutputVolumeNumberOfComponents value).GetGUIProperty item key
      = info.GetGUIProperty item key := rfl

@[simp] theorem setOutputVolumeDimension_InputVolumeScalarType (info : vtkVVPluginInfo) (d : Fin 3) (value : Int) :
    (info.setOutputVolumeDimension d value).InputVolumeScalarType = info.InputVolumeScalarType := rfl

@[simp] theorem setOutputVolumeDimension_InputVolumeScalarSize (info : vtkVVPluginInfo) (d : Fin 3) (value : Int) :
    (info.setOutputVolumeDimension d value).InputVolumeScalarSize = info.InputVolumeScalarSize := rfl

@[simp] theorem setOutputVolumeDimension_InputVolumeNumberOfComponents (info : vtkVVPluginInfo) (d : Fin 3) (value : Int) :
    (info.setOutputVolumeDimension d value).InputVolumeNumberOfComponents = info.InputVolumeNumberOfComponents := rfl

@[simp] theorem setOutputVolumeDimension_InputVolumeDimensions (info : vtkVVPluginInfo) (d : Fin 3) (value : Int) :
    (info.setOutputVolumeDimension d value).InputVolumeDimensions = info.InputVolumeDimensions := rfl

@[simp] theorem setOutputVolumeDimension_InputVolumeSpacing (info : vtkVVPluginInfo) (d : Fin 3) (value : Int) :
    (info.setOutputVolumeDimension d value).InputVolumeSpacing = info.InputVolumeSpacing := rfl

@[simp] theorem setOutputVolumeDimension_InputVolumeOrigin (info : vtkVVPluginInfo) (d : Fin 3) (value : Int) :
    (info.setOutputVolumeDimension d value).InputVolumeOrigin = info.InputVolumeOrigin := rfl

@[simp] theorem setOutputVolumeDimension_InputVolumeScalarRange (info : vtkVVPluginInfo) (d : Fin 3) (value : Int) :
    (info.setOutputVolumeDimension d value).InputVolumeScalarRange = info.InputVolumeScalarRange := rfl

@[simp] theorem setOutputVolumeDimension_NumberOfMarkers (info : vtkVVPluginInfo) (d : Fin 3) (value : Int) :
    (info.setOutputVolumeDimension d value).NumberOfMarkers = info.NumberOfMarkers := rfl

@[simp] theorem setOutputVolumeDimension_Markers (info : vtkVVPluginInfo) (d : Fin 3) (value : Int) :
    (info.setOutputVolumeDimension d value).Markers = info.Markers := rfl

@[simp] theorem setOutputVolumeDimension_OutputVolumeScalarType (info : vtkVVPluginInfo) (d : Fin 3) (value : Int) :
    (info.setOutputVolumeDimension d value).OutputVolumeScalarType = info.OutputVolumeScalarType := rfl

@[simp] theorem setOutputVolumeDimension_OutputVolumeNumberOfComponents (info : vtkVVPluginInfo) (d : Fin 3) (value : Int) :
    (info.setOutputVolumeDimension d value).OutputVolumeNumberOfComponents = info.OutputVolumeNumberOfComponents := rfl

@[simp] theorem setOutputVolumeDimension_OutputVolumeDimensions (info : vtkVVPluginInfo) (d : Fin 3) (value : Int) :
    (info.setOutputVolumeDimension d value).OutputVolumeDimensions = Function.update info.OutputVolumeDimensions d value := rfl

@[simp] theorem setOutputVolumeDimension_OutputVolumeSpacing (info : vtkVVPluginInfo) (d : Fin 3) (value : Int) :
    (info.setOutputVolumeDimension d value).OutputVolumeSpacing = info.OutputVolumeSpacing := rfl

@[simp] theorem setOutputVolumeDimension_OutputVolumeOrigin (info : vtkVVPluginInfo) (d : Fin 3) (value : Int) :
    (info.setOutputVolumeDimension d value).OutputVolumeOrigin = info.OutputVolumeOrigin := rfl

@[simp] theorem setOutputVolumeDimension_properties (info : vtkVVPluginInfo) (d : Fin 3) (value : Int) :
    (info.setOutputVolumeDimension d value).properties = info.properties := rfl

@[simp] theorem setOutputVolumeDimension_guiProperties (info : vtkVVPluginInfo) (d : Fin 3) (value : Int) :
    (info.setOutputVolumeDimension d value).guiProperties = info.guiProperties := rfl

@[simp] theorem GetGUIProperty_setOutputVolumeDimension (info : vtkVVPluginInfo) (d : Fin 3) (value : Int) (item : Nat)
    (key : GUIProperty) : (info.setOutputVolumeDimension d value).GetGUIProperty item key
      = info.GetGUIProperty item key := rfl

@[simp] theorem setOutputVolumeDimensions_InputVolumeScalarType (info : vtkVVPluginInfo) (source : Fin 3 → Int) :
    (info.setOutputVolumeDimensions source).InputVolumeScalarType = info.InputVolumeScalarType := rfl

@[simp] theorem setOutputVolumeDimensions_InputVolumeScalarSize (info : vtkVVPluginInfo) (source : Fin 3 → Int) :
    (info.setOutputVolumeDimensions source).InputVolumeScalarSize = info.InputVolumeScalarSize := rfl

@[simp] theorem setOutputVolumeDimensions_InputVolumeNumberOfComponents (info : vtkVVPluginInfo) (source : Fin 3 → Int) :
    (info.setOutputVolumeDimensions source).InputVolumeNumberOfComponents = info.InputVolumeNumberOfComponents := rfl

@[simp] theorem setOutputVolumeDimensions_InputVolumeDimensions (info : vtkVVPluginInfo) (source : Fin 3 → Int) :
    (info.setOutputVolumeDimensions source).InputVolumeDimensions = info.InputVolumeDimensions := rfl

@[simp] theorem setOutputVolumeDimensions_InputVolumeSpacing (info : vtkVVPluginInfo) (source : Fin 3 → Int) :
    (info.setOutputVolumeDimensions source).InputVolumeSpacing = info.InputVolumeSpacing := rfl

@[simp] theorem setOutputVolumeDimensions_InputVolumeOrigin (info : vtkVVPluginInfo) (source : Fin 3 → Int) :
    (info.setOutputVolumeDimensions source).InputVolumeOrigin = info.InputVolumeOrigin := rfl

@[simp] theorem setOutputVolumeDimensions_InputVolumeScalarRange (info : vtkVVPluginInfo) (source : Fin 3 → Int) :
    (info.setOutputVolumeDimensions source).InputVolumeScalarRange = info.InputVolumeScalarRange := rfl

@[simp] theorem setOutputVolumeDimensions_NumberOfMarkers (info : vtkVVPluginInfo) (source : Fin 3 → Int) :
    (info.setOutputVolumeDimensions source).NumberOfMarkers = info.NumberOfMarkers := rfl

@[simp] theorem setOutputVolumeDimensions_Markers (info : vtkVVPluginInfo) (source : Fin 3 → Int) :
    (info.setOutputVolumeDimensions source).Markers = info.Markers := rfl

@[simp] theorem setOutputVolumeDimensions_OutputVolumeScalarType (info : vtkVVPluginInfo) (source : Fin 3 → Int) :
    (info.setOutputVolumeDimensions source).OutputVolumeScalarType = info.OutputVolumeScalarType := rfl

@[simp] theorem setOutputVolumeDimensions_OutputVolumeNumberOfComponents (info : vtkVVPluginInfo) (source : Fin 3 → Int) :
    (info.setOutputVolumeDimensions source).OutputVolumeNumberOfComponents = info.OutputVolumeNumberOfComponents := rfl

@[simp] theorem setOutputVolumeDimensions_OutputVolumeDimensions (info : vtkVVPluginInfo) (source : Fin 3 → Int) :
    (info.setOutputVolumeDimensions source).OutputVolumeDimensions = source := rfl

@[simp] theorem setOutputVolumeDimensions_OutputVolumeSpacing (info : vtkVVPluginInfo) (source : Fin 3 → Int) :
    (info.setOutputVolumeDimensions source).OutputVolumeSpacing = info.OutputVolumeSpacing := rfl

@[simp] theorem setOutputVolumeDimensions_OutputVolumeOrigin (info : vtkVVPluginInfo) (source : Fin 3 → Int) :
    (info.setOutputVolumeDimensions source).OutputVolumeOrigin = info.OutputVolumeOrigin := rfl

@[simp] theorem setOutputVolumeDimensions_properties (info : vtkVVPluginInfo) (source : Fin 3 → Int) :
    (info.setOutputVolumeDimensions source).properties = info.properties := rfl

@[simp] theorem setOutputVolumeDimensions_guiProperties (info : vtkVVPluginInfo) (source : Fin 3 → Int) :
    (info.setOutputVolumeDimensions source).guiProperties = info.guiProperties := rfl

@[simp] theorem GetGUIProperty_setOutputVolumeDimensions (info : vtkVVPluginInfo) (source : Fin 3 → Int) (item : Nat)
    (key : GUIProperty) : (info.setOutputVolumeDimensions source).GetGUIProperty item key
      = info.GetGUIProperty item key := rfl

@[simp] theorem setOutputVolumeSpacing_InputVolumeScalarType (info : vtkVVPluginInfo) (source : Fin 3 → ℚ) :
    (info.setOutputVolumeSpacing source).InputVolumeScalarType = info.InputVolumeScalarType := rfl

@[simp] theorem setOutputVolumeSpacing_InputVolumeScalarSize (info : vtkVVPluginInfo) (source : Fin 3 → ℚ) :
    (info.setOutputVolumeSpacing source).InputVolumeScalarSize = info.InputVolumeScalarSize := rfl

@[simp] theorem setOutputVolumeSpacing_InputVolumeNumberOfComponents (info : vtkVVPluginInfo) (source : Fin 3 → ℚ) :
    (info.setOutputVolumeSpacing source).InputVolumeNumberOfComponents = info.InputVolumeNumberOfComponents := rfl

@[simp] theorem setOutputVolumeSpacing_InputVolumeDimensions (info : vtkVVPluginInfo) (source : Fin 3 → ℚ) :
    (info.setOutputVolumeSpacing source).InputVolumeDimensions = info.InputVolumeDimensions := rfl

@[simp] theorem setOutputVolumeSpacing_InputVolumeSpacing (info : vtkVVPluginInfo) (source : Fin 3 → ℚ) :
    (info.setOutputVolumeSpacing source).InputVolumeSpacing = info.InputVolumeSpacing := rfl

@[simp] theorem setOutputVolumeSpacing_InputVolumeOrigin (info : vtkVVPluginInfo) (source : Fin 3 → ℚ) :
    (info.setOutputVolumeSpacing source).InputVolumeOrigin = info.InputVolumeOrigin := rfl

@[simp] theorem setOutputVolumeSpacing_InputVolumeScalarRange (info : vtkVVPluginInfo) (source : Fin 3 → ℚ) :
    (info.setOutputVolumeSpacing source).InputVolumeScalarRange = info.InputVolumeScalarRange := rfl

@[simp] theorem setOutputVolumeSpacing_NumberOfMarkers (info : vtkVVPluginInfo) (source : Fin 3 → ℚ) :
    (info.setOutputVolumeSpacing source).NumberOfMarkers = info.NumberOfMarkers := rfl

@[simp] theorem setOutputVolumeSpacing_Markers (info : vtkVVPluginInfo) (source : Fin 3 → ℚ) :
    (info.setOutputVolumeSpacing source).Markers = info.Markers := rfl

@[simp] theorem setOutputVolumeSpacing_OutputVolumeScalarType (info : vtkVVPluginInfo) (source : Fin 3 → ℚ) :
    (info.setOutputVolumeSpacing source).OutputVolumeScalarType = info.OutputVolumeScalarType := rfl

@[simp] theorem setOutputVolumeSpacing_OutputVolumeNumberOfComponents (info : vtkVVPluginInfo) (source : Fin 3 → ℚ) :
    (info.setOutputVolumeSpacing source).OutputVolumeNumberOfComponents = info.OutputVolumeNumberOfComponents := rfl

@[simp] theorem setOutputVolumeSpacing_OutputVolumeDimensions (info : vtkVVPluginInfo) (source : Fin 3 → ℚ) :
    (info.setOutputVolumeSpacing source).OutputVolumeDimensions = info.OutputVolumeDimensions := rfl

@[simp] theorem setOutputVolumeSpacing_OutputVolumeSpacing (info : vtkVVPluginInfo) (source : Fin 3 → ℚ) :
    (info.setOutputVolumeSpacing source).OutputVolumeSpacing = source := rfl

@[simp] theorem setOutputVolumeSpacing_OutputVolumeOrigin (info : vtkVVPluginInfo) (source : Fin 3 → ℚ) :
    (info.setOutputVolumeSpacing source).OutputVolumeOrigin = info.OutputVolumeOrigin := rfl

@[simp] theorem setOutputVolumeSpacing_properties (info : vtkVVPluginInfo) (source : Fin 3 → ℚ) :
    (info.setOutputVolumeSpacing source).properties = info.properties := rfl

@[simp] theorem setOutputVolumeSpacing_guiProperties (info : vtkVVPluginInfo) (source : Fin 3 → ℚ) :
    (info.setOutputVolumeSpacing source).guiProperties = info.guiProperties := rfl

@[simp] theorem GetGUIProperty_setOutputVolumeSpacing (info : vtkVVPluginInfo) (source : Fin 3 → ℚ) (item : Nat)
    (key : GUIProperty) : (info.setOutputVolumeSpacing source).GetGUIProperty item key
      = info.GetGUIProperty item key := rfl

@[simp] theorem setOutputVolumeOrigin_InputVolumeScalarType (info : vtkVVPluginInfo) (source : Fin 3 → ℚ) :
    (info.setOutputVolumeOrigin source).InputVolumeScalarType = info.InputVolumeScalarType := rfl

@[simp] theorem setOutputVolumeOrigin_InputVolumeScalarSize (info : vtkVVPluginInfo) (source : Fin 3 → ℚ) :
    (info.setOutputVolumeOrigin source).InputVolumeScalarSize = info.InputVolumeScalarSize := rfl

@[simp] theorem setOutputVolumeOrigin_InputVolumeNumberOfComponents (info : vtkVVPluginInfo) (source : Fin 3 → ℚ) :
    (info.setOutputVolumeOrigin source).InputVolumeNumberOfComponents = info.InputVolumeNumberOfComponents := rfl

@[simp] theorem setOutputVolumeOrigin_InputVolumeDimensions (info : vtkVVPluginInfo) (source : Fin 3 → ℚ) :
    (info.setOutputVolumeOrigin source).InputVolumeDimensions = info.InputVolumeDimensions := rfl

@[simp] theorem setOutputVolumeOrigin_InputVolumeSpacing (info : vtkVVPluginInfo) (source : Fin 3 → ℚ) :
    (info.setOutputVolumeOrigin source).InputVolumeSpacing = info.InputVolumeSpacing := rfl

@[simp] theorem setOutputVolumeOrigin_InputVolumeOrigin (info : vtkVVPluginInfo) (source : Fin 3 → ℚ) :
    (info.setOutputVolumeOrigin source).InputVolumeOrigin = info.InputVolumeOrigin := rfl

@[simp] theorem setOutputVolumeOrigin_InputVolumeScalarRange (info : vtkVVPluginInfo) (source : Fin 3 → ℚ) :
    (info.setOutputVolumeOrigin source).InputVolumeScalarRange = info.InputVolumeScalarRange := rfl

@[simp] theorem setOutputVolumeOrigin_NumberOfMarkers (info : vtkVVPluginInfo) (source : Fin 3 → ℚ) :
    (info.setOutputVolumeOrigin source).NumberOfMarkers = info.NumberOfMarkers := rfl

@[simp] theorem setOutputVolumeOrigin_Markers (info : vtkVVPluginInfo) (source : Fin 3 → ℚ) :
    (info.setOutputVolumeOrigin source).Markers = info.Markers := rfl

@[simp] theorem setOutputVolumeOrigin_OutputVolumeScalarType (info : vtkVVPluginInfo) (source : Fin 3 → ℚ) :
    (info.setOutputVolumeOrigin source).OutputVolumeScalarType = info.OutputVolumeScalarType := rfl

@[simp] theorem setOutputVolumeOrigin_OutputVolumeNumberOfComponents (info : vtkVVPluginInfo) (source : Fin 3 → ℚ) :
    (info.setOutputVolumeOrigin source).OutputVolumeNumberOfComponents = info.OutputVolumeNumberOfComponents := rfl

@[simp] theorem setOutputVolumeOrigin_OutputVolumeDimensions (info : vtkVVPluginInfo) (source : Fin 3 → ℚ) :
    (info.setOutputVolumeOrigin source).OutputVolumeDimensions = info.OutputVolumeDimensions := rfl

@[simp] theorem setOutputVolumeOrigin_OutputVolumeSpacing (info : vtkVVPluginInfo) (source : Fin 3 → ℚ) :
    (info.setOutputVolumeOrigin source).OutputVolumeSpacing = info.OutputVolumeSpacing := rfl

@[simp] theorem setOutputVolumeOrigin_OutputVolumeOrigin (info : vtkVVPluginInfo) (source : Fin 3 → ℚ) :
    (info.setOutputVolumeOrigin source).OutputVolumeOrigin = source := rfl

@[simp] theorem setOutputVolumeOrigin_properties (info : vtkVVPluginInfo) (source : Fin 3 → ℚ) :
    (info.setOutputVolumeOrigin source).properties = info.properties := rfl

@[simp] theorem setOutputVolumeOrigin_guiProperties (info : vtkVVPluginInfo) (source : Fin 3 → ℚ) :
    (info.setOutputVolumeOrigin source).guiProperties = info.guiProperties := rfl

@[simp] theorem GetGUIProperty_setOutputVolumeOrigin (info : vtkVVPluginInfo) (source : Fin 3 → ℚ) (item : Nat)
    (key : GUIProperty) : (info.setOutputVolumeOrigin source).GetGUIProperty item key
      = info.GetGUIProperty item key := rfl

@[simp] theorem SetProperty_properties (info : vtkVVPluginInfo) (key k : Property) (value : String) :
    (info.SetProperty key value).properties k
      = if k = key then some value else info.properties k := rfl

@[simp] theorem SetGUIProperty_guiProperties (info : vtkVVPluginInfo) (item i : Nat)
    (key k : GUIProperty) (value : String) :
    (info.SetGUIProperty item key value).guiProperties i k
      = if i = item ∧ k = key then some value else info.guiProperties i k := rfl

@[simp] theorem GetGUIProperty_SetProperty (info : vtkVVPluginInfo) (key : Property)
    (value : String) (item : Nat) (k : GUIProperty) :
    (info.SetProperty key value).GetGUIProperty item k = info.GetGUIProperty item k := rfl

theorem GetGUIProperty_value_SetGUIProperty (info : vtkVVPluginInfo) (item i : Nat)
    (key : GUIProperty) (value : String) (hkey : key ≠ .VVP_GUI_VALUE) :
    (info.SetGUIProperty item key value).GetGUIProperty i .VVP_GUI_VALUE
      = info.GetGUIProperty i .VVP_GUI_VALUE := by
  simp [GetGUIProperty, SetGUIProperty, Ne.symm hkey]

end vtkVVPluginInfo

attribute [irreducible] vtkVVPluginInfo.SetGUIProperty vtkVVPluginInfo.SetProperty
  vtkVVPluginInfo.setOutputVolumeScalarType vtkVVPluginInfo.setOutputVolumeNumberOfComponents
  vtkVVPluginInfo.setOutputVolumeDimension vtkVVPluginInfo.setOutputVolumeDimensions
  vtkVVPluginInfo.setOutputVolumeSpacing vtkVVPluginInfo.setOutputVolumeOrigin

/-! ## Basic facts -/

@[simp] theorem Run.bind_apply {α β : Type} (x : Run α) (f : α → Run β) (w : World) :
    (x >>= f) w = match x w with
      | ⟨.ok a, w1⟩ => f a w1
      | ⟨.error e, w1⟩ => ⟨.error e, w1⟩ := rfl

@[simp] theorem Run.pure_apply {α : Type} (a : α) (w : World) :
    (pure a : Run α) w = ⟨.ok a, w⟩ := rfl

theorem scalarTypeSwitch_tag (H : Headers) (p : PixelType) :
    scalarTypeSwitch H (H.tag p) = some p := by
  have h := H.tags_nodup
  simp only [List.nodup_cons, List.mem_cons, List.mem_singleton, not_or, List.not_mem_nil,
    not_false_eq_true, List.nodup_nil, and_true] at h
  obtain ⟨⟨h1, h2, h3, h4, h5, h6, h7, h8, h9⟩, ⟨g2, g3, g4, g5, g6, g7, g8, g9⟩,
    ⟨k3, k4, k5, k6, k7, k8, k9⟩, ⟨l4, l5, l6, l7, l8, l9⟩, ⟨m5, m6, m7, m8, m9⟩,
    ⟨n6, n7, n8, n9⟩, ⟨o7, o8, o9⟩, ⟨q8, q9⟩, r9⟩ := h
  cases p <;> simp [scalarTypeSwitch, Headers.tag, *, Ne.symm, eq_comm]

theorem Headers.tag_injective (H : Headers) : Function.Injective H.tag := by
  intro a b hab
  have h := scalarTypeSwitch_tag H a
  rw [hab, scalarTypeSwitch_tag] at h
  exact (Option.some.inj h).symm

theorem scalarTypeSwitch_none (H : Headers) (t : Int) (h : ∀ p, t ≠ H.tag p) :
    scalarTypeSwitch H t = none := by
  have h0 := h .signedChar
  have h1 := h .unsignedChar
  have h2 := h .signedShort
  have h3 := h .unsignedShort
  have h4 := h .signedInt
  have h5 := h .unsignedInt
  have h6 := h .signedLong
  have h7 := h .unsignedLong
  have h8 := h .float
  have h9 := h .double
  simp only [Headers.tag] at h0 h1 h2 h3 h4 h5 h6 h7 h8 h9
  simp [scalarTypeSwitch, *]

/-! ## Precondition checks of `ProcessData` -/

/-- C2. In AntiAlias, ConfidenceConnected, GeodesicActiveContour and
GeodesicActiveContourModule, an input whose component count is not 1 makes
`ProcessData` return -1 with `VVP_ERROR` set to the plugin's message, whatever
the scalar type and the markers; no runner is invoked, and the output buffer and
every output field of the info are as before the call. -/
theorem processData_rejects_multi_component (H : Headers) (P : Pipeline) (plugin : Plugin)
    (w : World) (hplugin : plugin.singleComponentOnly = true)
    (hcomp : w.info.InputVolumeNumberOfComponents ≠ 1) :
    (plugin.ProcessData H P).run w = ⟨.ok (-1), w.withError plugin.singleComponentMessage⟩ ∧
    (w.withError plugin.singleComponentMessage).info.properties .VVP_ERROR
      = some plugin.singleComponentMessage ∧
    runnerCalls (w.withError plugin.singleComponentMessage).log = runnerCalls w.log ∧
    (w.withError plugin.singleComponentMessage).pds = w.pds ∧
    (w.withError plugin.singleComponentMessage).info.OutputVolumeScalarType
      = w.info.OutputVolumeScalarType ∧
    (w.withError plugin.singleComponentMessage).info.OutputVolumeNumberOfComponents
      = w.info.OutputVolumeNumberOfComponents ∧
    (w.withError plugin.singleComponentMessage).info.OutputVolumeDimensions
      = w.info.OutputVolumeDimensions ∧
    (w.withError plugin.singleComponentMessage).info.OutputVolumeSpacing
      = w.info.OutputVolumeSpacing ∧
    (w.withError plugin.singleComponentMessage).info.OutputVolumeOrigin
      = w.info.OutputVolumeOrigin := by
  refine ⟨?_, ?_, ?_, rfl, ?_, ?_, ?_, ?_, ?_⟩ <;> try simp only [World.withError,
    vtkVVPluginInfo.SetProperty_OutputVolumeScalarType,
    vtkVVPluginInfo.SetProperty_OutputVolumeNumberOfComponents,
    vtkVVPluginInfo.SetProperty_OutputVolumeDimensions,
    vtkVVPluginInfo.SetProperty_OutputVolumeSpacing,
    vtkVVPluginInfo.SetProperty_OutputVolumeOrigin]
  · cases plugin <;> simp [Plugin.singleComponentOnly] at hplugin <;>
      simp [Plugin.ProcessData, vvITKAntiAlias.ProcessData, vvITKConfidenceConnected.ProcessData,
        vvITKGeodesicActiveContour.ProcessData, vvITKGeodesicActiveContourModule.ProcessData,
        Run.run, Run.getInfo, Run.SetProperty, World.withError, Plugin.singleComponentMessage, hcomp]
  · simp [World.withError]
  · simp [World.withError, runnerCalls, List.filter_append, Event.isExecute]

theorem Run.getInfo_bind {α : Type} (f : vtkVVPluginInfo → Run α) (w : World) :
    (Run.getInfo >>= f) w = f w.info w := rfl

/-- The `try`/`catch` skeleton shared by the six `ProcessData` that end with `return 0`. -/
theorem tryCatch_return (x : Run Unit) (w : World) :
    (do
      let returned ← Run.tryCatch
        (do
          x
          pure none)
        (fun what => do
          Run.SetProperty .VVP_ERROR what
          pure (some (-1)))
      match returned with
      | some r => pure r
      | none => pure 0 : Run Int) w = atBoundary false (x w) := by
  simp only [Run.bind_apply, Run.tryCatch, Run.SetProperty, Run.pure_apply]
  rcases hx : x w with ⟨r, w1⟩
  rcases r with e | a
  · cases e <;> simp [atBoundary, World.withError]
  · simp [atBoundary]

/-- The `try`/`catch` skeleton of the two `ProcessData` that report progress 1.0 at the end. -/
theorem tryCatch_done (x : Run Unit) (w : World) :
    (do
      let returned ← Run.tryCatch
        (do
          x
          pure none)
        (fun what => do
          Run.SetProperty .VVP_ERROR what
          pure (some (-1)))
      match returned with
      | some r => pure r
      | none =>
        Run.UpdateProgress 1 "Geodesic Active Contour LevelSet Done !"
        pure 0 : Run Int) w = atBoundary true (x w) := by
  simp only [Run.bind_apply, Run.tryCatch, Run.SetProperty, Run.pure_apply]
  rcases hx : x w with ⟨r, w1⟩
  rcases r with e | a
  · cases e <;> simp [atBoundary, World.withError]
  · simp [atBoundary, Run.UpdateProgress, Run.emit]

/-- With the preconditions met and a supported tag, `ProcessData` is the runner
of the matching pixel type followed by the handling at the boundary. -/
theorem processData_of_tag (H : Headers) (P : Pipeline) (plugin : Plugin) (p : PixelType)
    (w : World) (hpre : plugin.preconditions w.info)
    (htag : w.info.InputVolumeScalarType = H.tag p) :
    (plugin.ProcessData H P).run w
      = atBoundary plugin.reportsDone ((plugin.Execute H P p).run w) := by
  obtain ⟨h1, h2⟩ := hpre
  cases plugin <;>
    simp only [Plugin.singleComponentOnly, Plugin.requiresSeeds, forall_const, true_implies,
      false_implies, Bool.false_eq_true, ← not_lt] at h1 h2 <;>
    simp only [Plugin.ProcessData, Plugin.Execute, Plugin.reportsDone, Run.run,
      vvITKAntiAlias.ProcessData, vvITKConfidenceConnected.ProcessData,
      vvITKGeodesicActiveContour.ProcessData, vvITKGeodesicActiveContourModule.ProcessData,
      vvITKGradientAnisotropicDiffusion.ProcessData, vvITKGradientMagnitude.ProcessData,
      vvITKIntensityWindowing.ProcessData, vvITKSigmoid.ProcessData,
      Run.getInfo_bind, htag, scalarTypeSwitch_tag, h1, h2, ne_eq, not_true_eq_false,
      if_false, not_false_eq_true] <;>
    first
      | exact tryCatch_return _ w
      | exact tryCatch_done _ w

/-! ## Runner invocations -/

theorem Run.silent_pure {α : Type} (a : α) : (pure a : Run α).Silent := ⟨fun _ => rfl⟩

theorem Run.silent_bind {α β : Type} {x : Run α} {f : α → Run β} (hx : x.Silent)
    (hf : ∀ a, (f a).Silent) : (x >>= f).Silent := by
  refine ⟨fun w => ?_⟩
  have h := hx.calls w
  simp only [Run.bind_apply]
  rcases hxw : x w with ⟨r, w1⟩
  rw [hxw] at h
  rcases r with e | a
  · exact h
  · exact ((hf a).calls w1).trans h

theorem Run.silent_emit (e : Event) (he : e.isExecute = false) : (Run.emit e).Silent := by
  refine ⟨fun w => ?_⟩
  simp [Run.emit, runnerCalls, List.filter_append, he]

theorem Run.silent_getInfo : Run.getInfo.Silent := ⟨fun _ => rfl⟩

theorem Run.silent_SetProperty (key : Property) (value : String) :
    (Run.SetProperty key value).Silent := by
  refine ⟨fun w => ?_⟩
  simp [Run.SetProperty, runnerCalls, List.filter_append, Event.isExecute]

theorem silent_atoiGUIValue (H : Headers) (item : Nat) : (atoiGUIValue H item).Silent := by
  refine ⟨fun w => ?_⟩
  unfold atoiGUIValue
  split <;> rfl

theorem silent_atofGUIValue (H : Headers) (item : Nat) : (atofGUIValue H item).Silent := by
  refine ⟨fun w => ?_⟩
  unfold atofGUIValue
  split <;> rfl

theorem silent_moduleProcessData (P : Pipeline) (plugin : Plugin) (p : PixelType) :
    (moduleProcessData P plugin p).Silent := by
  refine ⟨fun w => ?_⟩
  simp only [moduleProcessData]
  split <;> simp [runnerCalls, List.filter_append, Event.isExecute]

theorem silent_Convert3DMarkerToIndex (i : Nat) : (Convert3DMarkerToIndex i).Silent := by
  refine ⟨fun w => ?_⟩
  unfold Convert3DMarkerToIndex
  split <;> rfl

theorem silent_seedLoop (AddSeed : Arg → Event) (hadd : ∀ a, (AddSeed a).isExecute = false)
    (l : List Nat) : (seedLoop AddSeed l).Silent := by
  induction l with
  | nil => exact Run.silent_pure ()
  | cons i rest ih =>
    unfold seedLoop
    exact Run.silent_bind (silent_Convert3DMarkerToIndex i) fun seed =>
      Run.silent_bind (Run.silent_emit _ (hadd _)) fun _ => ih

theorem runnerCalls_emit_bind {α : Type} (e : Event) (rest : Run α) (h : rest.Silent)
    (w : World) :
    runnerCalls ((Run.emit e >>= fun _ => rest) w).world.log
      = runnerCalls w.log ++ runnerCalls [e] := by
  simp only [Run.bind_apply, Run.emit]
  rw [h.calls]
  simp [runnerCalls, List.filter_append]

/-- Every runner logs its own invocation once and invokes no other runner,
however it ends. -/
theorem runnerCalls_execute (H : Headers) (P : Pipeline) (plugin : Plugin) (p : PixelType)
    (w : World) :
    runnerCalls ((plugin.Execute H P p).run w).world.log
      = runnerCalls w.log ++ [Event.Execute plugin p] := by
  cases plugin <;>
  · simp only [Plugin.Execute, Run.run, vvITKAntiAlias.AntiAliasRunner.Execute,
      vvITKConfidenceConnected.ConfidenceConnectedRunner.Execute,
      vvITKGeodesicActiveContour.GeodesicActiveContoureRunner.Execute,
      vvITKGeodesicActiveContourModule.GeodesicActiveContourModuleRunner.Execute,
      vvITKGradientAnisotropicDiffusion.GradientAnisotropicDiffusionRunner.Execute,
      vvITKGradientMagnitude.GradientMagnitudeRunner.Execute,
      vvITKIntensityWindowing.IntensityWindowingRunner.Execute,
      vvITKSigmoid.SigmoidRunner.Execute]
    refine (runnerCalls_emit_bind _ _ ?_ w).trans ?_
    · with_reducible repeat' first
        | exact Run.silent_pure _
        | exact Run.silent_getInfo
        | exact Run.silent_SetProperty _ _
        | exact silent_atoiGUIValue _ _
        | exact silent_atofGUIValue _ _
        | exact silent_moduleProcessData _ _ _
        | apply silent_seedLoop
        | apply Run.silent_emit
        | apply Run.silent_bind
        | intro _
      all_goals rfl
    · rfl

/-! ## Dispatch on the scalar type -/

/-- C1. For each of the eight plugins and each of the ten supported scalar type
tags (`H.tag p` for the ten C types `p`), when the plugin's preconditions hold
and the runner raises no exception, `ProcessData` returns 0 and the runners
invoked during the call are exactly one: the instantiation for the C type that
matches the tag, invoked once. -/
theorem processData_dispatches_one_runner (H : Headers) (P : Pipeline) (plugin : Plugin)
    (p : PixelType) (w : World) (htag : w.info.InputVolumeScalarType = H.tag p)
    (hpre : plugin.preconditions w.info)
    (hrun : ((plugin.Execute H P p).run w).result = .ok ()) :
    ((plugin.ProcessData H P).run w).result = .ok 0 ∧
    runnerCalls ((plugin.ProcessData H P).run w).world.log
      = runnerCalls w.log ++ [Event.Execute plugin p] := by
  have hcalls := runnerCalls_execute H P plugin p w
  rw [processData_of_tag H P plugin p w hpre htag]
  rcases hx : (plugin.Execute H P p).run w with ⟨r, w1⟩
  rw [hx] at hrun hcalls
  simp only at hrun hcalls
  subst hrun
  refine ⟨rfl, ?_⟩
  cases plugin.reportsDone
  · simpa [atBoundary] using hcalls
  · simpa [atBoundary, runnerCalls, List.filter_append, Event.isExecute] using hcalls

/-- C3. In ConfidenceConnected and GeodesicActiveContourModule, a single-component
input with fewer than one marker makes `ProcessData` return -1 with `VVP_ERROR`
set to the plugin's request to select points with the 3D Markers; no runner is
invoked. -/
theorem processData_rejects_missing_markers (H : Headers) (P : Pipeline) (plugin : Plugin)
    (w : World) (hplugin : plugin.requiresSeeds = true)
    (hcomp : w.info.InputVolumeNumberOfComponents = 1) (hmarkers : w.info.NumberOfMarkers < 1) :
    (plugin.ProcessData H P).run w = ⟨.ok (-1), w.withError plugin.markersMessage⟩ ∧
    (w.withError plugin.markersMessage).info.properties .VVP_ERROR = some plugin.markersMessage ∧
    runnerCalls (w.withError plugin.markersMessage).log = runnerCalls w.log := by
  refine ⟨?_, ?_, ?_⟩
  · cases plugin <;> simp [Plugin.requiresSeeds] at hplugin <;>
      simp [Plugin.ProcessData, vvITKConfidenceConnected.ProcessData,
        vvITKGeodesicActiveContourModule.ProcessData, Run.run, Run.getInfo, Run.SetProperty,
        World.withError, Plugin.markersMessage, hcomp, hmarkers]
  · simp [World.withError]
  · simp [World.withError, runnerCalls, List.filter_append, Event.isExecute]

/-! ## Exceptions at the boundary of `ProcessData` -/

/-- C5. For each of the eight plugins, if the dispatched runner raises an
`itk::ExceptionObject` with message `m`, `ProcessData` does not propagate it: it
returns -1 and `VVP_ERROR` is exactly `m` afterwards. -/
theorem processData_catches_itk_exception (H : Headers) (P : Pipeline) (plugin : Plugin)
    (p : PixelType) (w : World) (m : String)
    (htag : w.info.InputVolumeScalarType = H.tag p) (hpre : plugin.preconditions w.info)
    (hthrow : ((plugin.Execute H P p).run w).result = .error (.itkExceptionObject m)) :
    ((plugin.ProcessData H P).run w).result = .ok (-1) ∧
    ((plugin.ProcessData H P).run w).world.info.properties .VVP_ERROR = some m := by
  rw [processData_of_tag H P plugin p w hpre htag]
  rcases hx : (plugin.Execute H P p).run w with ⟨r, w1⟩
  rw [hx] at hthrow
  simp only at hthrow
  subst hthrow
  simp [atBoundary, World.withError]

/-- C6, as amended. For each of the eight plugins, `ProcessData` catches at its
boundary the faults raised as `itk::ExceptionObject` and returns -1 with the
message as diagnostic; a fault of any other kind raised while the runner executes
is not caught and escapes `ProcessData` to the host. -/
theorem processData_catches_only_itk_exceptions (H : Headers) (P : Pipeline) (plugin : Plugin)
    (p : PixelType) (w : World)
    (htag : w.info.InputVolumeScalarType = H.tag p) (hpre : plugin.preconditions w.info) :
    (∀ m, ((plugin.Execute H P p).run w).result = .error (.itkExceptionObject m) →
      ((plugin.ProcessData H P).run w).result = .ok (-1) ∧
      ((plugin.ProcessData H P).run w).world.info.properties .VVP_ERROR = some m) ∧
    (∀ e, (∀ m, e ≠ .itkExceptionObject m) →
      ((plugin.Execute H P p).run w).result = .error e →
      ((plugin.ProcessData H P).run w).result = .error e) := by
  rw [processData_of_tag H P plugin p w hpre htag]
  rcases hx : (plugin.Execute H P p).run w with ⟨r, w1⟩
  refine ⟨fun m hm => ?_, fun e he hr => ?_⟩
  · simp only at hm
    subst hm
    simp [atBoundary, World.withError]
  · simp only at hr
    subst hr
    cases e with
    | itkExceptionObject m => exact absurd rfl (he m)
    | otherException m => rfl
    | nullPointerRead => rfl

/-- C6, counterexample. AntiAlias on a valid single-component `unsigned char`
volume whose pipeline raises an exception that is not an `itk::ExceptionObject`:
the exception leaves `ProcessData`, no status is returned. -/
theorem processData_lets_other_exception_escape :
    ((Plugin.ProcessData Reference.headers
        (Reference.failing (.otherException "std::bad_alloc")) .AntiAlias).run
      (Reference.world ["5", "0.05"])).result = .error (.otherException "std::bad_alloc") := by
  rfl

/-! ## Output declared by `UpdateGUI` -/

/-- C9. For each of the eight plugins and every plugin info, `UpdateGUI` returns 1
and leaves the declared output geometry equal to the input geometry: for
d = 0, 1, 2 the output dimension, spacing and origin equal the input ones (which
the call does not change). -/
theorem updateGUI_copies_geometry (H : Headers) (plugin : Plugin) (info : vtkVVPluginInfo) :
    (plugin.UpdateGUI H info).1 = 1 ∧
    ∀ d : Fin 3,
      (plugin.UpdateGUI H info).2.OutputVolumeDimensions d
        = (plugin.UpdateGUI H info).2.InputVolumeDimensions d ∧
      (plugin.UpdateGUI H info).2.OutputVolumeSpacing d
        = (plugin.UpdateGUI H info).2.InputVolumeSpacing d ∧
      (plugin.UpdateGUI H info).2.OutputVolumeOrigin d
        = (plugin.UpdateGUI H info).2.InputVolumeOrigin d ∧
      (plugin.UpdateGUI H info).2.InputVolumeDimensions d = info.InputVolumeDimensions d ∧
      (plugin.UpdateGUI H info).2.InputVolumeSpacing d = info.InputVolumeSpacing d ∧
      (plugin.UpdateGUI H info).2.InputVolumeOrigin d = info.InputVolumeOrigin d := by
  cases plugin
  case AntiAlias =>
    refine ⟨by simp [Plugin.UpdateGUI, vvITKAntiAlias.UpdateGUI], fun d => ?_⟩
    simp only [Plugin.UpdateGUI, vvITKAntiAlias.UpdateGUI]
    split <;> fin_cases d <;> simp [Function.update]
  case GradientAnisotropicDiffusion =>
    refine ⟨by simp [Plugin.UpdateGUI, vvITKGradientAnisotropicDiffusion.UpdateGUI], fun d => ?_⟩
    simp only [Plugin.UpdateGUI, vvITKGradientAnisotropicDiffusion.UpdateGUI]
    split <;> fin_cases d <;> simp [Function.update]
  case ConfidenceConnected =>
    refine ⟨by simp [Plugin.UpdateGUI, vvITKConfidenceConnected.UpdateGUI], fun d => ?_⟩
    simp only [Plugin.UpdateGUI, vvITKConfidenceConnected.UpdateGUI]
    split
    · split <;> simp
    · simp
  case GeodesicActiveContour =>
    simp [Plugin.UpdateGUI, vvITKGeodesicActiveContour.UpdateGUI]
  case GeodesicActiveContourModule =>
    simp [Plugin.UpdateGUI, vvITKGeodesicActiveContourModule.UpdateGUI]
  case GradientMagnitude =>
    refine ⟨by simp [Plugin.UpdateGUI, vvITKGradientMagnitude.UpdateGUI], fun d => ?_⟩
    simp only [Plugin.UpdateGUI, vvITKGradientMagnitude.UpdateGUI]
    split <;> simp
  case IntensityWindowing =>
    refine ⟨by simp [Plugin.UpdateGUI, vvITKIntensityWindowing.UpdateGUI], fun d => ?_⟩
    simp only [Plugin.UpdateGUI, vvITKIntensityWindowing.UpdateGUI]
    split <;> simp
  case Sigmoid =>
    refine ⟨by simp [Plugin.UpdateGUI, vvITKSigmoid.UpdateGUI], fun d => ?_⟩
    simp only [Plugin.UpdateGUI, vvITKSigmoid.UpdateGUI]
    split <;> simp

/-- C10. ConfidenceConnected `UpdateGUI` declares the output from the value of GUI
item 4 ('Produce composite output'): when the value is present and `atoi` of it
is non-zero, 2 components, the input scalar type and per-voxel memory "2"; when
`atoi` of it is 0 or the value is absent (null), 1 component, `VTK_UNSIGNED_CHAR`
and per-voxel memory "1". -/
theorem confidenceConnected_updateGUI_output (H : Headers) (info : vtkVVPluginInfo) :
    (∀ s, info.guiProperties 4 .VVP_GUI_VALUE = some s → H.atoi s ≠ 0 →
      (vvITKConfidenceConnected.UpdateGUI H info).2.OutputVolumeNumberOfComponents = 2 ∧
      (vvITKConfidenceConnected.UpdateGUI H info).2.OutputVolumeScalarType
        = info.InputVolumeScalarType ∧
      (vvITKConfidenceConnected.UpdateGUI H info).2.properties .VVP_PER_VOXEL_MEMORY_REQUIRED
        = some "2") ∧
    ((info.guiProperties 4 .VVP_GUI_VALUE = none ∨
        ∃ s, info.guiProperties 4 .VVP_GUI_VALUE = some s ∧ H.atoi s = 0) →
      (vvITKConfidenceConnected.UpdateGUI H info).2.OutputVolumeNumberOfComponents = 1 ∧
      (vvITKConfidenceConnected.UpdateGUI H info).2.OutputVolumeScalarType
        = H.VTK_UNSIGNED_CHAR ∧
      (vvITKConfidenceConnected.UpdateGUI H info).2.properties .VVP_PER_VOXEL_MEMORY_REQUIRED
        = some "1") := by
  have hget : ∀ i : vtkVVPluginInfo, i.GetGUIProperty 4 .VVP_GUI_VALUE
      = i.guiProperties 4 .VVP_GUI_VALUE := fun _ => rfl
  refine ⟨fun s hs hne => ?_, fun h => ?_⟩
  · simp [vvITKConfidenceConnected.UpdateGUI, hget, hs, hne]
  · rcases h with h | ⟨s, hs, h0⟩
    · simp [vvITKConfidenceConnected.UpdateGUI, hget, h]
    · simp [vvITKConfidenceConnected.UpdateGUI, hget, hs, h0]

/-! ## Values and seeds in the runners -/

/-- The seed loop over markers that all lie inside the volume adds their
indices in order and returns. -/
theorem seedLoop_inside (AddSeed : Arg → Event) (l : List Nat) (info : vtkVVPluginInfo)
    (pds : vtkVVProcessDataStruct) (log : List Event)
    (h : ∀ i ∈ l, insideVolume info (markerIndex info i)) :
    seedLoop AddSeed l ⟨info, pds, log⟩
      = ⟨.ok (), ⟨info, pds, log ++ l.map fun i => AddSeed (seedOfMarker info i)⟩⟩ := by
  induction l generalizing log with
  | nil => simp [seedLoop]
  | cons i rest ih =>
    have hi := h i (List.mem_cons_self _ _)
    have hrest : ∀ j ∈ rest, insideVolume info (markerIndex info j) :=
      fun j hj => h j (List.mem_cons_of_mem _ hj)
    simp only [seedLoop, Run.bind_apply, Convert3DMarkerToIndex, hi, if_true, Run.emit]
    rw [ih _ hrest]
    simp [seedOfMarker]

/-- The seed loop stops at the first marker outside the volume with the
converter's exception, having added the seeds of the markers before it. -/
theorem seedLoop_outside (AddSeed : Arg → Event) (before after : List Nat) (k : Nat)
    (info : vtkVVPluginInfo) (pds : vtkVVProcessDataStruct) (log : List Event)
    (h : ∀ i ∈ before, insideVolume info (markerIndex info i))
    (hk : ¬ insideVolume info (markerIndex info k)) :
    seedLoop AddSeed (before ++ k :: after) ⟨info, pds, log⟩
      = ⟨.error (.itkExceptionObject seedOutsideVolume),
          ⟨info, pds, log ++ before.map fun i => AddSeed (seedOfMarker info i)⟩⟩ := by
  induction before generalizing log with
  | nil => simp [seedLoop, Convert3DMarkerToIndex, hk]
  | cons i rest ih =>
    have hi := h i (List.mem_cons_self _ _)
    have hrest : ∀ j ∈ rest, insideVolume info (markerIndex info j) :=
      fun j hj => h j (List.mem_cons_of_mem _ hj)
    simp only [List.cons_append, seedLoop, Run.bind_apply, Convert3DMarkerToIndex, hi, if_true,
      Run.emit, List.append_eq]
    rw [ih _ hrest]
    simp [seedOfMarker]

theorem range_split (k n : Nat) (h : k < n) :
    List.range n = List.range k ++ k :: List.range' (k + 1) (n - k - 1) := by
  rw [List.range_eq_range', List.range_eq_range']
  have h2 := List.range'_append 0 k (n - k - 1 + 1) 1
  rw [List.range'_succ, show n - k - 1 + 1 + k = n by omega] at h2
  simpa using h2.symm

/-- C8, as amended (the converter is modelled from the spec). In ConfidenceConnected
and GeodesicActiveContourModule, if marker `k` is the first whose index lies
outside `[0, dimensions[d]-1]` in some coordinate, the invocation is rejected:
`ProcessData` returns -1 with `VVP_ERROR` set to the converter's message and the
pipeline is not executed; by then the runner has added the seeds of the markers
before `k`, in order, and no other. -/
theorem processData_rejects_seed_outside (H : Headers) (P : Pipeline) (plugin : Plugin)
    (p : PixelType) (w : World) (k : Nat) (hplugin : plugin.requiresSeeds = true)
    (htag : w.info.InputVolumeScalarType = H.tag p) (hpre : plugin.preconditions w.info)
    (hvalues : plugin.valuesPresent w.info)
    (hint : w.info.NumberOfMarkers < 2 ^ 31) (hk : (k : Int) < w.info.NumberOfMarkers)
    (hbefore : ∀ i < k, insideVolume w.info (markerIndex w.info i))
    (hout : ¬ insideVolume w.info (markerIndex w.info k)) :
    ((plugin.ProcessData H P).run w).result = .ok (-1) ∧
    ((plugin.ProcessData H P).run w).world.info.properties .VVP_ERROR = some seedOutsideVolume ∧
    pipelineRuns ((plugin.ProcessData H P).run w).world.log = pipelineRuns w.log ∧
    seedsAdded ((plugin.ProcessData H P).run w).world.log
      = seedsAdded w.log ++ (List.range k).map fun i => plugin.AddSeed (seedOfMarker w.info i) := by
  have hlt : k < (toUnsignedInt w.info.NumberOfMarkers).toNat := by
    unfold toUnsignedInt
    omega
  have hb : ∀ i ∈ List.range k, insideVolume w.info (markerIndex w.info i) :=
    fun i hi => hbefore i (List.mem_range.mp hi)
  rw [processData_of_tag H P plugin p w hpre htag]
  cases plugin <;> simp [Plugin.requiresSeeds] at hplugin
  case ConfidenceConnected =>
    obtain ⟨s0, h0⟩ := Option.ne_none_iff_exists'.mp (hvalues 0 (by decide))
    obtain ⟨s1, h1⟩ := Option.ne_none_iff_exists'.mp (hvalues 1 (by decide))
    obtain ⟨s2, h2⟩ := Option.ne_none_iff_exists'.mp (hvalues 2 (by decide))
    obtain ⟨s3, h3⟩ := Option.ne_none_iff_exists'.mp (hvalues 3 (by decide))
    obtain ⟨s4, h4⟩ := Option.ne_none_iff_exists'.mp (hvalues 4 (by decide))
    simp only [Plugin.AddSeed]
    simp [Plugin.Execute, Run.run, vvITKConfidenceConnected.ConfidenceConnectedRunner.Execute,
      atoiGUIValue, atofGUIValue, vtkVVPluginInfo.GetGUIProperty, h0, h1, h2, h3, h4,
      Run.emit, Run.getInfo, range_split k _ hlt, seedLoop_outside _ _ _ _ _ _ _ hb hout,
      atBoundary, World.withError, pipelineRuns, seedsAdded, List.filter_append,
      Event.isPipelineRun, Event.isAddSeed]
  case GeodesicActiveContourModule =>
    obtain ⟨s0, h0⟩ := Option.ne_none_iff_exists'.mp (hvalues 0 (by decide))
    obtain ⟨s1, h1⟩ := Option.ne_none_iff_exists'.mp (hvalues 1 (by decide))
    obtain ⟨s2, h2⟩ := Option.ne_none_iff_exists'.mp (hvalues 2 (by decide))
    obtain ⟨s3, h3⟩ := Option.ne_none_iff_exists'.mp (hvalues 3 (by decide))
    obtain ⟨s4, h4⟩ := Option.ne_none_iff_exists'.mp (hvalues 4 (by decide))
    obtain ⟨s5, h5⟩ := Option.ne_none_iff_exists'.mp (hvalues 5 (by decide))
    obtain ⟨s6, h6⟩ := Option.ne_none_iff_exists'.mp (hvalues 6 (by decide))
    obtain ⟨s7, h7⟩ := Option.ne_none_iff_exists'.mp (hvalues 7 (by decide))
    obtain ⟨s8, h8⟩ := Option.ne_none_iff_exists'.mp (hvalues 8 (by decide))
    simp only [Plugin.AddSeed]
    simp [Plugin.Execute, Run.run,
      vvITKGeodesicActiveContourModule.GeodesicActiveContourModuleRunner.Execute,
      atoiGUIValue, atofGUIValue, vtkVVPluginInfo.GetGUIProperty, h0, h1, h2, h3, h4, h5, h6, h7,
      h8, Run.emit, Run.getInfo, range_split k _ hlt, seedLoop_outside _ _ _ _ _ _ _ hb hout,
      atBoundary, World.withError, pipelineRuns, seedsAdded, List.filter_append,
      Event.isPipelineRun, Event.isAddSeed]

/-- C8, counterexample (the converter is modelled from the spec). ConfidenceConnected
with two markers, the first inside the volume and the second outside: the
invocation is rejected and the pipeline is not executed, yet the seed of the
first marker has been added to the filter. -/
theorem processData_adds_seed_before_rejecting :
    insideVolume (Reference.twoMarkers ["5", "2.5", "255", "2", "0"]).info
      (markerIndex (Reference.twoMarkers ["5", "2.5", "255", "2", "0"]).info 0) ∧
    ¬ insideVolume (Reference.twoMarkers ["5", "2.5", "255", "2", "0"]).info
      (markerIndex (Reference.twoMarkers ["5", "2.5", "255", "2", "0"]).info 1) ∧
    ((Plugin.ProcessData Reference.headers Reference.pipeline .ConfidenceConnected).run
      (Reference.twoMarkers ["5", "2.5", "255", "2", "0"])).result = .ok (-1) ∧
    seedsAdded ((Plugin.ProcessData Reference.headers Reference.pipeline
      .ConfidenceConnected).run (Reference.twoMarkers ["5", "2.5", "255", "2", "0"])).world.log
      = [Event.filter "AddSeed" (Arg.index 0 0 0)] := by
  refine ⟨?_, ?_, ?_, ?_⟩
  · with_unfolding_all decide
  · with_unfolding_all decide
  · with_unfolding_all rfl
  · with_unfolding_all rfl

/-! ## Scalar types outside the ten tags -/

/-- Outside the ten tags, the seven `switch` statements without a `default`
select no case: `ProcessData` returns 0 with `VVP_ERROR` untouched and no
runner invoked (the two level-set plugins even report progress 1.0). -/
theorem processData_unknown_scalar_type (H : Headers) (P : Pipeline) (plugin : Plugin)
    (w : World) (hplugin : plugin ≠ .AntiAlias) (hpre : plugin.preconditions w.info)
    (htag : ∀ p, w.info.InputVolumeScalarType ≠ H.tag p) :
    (plugin.ProcessData H P).run w
      = ⟨.ok 0, if plugin.reportsDone = true then
          { w with log := w.log ++
              [Event.UpdateProgress 1 "Geodesic Active Contour LevelSet Done !"] }
          else w⟩ := by
  obtain ⟨h1, h2⟩ := hpre
  have hs := scalarTypeSwitch_none H _ htag
  cases plugin <;>
    simp only [Plugin.singleComponentOnly, Plugin.requiresSeeds, forall_const, true_implies,
      false_implies, Bool.false_eq_true, ← not_lt, ne_eq, not_true_eq_false] at h1 h2 hplugin <;>
    simp [Plugin.ProcessData, Plugin.reportsDone, Run.run,
      vvITKConfidenceConnected.ProcessData,
      vvITKGeodesicActiveContour.ProcessData, vvITKGeodesicActiveContourModule.ProcessData,
      vvITKGradientAnisotropicDiffusion.ProcessData, vvITKGradientMagnitude.ProcessData,
      vvITKIntensityWindowing.ProcessData, vvITKSigmoid.ProcessData,
      Run.getInfo, Run.tryCatch, Run.UpdateProgress, Run.emit, hs, h1, h2]

/-- C4, the code at the failing input. Sigmoid on a volume whose scalar type tag
is 1 (`VTK_BIT` in VTK's numbering, none of the ten tags 2..11): `ProcessData`
returns 0, `VVP_ERROR` stays unset, and nothing at all was called. -/
theorem sigmoid_processData_unknown_scalar_type :
    (∀ p, (1 : Int) ≠ Reference.headers.tag p) ∧
    ((Plugin.ProcessData Reference.headers Reference.pipeline .Sigmoid).run
      (Reference.ofScalarType 1 ["5.0", "0.0", "0", "255"])).result = .ok 0 ∧
    ((Plugin.ProcessData Reference.headers Reference.pipeline .Sigmoid).run
      (Reference.ofScalarType 1 ["5.0", "0.0", "0", "255"])).world.info.properties .VVP_ERROR
      = none ∧
    ((Plugin.ProcessData Reference.headers Reference.pipeline .Sigmoid).run
      (Reference.ofScalarType 1 ["5.0", "0.0", "0", "255"])).world.log = [] := by
  refine ⟨fun p => ?_, rfl, rfl, rfl⟩
  cases p <;> decide

/-! ## Output type declared by `UpdateGUI` -/

/-- C11. For AntiAlias, GeodesicActiveContour and GeodesicActiveContourModule and
every plugin info (whatever the input scalar type and component count),
`UpdateGUI` leaves the output scalar type `VTK_UNSIGNED_CHAR` and the output
component count 1. -/
theorem updateGUI_declares_unsigned_char (H : Headers) (info : vtkVVPluginInfo) :
    ((Plugin.UpdateGUI H .AntiAlias info).2.OutputVolumeScalarType = H.VTK_UNSIGNED_CHAR ∧
      (Plugin.UpdateGUI H .AntiAlias info).2.OutputVolumeNumberOfComponents = 1) ∧
    ((Plugin.UpdateGUI H .GeodesicActiveContour info).2.OutputVolumeScalarType
        = H.VTK_UNSIGNED_CHAR ∧
      (Plugin.UpdateGUI H .GeodesicActiveContour info).2.OutputVolumeNumberOfComponents = 1) ∧
    ((Plugin.UpdateGUI H .GeodesicActiveContourModule info).2.OutputVolumeScalarType
        = H.VTK_UNSIGNED_CHAR ∧
      (Plugin.UpdateGUI H .GeodesicActiveContourModule info).2.OutputVolumeNumberOfComponents
        = 1) := by
  refine ⟨?_, ?_, ?_⟩
  · simp only [Plugin.UpdateGUI, vvITKAntiAlias.UpdateGUI]
    split <;> simp
  · simp [Plugin.UpdateGUI, vvITKGeodesicActiveContour.UpdateGUI]
  · simp [Plugin.UpdateGUI, vvITKGeodesicActiveContourModule.UpdateGUI]

/-- C12. For GradientAnisotropicDiffusion, GradientMagnitude, IntensityWindowing
and Sigmoid and every plugin info, `UpdateGUI` leaves the output scalar type equal
to `InputVolumeScalarType` and the output component count equal to
`InputVolumeNumberOfComponents`, and leaves these two input fields as they were. -/
theorem updateGUI_keeps_data_type (H : Headers) (info : vtkVVPluginInfo) :
    Plugin.keepsDataType H .GradientAnisotropicDiffusion info ∧
    Plugin.keepsDataType H .GradientMagnitude info ∧
    Plugin.keepsDataType H .IntensityWindowing info ∧
    Plugin.keepsDataType H .Sigmoid info := by
  refine ⟨?_, ?_, ?_, ?_⟩
  · simp only [Plugin.keepsDataType, Plugin.UpdateGUI, vvITKGradientAnisotropicDiffusion.UpdateGUI]
    split <;> simp
  · simp only [Plugin.keepsDataType, Plugin.UpdateGUI, vvITKGradientMagnitude.UpdateGUI]
    split <;> simp
  · simp only [Plugin.keepsDataType, Plugin.UpdateGUI, vvITKIntensityWindowing.UpdateGUI]
    split <;> simp
  · simp only [Plugin.keepsDataType, Plugin.UpdateGUI, vvITKSigmoid.UpdateGUI]
    split <;> simp

/-- C13. For AntiAlias and GradientAnisotropicDiffusion and every plugin info,
`UpdateGUI` returns 1 and leaves `VVP_REQUIRED_Z_OVERLAP` set to "0" when the
value of GUI item 0 ('Number of Iterations') is absent (null) and to that value
string itself when it is present. -/
theorem updateGUI_tolerates_missing_iterations (H : Headers) (info : vtkVVPluginInfo) :
    ((Plugin.UpdateGUI H .AntiAlias info).1 = 1 ∧
      (Plugin.UpdateGUI H .AntiAlias info).2.properties .VVP_REQUIRED_Z_OVERLAP
        = some ((info.guiProperties 0 .VVP_GUI_VALUE).getD "0")) ∧
    ((Plugin.UpdateGUI H .GradientAnisotropicDiffusion info).1 = 1 ∧
      (Plugin.UpdateGUI H .GradientAnisotropicDiffusion info).2.properties
          .VVP_REQUIRED_Z_OVERLAP
        = some ((info.guiProperties 0 .VVP_GUI_VALUE).getD "0")) := by
  have hget : ∀ i : vtkVVPluginInfo, i.GetGUIProperty 0 .VVP_GUI_VALUE
      = i.guiProperties 0 .VVP_GUI_VALUE := fun _ => rfl
  refine ⟨⟨?_, ?_⟩, ⟨?_, ?_⟩⟩
  · simp [Plugin.UpdateGUI, vvITKAntiAlias.UpdateGUI]
  · cases h : info.guiProperties 0 .VVP_GUI_VALUE <;>
      simp [Plugin.UpdateGUI, vvITKAntiAlias.UpdateGUI, hget, h]
  · simp [Plugin.UpdateGUI, vvITKGradientAnisotropicDiffusion.UpdateGUI]
  · cases h : info.guiProperties 0 .VVP_GUI_VALUE <;>
      simp [Plugin.UpdateGUI, vvITKGradientAnisotropicDiffusion.UpdateGUI, hget, h]

/-! ## Per-voxel memory of GradientAnisotropicDiffusion -/

/-- An arithmetic result that fits an `int` is the value the `int` holds. -/
theorem toSignedInt_of_fits (n : Int) (h0 : -(2 ^ 31) ≤ n) (h1 : n < 2 ^ 31) :
    toSignedInt n = n := by
  unfold toSignedInt
  rw [Int.emod_eq_of_lt (by omega) (by omega)]
  omega

/-- The local `sizeReq` of GradientAnisotropicDiffusion `UpdateGUI` and the
property made of it. -/
theorem gradientAnisotropicDiffusion_sizeReq (H : Headers) (info : vtkVVPluginInfo) :
    (vvITKGradientAnisotropicDiffusion.UpdateGUI H info).2.properties
      .VVP_PER_VOXEL_MEMORY_REQUIRED
      = some (sprintf_d (if info.InputVolumeNumberOfComponents > 1
          then toSignedInt (2 * 4 + info.InputVolumeScalarSize) else 2 * 4)) := by
  simp only [vvITKGradientAnisotropicDiffusion.UpdateGUI]
  split <;> simp

/-- C15. For every plugin info whose `InputVolumeScalarSize` is a size in bytes
(not negative, and at most 2^31 - 9 so that the `int` sum with 8 does not
overflow), GradientAnisotropicDiffusion `UpdateGUI` sets
`VVP_PER_VOXEL_MEMORY_REQUIRED` to "8" (2*sizeof(float)) when
`InputVolumeNumberOfComponents <= 1` and to the decimal rendering of
8 + `InputVolumeScalarSize` when `InputVolumeNumberOfComponents > 1`; in both
cases the declared value is at least 8. -/
theorem gradientAnisotropicDiffusion_per_voxel_memory (H : Headers) (info : vtkVVPluginInfo)
    (hsize : 0 ≤ info.InputVolumeScalarSize ∧ info.InputVolumeScalarSize ≤ 2 ^ 31 - 9) :
    (info.InputVolumeNumberOfComponents ≤ 1 →
      (vvITKGradientAnisotropicDiffusion.UpdateGUI H info).2.properties
        .VVP_PER_VOXEL_MEMORY_REQUIRED = some "8") ∧
    (info.InputVolumeNumberOfComponents > 1 →
      (vvITKGradientAnisotropicDiffusion.UpdateGUI H info).2.properties
        .VVP_PER_VOXEL_MEMORY_REQUIRED = some (sprintf_d (8 + info.InputVolumeScalarSize))) ∧
    (∃ n : Int, 8 ≤ n ∧
      (vvITKGradientAnisotropicDiffusion.UpdateGUI H info).2.properties
        .VVP_PER_VOXEL_MEMORY_REQUIRED = some (sprintf_d n)) := by
  have h8 : sprintf_d (2 * 4) = "8" := by decide
  have hfit : toSignedInt (2 * 4 + info.InputVolumeScalarSize) = 8 + info.InputVolumeScalarSize :=
    toSignedInt_of_fits _ (by omega) (by omega)
  have hprop := gradientAnisotropicDiffusion_sizeReq H info
  rw [hfit] at hprop
  refine ⟨fun h => ?_, fun h => ?_, ?_⟩
  · rw [hprop, if_neg (not_lt.mpr h), h8]
  · rw [hprop, if_pos h]
  · refine ⟨_, ?_, hprop⟩
    split <;> omega

/-! ## Capabilities published by `Init` -/

/-- C16. For each of the eight plugins and every plugin info, `Init` leaves
`VVP_SUPPORTS_IN_PLACE_PROCESSING` set to "0"; it leaves
`VVP_SUPPORTS_PROCESSING_PIECES` set to "1" for IntensityWindowing and Sigmoid and
to "0" for the other six; and it sets `VVP_REQUIRES_SECOND_INPUT` (to "1") for
GeodesicActiveContour only: every other `Init` leaves that property as it was. -/
theorem init_publishes_capabilities (H : Headers) (plugin : Plugin) (info : vtkVVPluginInfo) :
    (plugin.Init H info).properties .VVP_SUPPORTS_IN_PLACE_PROCESSING = some "0" ∧
    (plugin.Init H info).properties .VVP_SUPPORTS_PROCESSING_PIECES
      = some (if plugin = .IntensityWindowing ∨ plugin = .Sigmoid then "1" else "0") ∧
    (plugin.Init H info).properties .VVP_REQUIRES_SECOND_INPUT
      = if plugin = .GeodesicActiveContour then some "1"
        else info.properties .VVP_REQUIRES_SECOND_INPUT := by
  cases plugin <;>
    simp [Plugin.Init, vvITKAntiAlias.vvITKAntiAliasInit,
      vvITKConfidenceConnected.vvITKConfidenceConnectedInit,
      vvITKGeodesicActiveContour.vvITKGeodesicActiveContourInit,
      vvITKGeodesicActiveContourModule.vvITKGeodesicActiveContourModuleInit,
      vvITKGradientAnisotropicDiffusion.vvITKGradientAnisotropicDiffusionInit,
      vvITKGradientMagnitude.vvITKGradientMagnitudeInit,
      vvITKIntensityWindowing.vvITKIntensityWindowingInit,
      vvITKSigmoid.vvITKSigmoidInit]

/-! ## The normalized Beta of Sigmoid -/

/-- The execution of the pipeline logs that one call, however it ends. -/
theorem moduleProcessData_log (P : Pipeline) (plugin : Plugin) (p : PixelType) (w : World) :
    (moduleProcessData P plugin p w).world.log
      = w.log ++ [Event.module "ProcessData" Arg.none] := by
  simp only [moduleProcessData]
  split <;> rfl

/-- C17. In `SigmoidRunner::Execute`, with the four GUI values present, the calls
logged are exactly the eight below: the filter's `SetBeta` receives
(1+b)/2*upper + (1-b)/2*lower, where b is `atof` of GUI value 1 and lower, upper
are `InputVolumeScalarRange[0]`, `[1]`. Over the rationals this is exactly lower
at b = -1, the midpoint (lower+upper)/2 at b = 0 and upper at b = 1. -/
theorem sigmoid_beta_normalized (H : Headers) (P : Pipeline) (p : PixelType) (w : World)
    (a b minimum maximum : String)
    (h0 : w.info.guiProperties 0 .VVP_GUI_VALUE = some a)
    (h1 : w.info.guiProperties 1 .VVP_GUI_VALUE = some b)
    (h2 : w.info.guiProperties 2 .VVP_GUI_VALUE = some minimum)
    (h3 : w.info.guiProperties 3 .VVP_GUI_VALUE = some maximum) :
    ((vvITKSigmoid.SigmoidRunner.Execute H P p).run w).world.log = w.log ++
      [Event.Execute .Sigmoid p,
       Event.module "SetPluginInfo" Arg.none,
       Event.module "SetUpdateMessage"
         (Arg.str "Transforming intensities with a Sigmoid function..."),
       Event.filter "SetAlpha" (Arg.real (vvITKSigmoid.SigmoidRunner.alpha (H.atof a)
         (w.info.InputVolumeScalarRange 0) (w.info.InputVolumeScalarRange 1))),
       Event.filter "SetBeta" (Arg.real
         ((1 + H.atof b) / 2 * w.info.InputVolumeScalarRange 1
           + (1 - H.atof b) / 2 * w.info.InputVolumeScalarRange 0)),
       Event.filter "SetOutputMinimum" (Arg.pixel (static_cast H p (H.atof minimum))),
       Event.filter "SetOutputMaximum" (Arg.pixel (static_cast H p (H.atof maximum))),
       Event.module "ProcessData" Arg.none] ∧
    (∀ lower upper : ℚ,
      vvITKSigmoid.SigmoidRunner.beta (-1) lower upper = lower ∧
      vvITKSigmoid.SigmoidRunner.beta 0 lower upper = (lower + upper) / 2 ∧
      vvITKSigmoid.SigmoidRunner.beta 1 lower upper = upper) := by
  constructor
  · simp only [Run.run, vvITKSigmoid.SigmoidRunner.Execute, vvITKSigmoid.SigmoidRunner.beta,
      Run.bind_apply, Run.pure_apply, atofGUIValue, vtkVVPluginInfo.GetGUIProperty, h0, h1, h2,
      h3, Run.emit, Run.getInfo]
    split <;> rename_i heq <;>
    · have hlog := congrArg (fun o => o.world.log) heq
      simp only [moduleProcessData_log] at hlog
      simp [← hlog]
  · intro lower upper
    refine ⟨?_, ?_, ?_⟩ <;> simp only [vvITKSigmoid.SigmoidRunner.beta] <;> ring

/-! ## AntiAlias and a scalar type outside the ten tags -/

/-- C18. AntiAlias `ProcessData` on a single-component input whose
`InputVolumeScalarType` is none of the ten tags returns -1 and leaves the state it
found but for `VVP_ERROR`, set to "Pixel Type Unknown for the AntiAlias filter",
and that one call in the log: no runner is invoked. -/
theorem antiAlias_processData_unknown_scalar_type (H : Headers) (P : Pipeline) (w : World)
    (hcomponents : w.info.InputVolumeNumberOfComponents = 1)
    (htag : ∀ p, w.info.InputVolumeScalarType ≠ H.tag p) :
    (vvITKAntiAlias.ProcessData H P).run w
      = ⟨.ok (-1), w.withError "Pixel Type Unknown for the AntiAlias filter"⟩ ∧
    runnerCalls ((vvITKAntiAlias.ProcessData H P).run w).world.log = runnerCalls w.log := by
  have hs := scalarTypeSwitch_none H _ htag
  have hrun : (vvITKAntiAlias.ProcessData H P).run w
      = ⟨.ok (-1), w.withError "Pixel Type Unknown for the AntiAlias filter"⟩ := by
    simp [Run.run, vvITKAntiAlias.ProcessData, Run.getInfo, Run.tryCatch, Run.SetProperty,
      World.withError, hs, hcomponents]
  refine ⟨hrun, ?_⟩
  rw [hrun]
  simp [World.withError, runnerCalls, Event.isExecute]

/-! ## Order of the calls in the runners -/

theorem Run.configures_pure {α : Type} (a : α) : (pure a : Run α).Configures :=
  ⟨fun w => ⟨[], by simp, rfl⟩⟩

theorem Run.configures_getInfo : Run.getInfo.Configures :=
  ⟨fun w => ⟨[], by simp [Run.getInfo], rfl⟩⟩

theorem Run.configures_emit (e : Event) (he : e.isPipelineRun = false) :
    (Run.emit e).Configures :=
  ⟨fun w => ⟨[e], rfl, by simp [pipelineRuns, he]⟩⟩

theorem configures_atoiGUIValue (H : Headers) (item : Nat) : (atoiGUIValue H item).Configures := by
  refine ⟨fun w => ⟨[], ?_, rfl⟩⟩
  simp only [atoiGUIValue]
  split <;> simp

theorem configures_atofGUIValue (H : Headers) (item : Nat) : (atofGUIValue H item).Configures := by
  refine ⟨fun w => ⟨[], ?_, rfl⟩⟩
  simp only [atofGUIValue]
  split <;> simp

theorem configures_Convert3DMarkerToIndex (i : Nat) : (Convert3DMarkerToIndex i).Configures := by
  refine ⟨fun w => ⟨[], ?_, rfl⟩⟩
  simp only [Convert3DMarkerToIndex]
  split <;> simp

theorem Run.configures_bind {α β : Type} {x : Run α} {f : α → Run β} (hx : x.Configures)
    (hf : ∀ a, (f a).Configures) : (x >>= f).Configures := by
  refine ⟨fun w => ?_⟩
  obtain ⟨pre, hpre, hnone⟩ := hx.logs w
  simp only [Run.bind_apply]
  split
  · rename_i a w1 heq
    obtain ⟨pre2, hpre2, hnone2⟩ := (hf a).logs w1
    rw [heq] at hpre
    simp only at hpre
    refine ⟨pre ++ pre2, ?_, ?_⟩
    · rw [hpre2, hpre, List.append_assoc]
    · simp only [pipelineRuns, List.filter_append] at hnone hnone2 ⊢
      rw [hnone, hnone2]; rfl
  · rename_i e w1 heq
    rw [heq] at hpre
    exact ⟨pre, hpre, hnone⟩

theorem configures_seedLoop (AddSeed : Arg → Event)
    (hadd : ∀ a, (AddSeed a).isPipelineRun = false) (l : List Nat) :
    (seedLoop AddSeed l).Configures := by
  induction l with
  | nil => exact Run.configures_pure ()
  | cons i rest ih =>
    exact Run.configures_bind (configures_Convert3DMarkerToIndex i)
      (fun seed => Run.configures_bind (Run.configures_emit _ (hadd _)) (fun _ => ih))

theorem Run.quiet_pure {α : Type} (a : α) : (pure a : Run α).Quiet :=
  ⟨fun w => ⟨[], by simp, by simp⟩⟩

theorem Run.quiet_SetProperty (key : Property) (value : String) :
    (Run.SetProperty key value).Quiet :=
  ⟨fun w => ⟨[Event.SetProperty key value], rfl, by simp [Event.onModule]⟩⟩

theorem Run.ordered_bind {α β : Type} {x : Run α} {f : α → Run β} (hx : x.Configures)
    (hf : ∀ a, (f a).Ordered) : (x >>= f).Ordered := by
  refine ⟨fun w => ?_⟩
  obtain ⟨pre, hpre, hnone⟩ := hx.logs w
  simp only [Run.bind_apply]
  split
  · rename_i a w1 heq
    obtain ⟨pre2, post, hlog, hnone2, hpost, hok⟩ := (hf a).logs w1
    rw [heq] at hpre
    simp only at hpre
    refine ⟨pre ++ pre2, post, ?_, ?_, hpost, hok⟩
    · rw [hlog, hpre]; simp only [List.append_assoc]
    · simp only [pipelineRuns, List.filter_append] at hnone hnone2 ⊢
      rw [hnone, hnone2]; rfl
  · rename_i e w1 heq
    rw [heq] at hpre
    refine ⟨pre, [], by simpa using hpre, hnone, Or.inl rfl, ?_⟩
    rintro ⟨a, ha⟩
    cases ha

theorem ordered_moduleProcessData_bind {β : Type} (P : Pipeline) (plugin : Plugin)
    (p : PixelType) {f : ModuleResult → Run β} (hf : ∀ r, (f r).Quiet) :
    (moduleProcessData P plugin p >>= f).Ordered := by
  refine ⟨fun w => ?_⟩
  have hm := moduleProcessData_log P plugin p w
  simp only [Run.bind_apply]
  split
  · rename_i r w1 heq
    obtain ⟨rest, hrest, hquiet⟩ := (hf r).logs w1
    rw [heq] at hm
    simp only at hm
    refine ⟨[], _ :: rest, ?_, rfl, Or.inr ⟨rest, rfl, hquiet⟩, fun _ => by simp⟩
    rw [hrest, hm]; simp
  · rename_i e w1 heq
    rw [heq] at hm
    simp only at hm
    refine ⟨[], [_], ?_, rfl, Or.inr ⟨[], rfl, by simp⟩, fun _ => by simp⟩
    rw [hm]; simp

/-- Every runner configures first and runs the pipeline once, last of its calls
on the module. -/
theorem execute_ordered (H : Headers) (P : Pipeline) (plugin : Plugin) (p : PixelType) :
    (plugin.Execute H P p).Ordered := by
  cases plugin <;>
  · simp only [Plugin.Execute, vvITKAntiAlias.AntiAliasRunner.Execute,
      vvITKConfidenceConnected.ConfidenceConnectedRunner.Execute,
      vvITKGeodesicActiveContour.GeodesicActiveContoureRunner.Execute,
      vvITKGeodesicActiveContourModule.GeodesicActiveContourModuleRunner.Execute,
      vvITKGradientAnisotropicDiffusion.GradientAnisotropicDiffusionRunner.Execute,
      vvITKGradientMagnitude.GradientMagnitudeRunner.Execute,
      vvITKIntensityWindowing.IntensityWindowingRunner.Execute,
      vvITKSigmoid.SigmoidRunner.Execute]
    with_reducible repeat' first
      | exact Run.quiet_pure _
      | exact Run.quiet_SetProperty _ _
      | exact Run.configures_getInfo
      | exact configures_atoiGUIValue _ _
      | exact configures_atofGUIValue _ _
      | apply configures_seedLoop
      | apply Run.configures_emit
      | apply ordered_moduleProcessData_bind
      | apply Run.ordered_bind
      | intro _
    all_goals rfl

/-- C20. In the runner `Execute` of each of the eight plugins, whatever the state
it starts in and however it ends, the calls it logs split in two: first the
calls made before the pipeline runs, none of them `module.ProcessData`; then
either nothing (the runner was aborted before it reached the pipeline) or the one
call `module.ProcessData( pds )` followed only by events that are not calls on
the module or its filter, so neither a parameter setter nor a seed addition. A
runner that returns has made that one call. -/
theorem execute_configures_before_running (H : Headers) (P : Pipeline) (plugin : Plugin)
    (p : PixelType) (w : World) :
    ∃ pre post, ((plugin.Execute H P p).run w).world.log = w.log ++ pre ++ post ∧
      pipelineRuns pre = [] ∧
      (post = [] ∨ ∃ rest, post = Event.module "ProcessData" Arg.none :: rest ∧
        ∀ e ∈ rest, e.onModule = false) ∧
      ((∃ a, ((plugin.Execute H P p).run w).result = .ok a) → post ≠ []) :=
  (execute_ordered H P plugin p).logs w

/-! ## The report of the level-set runners -/

/-- How the last two statements of the two level-set runners end: the pipeline
runs in the state `w1`; when it completes the report is set from its counters,
when it raises an exception the state is the one the pipeline left. -/
theorem report_after_pipeline (H : Headers) (P : Pipeline) (plugin : Plugin) (p : PixelType)
    (info : vtkVVPluginInfo) (pds : vtkVVProcessDataStruct) (log : List Event) :
    (moduleProcessData P plugin p >>= fun result =>
        Run.SetProperty .VVP_REPORT_TEXT
          (reportText H result.ElapsedIterations result.RMSChange)) ⟨info, pds, log⟩
      = match (P plugin p ⟨info, pds, log ++ [Event.module "ProcessData" Arg.none]⟩).thrown with
        | none => ⟨.ok (),
            ⟨(P plugin p ⟨info, pds, log ++ [Event.module "ProcessData" Arg.none]⟩).info.SetProperty
                .VVP_REPORT_TEXT (reportText H
                  (P plugin p ⟨info, pds, log ++ [Event.module "ProcessData" Arg.none]⟩).ElapsedIterations
                  (P plugin p ⟨info, pds, log ++ [Event.module "ProcessData" Arg.none]⟩).RMSChange),
              (P plugin p ⟨info, pds, log ++ [Event.module "ProcessData" Arg.none]⟩).pds,
              log ++ [Event.module "ProcessData" Arg.none] ++
                [Event.SetProperty .VVP_REPORT_TEXT (reportText H
                  (P plugin p ⟨info, pds, log ++ [Event.module "ProcessData" Arg.none]⟩).ElapsedIterations
                  (P plugin p ⟨info, pds, log ++ [Event.module "ProcessData" Arg.none]⟩).RMSChange)]⟩⟩
        | some e => ⟨.error e,
            ⟨(P plugin p ⟨info, pds, log ++ [Event.module "ProcessData" Arg.none]⟩).info,
              (P plugin p ⟨info, pds, log ++ [Event.module "ProcessData" Arg.none]⟩).pds,
              log ++ [Event.module "ProcessData" Arg.none]⟩⟩ := by
  simp only [Run.bind_apply, moduleProcessData]
  cases (P plugin p ⟨info, pds, log ++ [Event.module "ProcessData" Arg.none]⟩).thrown <;> rfl

/-- The calls of the two level-set runners before `module.ProcessData( pds )`, in
a state where they all return. -/
theorem execute_up_to_pipeline (H : Headers) (P : Pipeline) (plugin : Plugin) (p : PixelType)
    (w : World)
    (hplugin : plugin = .GeodesicActiveContour ∨ plugin = .GeodesicActiveContourModule)
    (hvalues : plugin.readsParameters = true → plugin.valuesPresent w.info)
    (hin : plugin.requiresSeeds = true →
      ∀ i ∈ List.range (toUnsignedInt w.info.NumberOfMarkers).toNat,
        insideVolume w.info (markerIndex w.info i)) :
    ∃ calls, reports calls = [] ∧
      (plugin.Execute H P p).run w
        = (moduleProcessData P plugin p >>= fun result =>
            Run.SetProperty .VVP_REPORT_TEXT
              (reportText H result.ElapsedIterations result.RMSChange))
          ⟨w.info, w.pds, w.log ++ calls⟩ := by
  rcases hplugin with h | h <;> subst h
  · refine ⟨[Event.Execute .GeodesicActiveContour p, Event.module "SetPluginInfo" Arg.none,
      Event.module "SetUpdateMessage" (Arg.str "Computing Geodesic Active Contour...")], rfl, ?_⟩
    simp [Plugin.Execute, Run.run, vvITKGeodesicActiveContour.GeodesicActiveContoureRunner.Execute,
      Run.emit]
  · have hvalues := hvalues rfl
    obtain ⟨s0, h0⟩ := Option.ne_none_iff_exists'.mp (hvalues 0 (by decide))
    obtain ⟨s1, h1⟩ := Option.ne_none_iff_exists'.mp (hvalues 1 (by decide))
    obtain ⟨s2, h2⟩ := Option.ne_none_iff_exists'.mp (hvalues 2 (by decide))
    obtain ⟨s3, h3⟩ := Option.ne_none_iff_exists'.mp (hvalues 3 (by decide))
    obtain ⟨s4, h4⟩ := Option.ne_none_iff_exists'.mp (hvalues 4 (by decide))
    obtain ⟨s5, h5⟩ := Option.ne_none_iff_exists'.mp (hvalues 5 (by decide))
    obtain ⟨s6, h6⟩ := Option.ne_none_iff_exists'.mp (hvalues 6 (by decide))
    obtain ⟨s7, h7⟩ := Option.ne_none_iff_exists'.mp (hvalues 7 (by decide))
    obtain ⟨s8, h8⟩ := Option.ne_none_iff_exists'.mp (hvalues 8 (by decide))
    refine ⟨[Event.Execute .GeodesicActiveContourModule p,
      Event.module "SetPluginInfo" Arg.none,
      Event.module "SetUpdateMessage" (Arg.str "Computing Geodesic Active Contour Module..."),
      Event.module "SetDistanceFromSeeds" (Arg.real (toFloat (H.atof s0))),
      Event.module "SetSigma" (Arg.real (toFloat (H.atof s1))),
      Event.module "SetLowestBasinValue" (Arg.real (toFloat (H.atof s2))),
      Event.module "SetLowestBorderValue" (Arg.real (toFloat (H.atof s3))),
      Event.module "SetCurvatureScaling" (Arg.real (toFloat (H.atof s4))),
      Event.module "SetPropagationScaling" (Arg.real (toFloat (H.atof s5))),
      Event.module "SetAdvectionScaling" (Arg.real (toFloat (H.atof s6))),
      Event.module "SetMaximumRMSError" (Arg.real (toFloat (H.atof s7))),
      Event.module "SetNumberOfIterations" (Arg.int (toUnsignedInt (H.atoi s8)))] ++
      (List.range (toUnsignedInt w.info.NumberOfMarkers).toNat).map
        (fun i => Event.module "AddSeed" (seedOfMarker w.info i)), ?_, ?_⟩
    · simp [reports, List.filter_map, Event.isReport, List.filter_eq_nil_iff]
    · simp [Plugin.Execute, Run.run,
        vvITKGeodesicActiveContourModule.GeodesicActiveContourModuleRunner.Execute,
        atoiGUIValue, atofGUIValue, vtkVVPluginInfo.GetGUIProperty, h0, h1, h2, h3, h4, h5, h6,
        h7, h8, Run.emit, Run.getInfo, seedLoop_inside _ _ _ _ _ (hin rfl)]

/-- C19. For GeodesicActiveContour and GeodesicActiveContourModule, in a state
where the runner reaches `module.ProcessData( pds )` (GUI values present and
every marker inside the volume for the Module plugin), let `w1` be the state in
which the pipeline runs: the info and buffers the runner was given, and a log
that ends with that call and holds no call setting `VVP_REPORT_TEXT`. When the
pipeline completes without an exception the runner returns with
`VVP_REPORT_TEXT` set to the text
"Total number of iterations = <n> \n Final RMS error = <e>", <n> the decimal
digits of the elapsed iterations and <e> the `%g` rendering of the RMS change of
the filter, by one `SetProperty` call, the last of the log. When the pipeline raises an exception the runner is left with
it, the info is the one the pipeline left and nothing was logged after the
call, so `VVP_REPORT_TEXT` was not set. -/
theorem runner_reports_iterations (H : Headers) (P : Pipeline) (plugin : Plugin)
    (p : PixelType) (w : World)
    (hplugin : plugin = .GeodesicActiveContour ∨ plugin = .GeodesicActiveContourModule)
    (hvalues : plugin.readsParameters = true → plugin.valuesPresent w.info)
    (hin : plugin.requiresSeeds = true →
      ∀ i ∈ List.range (toUnsignedInt w.info.NumberOfMarkers).toNat,
        insideVolume w.info (markerIndex w.info i)) :
    ∃ w1 : World, w1.info = w.info ∧ w1.pds = w.pds ∧
      (∃ calls, w1.log = w.log ++ calls ++ [Event.module "ProcessData" Arg.none] ∧
        reports calls = []) ∧
      ((P plugin p w1).thrown = none →
        ((plugin.Execute H P p).run w).result = .ok () ∧
        ((plugin.Execute H P p).run w).world.info.properties .VVP_REPORT_TEXT
          = some ("Total number of iterations = " ++ toString (P plugin p w1).ElapsedIterations
              ++ " \n Final RMS error = " ++ H.sprintf_g (P plugin p w1).RMSChange) ∧
        ((plugin.Execute H P p).run w).world.log
          = w1.log ++ [Event.SetProperty .VVP_REPORT_TEXT
              ("Total number of iterations = " ++ toString (P plugin p w1).ElapsedIterations
                ++ " \n Final RMS error = " ++ H.sprintf_g (P plugin p w1).RMSChange)]) ∧
      (∀ e, (P plugin p w1).thrown = some e →
        ((plugin.Execute H P p).run w).result = .error e ∧
        ((plugin.Execute H P p).run w).world.info = (P plugin p w1).info ∧
        ((plugin.Execute H P p).run w).world.log = w1.log) := by
  obtain ⟨calls, hcalls, hrun⟩ := execute_up_to_pipeline H P plugin p w hplugin hvalues hin
  refine ⟨⟨w.info, w.pds, w.log ++ calls ++ [Event.module "ProcessData" Arg.none]⟩, rfl, rfl,
    ⟨calls, rfl, hcalls⟩, fun hnone => ?_, fun e hsome => ?_⟩
  · rw [hrun, report_after_pipeline, hnone]
    exact ⟨rfl, by simp [reportText, sprintf_d], rfl⟩
  · rw [hrun, report_after_pipeline, hsome]
    exact ⟨rfl, rfl, rfl⟩

/-- C14, the code at the failing input. AntiAlias on the reference volume with
the default values "5" and "0.05" and a pipeline that completes after one
iteration: `ProcessData` returns 0, the runner made the eight calls below, none
of them `SetProperty`, and `VVP_REPORT_TEXT` is unset. GeodesicActiveContour on
the same volume and pipeline leaves the report. -/
theorem antiAlias_reports_nothing :
    ((Plugin.ProcessData Reference.headers Reference.pipeline .AntiAlias).run
      (Reference.world ["5", "0.05"])).result = .ok 0 ∧
    ((Plugin.ProcessData Reference.headers Reference.pipeline .AntiAlias).run
      (Reference.world ["5", "0.05"])).world.log
      = [Event.Execute .AntiAlias .unsignedChar,
         Event.module "SetPluginInfo" Arg.none,
         Event.module "SetUpdateMessage" (Arg.str "Reducing aliasing effects..."),
         Event.filter "SetNumberOfIterations" (Arg.int 5),
         Event.filter "SetMaximumRMSError" (Arg.real (toFloat (1 / 20))),
         Event.module "SetOutputMinimum" (Arg.int 0),
         Event.module "SetOutputMaximum" (Arg.int 255),
         Event.module "ProcessData" Arg.none] ∧
    ((Plugin.ProcessData Reference.headers Reference.pipeline .AntiAlias).run
      (Reference.world ["5", "0.05"])).world.info.properties .VVP_REPORT_TEXT = none ∧
    ((Plugin.ProcessData Reference.headers Reference.pipeline .GeodesicActiveContour).run
      (Reference.world [])).world.info.properties .VVP_REPORT_TEXT
      = some "Total number of iterations = 1 \n Final RMS error = 0" := by
  refine ⟨?_, ?_, ?_, ?_⟩ <;> with_unfolding_all rfl

/-! ## Per-voxel memory of the three intensity filters -/

/-- C22. For GradientMagnitude, IntensityWindowing and Sigmoid and every plugin
info whose `InputVolumeScalarSize` doubled fits an `int` (a magnitude below 2^30,
as every size in bytes is), `UpdateGUI` leaves `VVP_PER_VOXEL_MEMORY_REQUIRED` set
to "0" when `InputVolumeNumberOfComponents <= 1` and to the decimal rendering of
2 * `InputVolumeScalarSize` when `InputVolumeNumberOfComponents > 1`. -/
theorem updateGUI_per_voxel_memory (H : Headers) (info : vtkVVPluginInfo)
    (hsize : -(2 ^ 30) ≤ info.InputVolumeScalarSize ∧ info.InputVolumeScalarSize < 2 ^ 30) :
    (Plugin.UpdateGUI H .GradientMagnitude info).2.properties .VVP_PER_VOXEL_MEMORY_REQUIRED
      = some (if info.InputVolumeNumberOfComponents > 1
          then sprintf_d (2 * info.InputVolumeScalarSize) else "0") ∧
    (Plugin.UpdateGUI H .IntensityWindowing info).2.properties .VVP_PER_VOXEL_MEMORY_REQUIRED
      = some (if info.InputVolumeNumberOfComponents > 1
          then sprintf_d (2 * info.InputVolumeScalarSize) else "0") ∧
    (Plugin.UpdateGUI H .Sigmoid info).2.properties .VVP_PER_VOXEL_MEMORY_REQUIRED
      = some (if info.InputVolumeNumberOfComponents > 1
          then sprintf_d (2 * info.InputVolumeScalarSize) else "0") := by
  have hfit : toSignedInt (2 * info.InputVolumeScalarSize) = 2 * info.InputVolumeScalarSize :=
    toSignedInt_of_fits _ (by omega) (by omega)
  refine ⟨?_, ?_, ?_⟩
  · by_cases h : 1 < info.InputVolumeNumberOfComponents <;>
      simp [Plugin.UpdateGUI, vvITKGradientMagnitude.UpdateGUI, h, hfit]
  · by_cases h : 1 < info.InputVolumeNumberOfComponents <;>
      simp [Plugin.UpdateGUI, vvITKIntensityWindowing.UpdateGUI, h, hfit]
  · by_cases h : 1 < info.InputVolumeNumberOfComponents <;>
      simp [Plugin.UpdateGUI, vvITKSigmoid.UpdateGUI, h, hfit]

/-! ## Alpha and beta of Sigmoid over a range -/

/-- C25. Over the rationals, for every input range lower <= upper: the beta
computed by `SigmoidRunner::Execute` lies in [lower, upper] for every normalized
beta in [-1, 1] and is non-decreasing in the normalized beta. For every range
the alpha computed equals a * (upper - lower), which is 0 exactly when the
normalized alpha a is 0 or upper = lower. -/
theorem sigmoid_alpha_beta_range (lower upper : ℚ) (hrange : lower ≤ upper) :
    (∀ b : ℚ, -1 ≤ b → b ≤ 1 →
      lower ≤ vvITKSigmoid.SigmoidRunner.beta b lower upper ∧
      vvITKSigmoid.SigmoidRunner.beta b lower upper ≤ upper) ∧
    (∀ b1 b2 : ℚ, b1 ≤ b2 →
      vvITKSigmoid.SigmoidRunner.beta b1 lower upper
        ≤ vvITKSigmoid.SigmoidRunner.beta b2 lower upper) ∧
    (∀ a : ℚ, vvITKSigmoid.SigmoidRunner.alpha a lower upper = a * (upper - lower)) ∧
    (∀ a : ℚ, vvITKSigmoid.SigmoidRunner.alpha a lower upper = 0 ↔ a = 0 ∨ upper = lower) := by
  refine ⟨fun b h1 h2 => ⟨?_, ?_⟩, fun b1 b2 h => ?_, fun a => ?_, fun a => ?_⟩
  · simp only [vvITKSigmoid.SigmoidRunner.beta]
    nlinarith [mul_nonneg (by linarith : (0 : ℚ) ≤ 1 + b) (by linarith : (0 : ℚ) ≤ upper - lower)]
  · simp only [vvITKSigmoid.SigmoidRunner.beta]
    nlinarith [mul_nonneg (by linarith : (0 : ℚ) ≤ 1 - b) (by linarith : (0 : ℚ) ≤ upper - lower)]
  · simp only [vvITKSigmoid.SigmoidRunner.beta]
    nlinarith [mul_nonneg (by linarith : (0 : ℚ) ≤ b2 - b1) (by linarith : (0 : ℚ) ≤ upper - lower)]
  · simp only [vvITKSigmoid.SigmoidRunner.alpha]; ring
  · have h : vvITKSigmoid.SigmoidRunner.alpha a lower upper = a * (upper - lower) := by
      simp only [vvITKSigmoid.SigmoidRunner.alpha]; ring
    rw [h, mul_eq_zero, sub_eq_zero]

/-! ## What `UpdateGUI` leaves alone -/

/-- C29. For each of the eight plugins and every plugin info, `UpdateGUI` leaves
`InputVolumeScalarType`, `InputVolumeNumberOfComponents`, `InputVolumeScalarSize`,
`InputVolumeDimensions`, `InputVolumeSpacing`, `InputVolumeOrigin` and
`NumberOfMarkers` as they were before the call. -/
theorem updateGUI_keeps_input (H : Headers) (plugin : Plugin) (info : vtkVVPluginInfo) :
    (plugin.UpdateGUI H info).2.InputVolumeScalarType = info.InputVolumeScalarType ∧
    (plugin.UpdateGUI H info).2.InputVolumeNumberOfComponents
      = info.InputVolumeNumberOfComponents ∧
    (plugin.UpdateGUI H info).2.InputVolumeScalarSize = info.InputVolumeScalarSize ∧
    (plugin.UpdateGUI H info).2.InputVolumeDimensions = info.InputVolumeDimensions ∧
    (plugin.UpdateGUI H info).2.InputVolumeSpacing = info.InputVolumeSpacing ∧
    (plugin.UpdateGUI H info).2.InputVolumeOrigin = info.InputVolumeOrigin ∧
    (plugin.UpdateGUI H info).2.NumberOfMarkers = info.NumberOfMarkers := by
  cases plugin
  case AntiAlias =>
    simp only [Plugin.UpdateGUI, vvITKAntiAlias.UpdateGUI]
    split <;> simp
  case GradientAnisotropicDiffusion =>
    simp only [Plugin.UpdateGUI, vvITKGradientAnisotropicDiffusion.UpdateGUI]
    split <;> simp
  case ConfidenceConnected =>
    simp only [Plugin.UpdateGUI, vvITKConfidenceConnected.UpdateGUI]
    split
    · split <;> simp
    · simp
  case GeodesicActiveContour =>
    simp [Plugin.UpdateGUI, vvITKGeodesicActiveContour.UpdateGUI]
  case GeodesicActiveContourModule =>
    simp [Plugin.UpdateGUI, vvITKGeodesicActiveContourModule.UpdateGUI]
  case GradientMagnitude =>
    simp only [Plugin.UpdateGUI, vvITKGradientMagnitude.UpdateGUI]
    split <;> simp
  case IntensityWindowing =>
    simp only [Plugin.UpdateGUI, vvITKIntensityWindowing.UpdateGUI]
    split <;> simp
  case Sigmoid =>
    simp only [Plugin.UpdateGUI, vvITKSigmoid.UpdateGUI]
    split <;> simp

/-! ## `UpdateGUI` applied twice -/

/-- C28. For each of the eight plugins and every plugin info, applying `UpdateGUI`
to the info a first `UpdateGUI` left gives the same output scalar type, component
count, dimensions, spacing and origin and the same `VVP_REQUIRED_Z_OVERLAP` and
`VVP_PER_VOXEL_MEMORY_REQUIRED` as the first call did. -/
theorem updateGUI_idempotent (H : Headers) (plugin : Plugin) (info : vtkVVPluginInfo) :
    (plugin.UpdateGUI H (plugin.UpdateGUI H info).2).2.OutputVolumeScalarType
      = (plugin.UpdateGUI H info).2.OutputVolumeScalarType ∧
    (plugin.UpdateGUI H (plugin.UpdateGUI H info).2).2.OutputVolumeNumberOfComponents
      = (plugin.UpdateGUI H info).2.OutputVolumeNumberOfComponents ∧
    (plugin.UpdateGUI H (plugin.UpdateGUI H info).2).2.OutputVolumeDimensions
      = (plugin.UpdateGUI H info).2.OutputVolumeDimensions ∧
    (plugin.UpdateGUI H (plugin.UpdateGUI H info).2).2.OutputVolumeSpacing
      = (plugin.UpdateGUI H info).2.OutputVolumeSpacing ∧
    (plugin.UpdateGUI H (plugin.UpdateGUI H info).2).2.OutputVolumeOrigin
      = (plugin.UpdateGUI H info).2.OutputVolumeOrigin ∧
    (plugin.UpdateGUI H (plugin.UpdateGUI H info).2).2.properties .VVP_REQUIRED_Z_OVERLAP
      = (plugin.UpdateGUI H info).2.properties .VVP_REQUIRED_Z_OVERLAP ∧
    (plugin.UpdateGUI H (plugin.UpdateGUI H info).2).2.properties
        .VVP_PER_VOXEL_MEMORY_REQUIRED
      = (plugin.UpdateGUI H info).2.properties .VVP_PER_VOXEL_MEMORY_REQUIRED := by
  have hget : ∀ (j : vtkVVPluginInfo) (i : Nat), j.GetGUIProperty i .VVP_GUI_VALUE
      = j.guiProperties i .VVP_GUI_VALUE := fun _ _ => rfl
  cases plugin
  case AntiAlias =>
    cases h : info.guiProperties 0 .VVP_GUI_VALUE <;>
      simp [Plugin.UpdateGUI, vvITKAntiAlias.UpdateGUI, hget, h] <;>
      · funext d
        fin_cases d <;> simp [Function.update]
  case GradientAnisotropicDiffusion =>
    cases h : info.guiProperties 0 .VVP_GUI_VALUE <;>
      simp [Plugin.UpdateGUI, vvITKGradientAnisotropicDiffusion.UpdateGUI, hget, h] <;>
      · funext d
        fin_cases d <;> simp [Function.update]
  case ConfidenceConnected =>
    cases h : info.guiProperties 4 .VVP_GUI_VALUE
    · simp [Plugin.UpdateGUI, vvITKConfidenceConnected.UpdateGUI, hget, h]
    · rename_i s
      by_cases h0 : H.atoi s = 0 <;>
        simp [Plugin.UpdateGUI, vvITKConfidenceConnected.UpdateGUI, hget, h, h0]
  case GeodesicActiveContour =>
    simp [Plugin.UpdateGUI, vvITKGeodesicActiveContour.UpdateGUI]
  case GeodesicActiveContourModule =>
    simp [Plugin.UpdateGUI, vvITKGeodesicActiveContourModule.UpdateGUI]
  case GradientMagnitude =>
    by_cases h : 1 < info.InputVolumeNumberOfComponents <;>
      simp [Plugin.UpdateGUI, vvITKGradientMagnitude.UpdateGUI, h]
  case IntensityWindowing =>
    by_cases h : 1 < info.InputVolumeNumberOfComponents <;>
      simp [Plugin.UpdateGUI, vvITKIntensityWindowing.UpdateGUI, h]
  case Sigmoid =>
    by_cases h : 1 < info.InputVolumeNumberOfComponents <;>
      simp [Plugin.UpdateGUI, vvITKSigmoid.UpdateGUI, h]

/-! ## The seeds handed to the pipeline -/

/-- The number of turns of the seed loop is `NumberOfMarkers` when that `int` is
not negative. -/
theorem toUnsignedInt_toNat (n : Int) (h0 : 0 ≤ n) (h1 : n < 2 ^ 31) :
    (toUnsignedInt n).toNat = n.toNat := by
  have : toUnsignedInt n = n := by
    unfold toUnsignedInt
    exact Int.emod_eq_of_lt h0 (by omega)
  rw [this]

/-- C21. For ConfidenceConnected and GeodesicActiveContourModule, in a state where
the runner reaches the pipeline (GUI values present, `NumberOfMarkers` a
non-negative `int`, every marker inside the volume), the calls of this
invocation are: calls that add no seed and do not run the pipeline; then exactly
`NumberOfMarkers` seed additions, the i-th being the index converted from marker
i, for i = 0 .. `NumberOfMarkers` - 1 in increasing order; then calls that add
no seed and among which the pipeline runs once. -/
theorem runner_adds_one_seed_per_marker (H : Headers) (P : Pipeline) (plugin : Plugin)
    (p : PixelType) (w : World) (hplugin : plugin.requiresSeeds = true)
    (hvalues : plugin.valuesPresent w.info)
    (hmarkers : 0 ≤ w.info.NumberOfMarkers ∧ w.info.NumberOfMarkers < 2 ^ 31)
    (hin : ∀ i : Nat, (i : Int) < w.info.NumberOfMarkers →
      insideVolume w.info (markerIndex w.info i)) :
    ∃ before after,
      ((plugin.Execute H P p).run w).world.log
        = w.log ++ before
          ++ (List.range w.info.NumberOfMarkers.toNat).map
              (fun i => plugin.AddSeed (seedOfMarker w.info i))
          ++ after ∧
      seedsAdded before = [] ∧ pipelineRuns before = [] ∧
      seedsAdded after = [] ∧ pipelineRuns after = [Event.module "ProcessData" Arg.none] ∧
      (((List.range w.info.NumberOfMarkers.toNat).map
          (fun i => plugin.AddSeed (seedOfMarker w.info i))).length : Int)
        = w.info.NumberOfMarkers := by
  have hn := toUnsignedInt_toNat _ hmarkers.1 hmarkers.2
  have hin2 : ∀ i ∈ List.range (toUnsignedInt w.info.NumberOfMarkers).toNat,
      insideVolume w.info (markerIndex w.info i) := fun i hi =>
    hin i (by rw [hn] at hi; have := List.mem_range.mp hi; omega)
  have hlen : (((List.range w.info.NumberOfMarkers.toNat).map
      (fun i => plugin.AddSeed (seedOfMarker w.info i))).length : Int)
      = w.info.NumberOfMarkers := by
    simp [Int.toNat_of_nonneg hmarkers.1]
  cases plugin <;> simp [Plugin.requiresSeeds] at hplugin
  case ConfidenceConnected =>
    obtain ⟨s0, h0⟩ := Option.ne_none_iff_exists'.mp (hvalues 0 (by decide))
    obtain ⟨s1, h1⟩ := Option.ne_none_iff_exists'.mp (hvalues 1 (by decide))
    obtain ⟨s2, h2⟩ := Option.ne_none_iff_exists'.mp (hvalues 2 (by decide))
    obtain ⟨s3, h3⟩ := Option.ne_none_iff_exists'.mp (hvalues 3 (by decide))
    obtain ⟨s4, h4⟩ := Option.ne_none_iff_exists'.mp (hvalues 4 (by decide))
    refine ⟨[Event.Execute .ConfidenceConnected p,
      Event.module "SetPluginInfo" Arg.none,
      Event.module "SetUpdateMessage" (Arg.str "Confidence Connected Region Growing..."),
      Event.filter "SetNumberOfIterations" (Arg.int (toUnsignedInt (H.atoi s0))),
      Event.filter "SetMultiplier" (Arg.real (toFloat (H.atof s1))),
      Event.filter "SetReplaceValue" (Arg.int (H.atoi s2)),
      Event.filter "SetInitialNeighborhoodRadius" (Arg.int (toUnsignedInt (H.atoi s3)))],
      [Event.module "SetProduceDoubleOutput" (Arg.bool (decide (H.atoi s4 ≠ 0))),
       Event.module "ProcessData" Arg.none], ?_, by simp [seedsAdded, Event.isAddSeed], by simp [pipelineRuns, Event.isPipelineRun],
        by simp [seedsAdded, Event.isAddSeed], by simp [pipelineRuns, Event.isPipelineRun], hlen⟩
    simp only [Plugin.Execute, Run.run, vvITKConfidenceConnected.ConfidenceConnectedRunner.Execute,
      Run.bind_apply, Run.pure_apply, atoiGUIValue, atofGUIValue, vtkVVPluginInfo.GetGUIProperty,
      h0, h1, h2, h3, h4, Run.emit, Run.getInfo, seedLoop_inside _ _ _ _ _ hin2]
    split <;> rename_i heq <;>
    · have hlog := congrArg (fun o => o.world.log) heq
      simp only [moduleProcessData_log] at hlog
      simp [← hlog, hn, Plugin.AddSeed]
  case GeodesicActiveContourModule =>
    obtain ⟨s0, h0⟩ := Option.ne_none_iff_exists'.mp (hvalues 0 (by decide))
    obtain ⟨s1, h1⟩ := Option.ne_none_iff_exists'.mp (hvalues 1 (by decide))
    obtain ⟨s2, h2⟩ := Option.ne_none_iff_exists'.mp (hvalues 2 (by decide))
    obtain ⟨s3, h3⟩ := Option.ne_none_iff_exists'.mp (hvalues 3 (by decide))
    obtain ⟨s4, h4⟩ := Option.ne_none_iff_exists'.mp (hvalues 4 (by decide))
    obtain ⟨s5, h5⟩ := Option.ne_none_iff_exists'.mp (hvalues 5 (by decide))
    obtain ⟨s6, h6⟩ := Option.ne_none_iff_exists'.mp (hvalues 6 (by decide))
    obtain ⟨s7, h7⟩ := Option.ne_none_iff_exists'.mp (hvalues 7 (by decide))
    obtain ⟨s8, h8⟩ := Option.ne_none_iff_exists'.mp (hvalues 8 (by decide))
    simp only [Plugin.Execute, Run.run,
      vvITKGeodesicActiveContourModule.GeodesicActiveContourModuleRunner.Execute,
      Run.bind_apply, Run.pure_apply, atoiGUIValue, atofGUIValue, vtkVVPluginInfo.GetGUIProperty,
      h0, h1, h2, h3, h4, h5, h6, h7, h8, Run.emit, Run.getInfo, Run.SetProperty,
      seedLoop_inside _ _ _ _ _ hin2]
    split <;> rename_i heq
    · rename_i r w1
      have hlog := congrArg (fun o => o.world.log) heq
      simp only [moduleProcessData_log] at hlog
      refine ⟨[Event.Execute .GeodesicActiveContourModule p,
        Event.module "SetPluginInfo" Arg.none,
        Event.module "SetUpdateMessage" (Arg.str "Computing Geodesic Active Contour Module..."),
        Event.module "SetDistanceFromSeeds" (Arg.real (toFloat (H.atof s0))),
        Event.module "SetSigma" (Arg.real (toFloat (H.atof s1))),
        Event.module "SetLowestBasinValue" (Arg.real (toFloat (H.atof s2))),
        Event.module "SetLowestBorderValue" (Arg.real (toFloat (H.atof s3))),
        Event.module "SetCurvatureScaling" (Arg.real (toFloat (H.atof s4))),
        Event.module "SetPropagationScaling" (Arg.real (toFloat (H.atof s5))),
        Event.module "SetAdvectionScaling" (Arg.real (toFloat (H.atof s6))),
        Event.module "SetMaximumRMSError" (Arg.real (toFloat (H.atof s7))),
        Event.module "SetNumberOfIterations" (Arg.int (toUnsignedInt (H.atoi s8)))],
        [Event.module "ProcessData" Arg.none,
         Event.SetProperty .VVP_REPORT_TEXT (reportText H r.ElapsedIterations r.RMSChange)],
        ?_, by simp [seedsAdded, Event.isAddSeed], by simp [pipelineRuns, Event.isPipelineRun],
        by simp [seedsAdded, Event.isAddSeed], by simp [pipelineRuns, Event.isPipelineRun], hlen⟩
      simp [← hlog, hn, Plugin.AddSeed]
    · have hlog := congrArg (fun o => o.world.log) heq
      simp only [moduleProcessData_log] at hlog
      refine ⟨[Event.Execute .GeodesicActiveContourModule p,
        Event.module "SetPluginInfo" Arg.none,
        Event.module "SetUpdateMessage" (Arg.str "Computing Geodesic Active Contour Module..."),
        Event.module "SetDistanceFromSeeds" (Arg.real (toFloat (H.atof s0))),
        Event.module "SetSigma" (Arg.real (toFloat (H.atof s1))),
        Event.module "SetLowestBasinValue" (Arg.real (toFloat (H.atof s2))),
        Event.module "SetLowestBorderValue" (Arg.real (toFloat (H.atof s3))),
        Event.module "SetCurvatureScaling" (Arg.real (toFloat (H.atof s4))),
        Event.module "SetPropagationScaling" (Arg.real (toFloat (H.atof s5))),
        Event.module "SetAdvectionScaling" (Arg.real (toFloat (H.atof s6))),
        Event.module "SetMaximumRMSError" (Arg.real (toFloat (H.atof s7))),
        Event.module "SetNumberOfIterations" (Arg.int (toUnsignedInt (H.atoi s8)))],
        [Event.module "ProcessData" Arg.none],
        ?_, by simp [seedsAdded, Event.isAddSeed], by simp [pipelineRuns, Event.isPipelineRun],
        by simp [seedsAdded, Event.isAddSeed], by simp [pipelineRuns, Event.isPipelineRun], hlen⟩
      simp [← hlog, hn, Plugin.AddSeed]

/-! ## The composite output of ConfidenceConnected -/

/-- The calls of `ConfidenceConnectedRunner::Execute` with the five GUI values
present and every marker inside the volume, whatever the pipeline does. -/
theorem confidenceConnected_execute_log (H : Headers) (P : Pipeline) (p : PixelType) (w : World)
    (s0 s1 s2 s3 s4 : String)
    (h0 : w.info.guiProperties 0 .VVP_GUI_VALUE = some s0)
    (h1 : w.info.guiProperties 1 .VVP_GUI_VALUE = some s1)
    (h2 : w.info.guiProperties 2 .VVP_GUI_VALUE = some s2)
    (h3 : w.info.guiProperties 3 .VVP_GUI_VALUE = some s3)
    (h4 : w.info.guiProperties 4 .VVP_GUI_VALUE = some s4)
    (hin : ∀ i ∈ List.range (toUnsignedInt w.info.NumberOfMarkers).toNat,
      insideVolume w.info (markerIndex w.info i)) :
    ((vvITKConfidenceConnected.ConfidenceConnectedRunner.Execute H P p).run w).world.log
      = w.log ++
        ([Event.Execute .ConfidenceConnected p,
          Event.module "SetPluginInfo" Arg.none,
          Event.module "SetUpdateMessage" (Arg.str "Confidence Connected Region Growing..."),
          Event.filter "SetNumberOfIterations" (Arg.int (toUnsignedInt (H.atoi s0))),
          Event.filter "SetMultiplier" (Arg.real (toFloat (H.atof s1))),
          Event.filter "SetReplaceValue" (Arg.int (H.atoi s2)),
          Event.filter "SetInitialNeighborhoodRadius" (Arg.int (toUnsignedInt (H.atoi s3)))]
          ++ (List.range (toUnsignedInt w.info.NumberOfMarkers).toNat).map
              (fun i => Event.filter "AddSeed" (seedOfMarker w.info i)))
        ++ [Event.module "SetProduceDoubleOutput" (Arg.bool (decide (H.atoi s4 ≠ 0))),
            Event.module "ProcessData" Arg.none] := by
  simp only [Run.run, vvITKConfidenceConnected.ConfidenceConnectedRunner.Execute,
    Run.bind_apply, Run.pure_apply, atoiGUIValue, atofGUIValue, vtkVVPluginInfo.GetGUIProperty,
    h0, h1, h2, h3, h4, Run.emit, Run.getInfo, seedLoop_inside _ _ _ _ _ hin]
  split <;> rename_i heq <;>
  · have hlog := congrArg (fun o => o.world.log) heq
    simp only [moduleProcessData_log] at hlog
    simp [← hlog]

/-- C27. In ConfidenceConnected, for every present value string s of GUI item 4
('Produce composite output'), with the other four values present and every
marker inside the volume: `UpdateGUI` declares 2 output components when `atoi`
of s is non-zero and 1 when it is zero; the runner calls `SetProduceDoubleOutput`
once, last before `module.ProcessData`, with `true` when `atoi` of s is non-zero
and `false` when it is zero. So 2 components are declared if and only if the
runner calls `SetProduceDoubleOutput( true )`. -/
theorem confidenceConnected_composite_agrees (H : Headers) (P : Pipeline) (p : PixelType)
    (w : World) (s : String)
    (hs : w.info.guiProperties 4 .VVP_GUI_VALUE = some s)
    (hvalues : Plugin.valuesPresent .ConfidenceConnected w.info)
    (hin : ∀ i ∈ List.range (toUnsignedInt w.info.NumberOfMarkers).toNat,
      insideVolume w.info (markerIndex w.info i)) :
    (vvITKConfidenceConnected.UpdateGUI H w.info).2.OutputVolumeNumberOfComponents
      = (if H.atoi s ≠ 0 then 2 else 1) ∧
    (∃ calls,
      ((vvITKConfidenceConnected.ConfidenceConnectedRunner.Execute H P p).run w).world.log
        = w.log ++ calls
          ++ [Event.module "SetProduceDoubleOutput" (Arg.bool (decide (H.atoi s ≠ 0))),
              Event.module "ProcessData" Arg.none] ∧
      ∀ b, Event.module "SetProduceDoubleOutput" (Arg.bool b) ∉ calls) ∧
    ((vvITKConfidenceConnected.UpdateGUI H w.info).2.OutputVolumeNumberOfComponents = 2 ↔
      Event.module "SetProduceDoubleOutput" (Arg.bool true) ∈
        ((vvITKConfidenceConnected.ConfidenceConnectedRunner.Execute H P p).run w).world.log.drop
          w.log.length) := by
  have hget : ∀ i : vtkVVPluginInfo, i.GetGUIProperty 4 .VVP_GUI_VALUE
      = i.guiProperties 4 .VVP_GUI_VALUE := fun _ => rfl
  obtain ⟨s0, h0⟩ := Option.ne_none_iff_exists'.mp (hvalues 0 (by decide))
  obtain ⟨s1, h1⟩ := Option.ne_none_iff_exists'.mp (hvalues 1 (by decide))
  obtain ⟨s2, h2⟩ := Option.ne_none_iff_exists'.mp (hvalues 2 (by decide))
  obtain ⟨s3, h3⟩ := Option.ne_none_iff_exists'.mp (hvalues 3 (by decide))
  have hlog := confidenceConnected_execute_log H P p w s0 s1 s2 s3 s h0 h1 h2 h3 hs hin
  have hcomp : (vvITKConfidenceConnected.UpdateGUI H w.info).2.OutputVolumeNumberOfComponents
      = (if H.atoi s ≠ 0 then 2 else 1) := by
    by_cases hz : H.atoi s = 0 <;> simp [vvITKConfidenceConnected.UpdateGUI, hget, hs, hz]
  refine ⟨hcomp, ⟨_, hlog, fun b => ?_⟩, ?_⟩
  · simp
  · rw [hcomp, hlog]
    by_cases hz : H.atoi s = 0 <;> simp [hz]

/-! ## What the runners never log -/

theorem Run.avoids_pure (q : Event → Bool) {α : Type} (a : α) : (pure a : Run α).Avoids q :=
  ⟨fun w => ⟨[], by simp, by simp⟩⟩

theorem Run.avoids_getInfo (q : Event → Bool) : Run.getInfo.Avoids q :=
  ⟨fun w => ⟨[], by simp [Run.getInfo], by simp⟩⟩

theorem Run.avoids_emit (q : Event → Bool) (e : Event) (he : q e = false) :
    (Run.emit e).Avoids q :=
  ⟨fun w => ⟨[e], rfl, by simp [he]⟩⟩

theorem Run.avoids_SetProperty (q : Event → Bool) (key : Property) (value : String)
    (he : q (Event.SetProperty key value) = false) : (Run.SetProperty key value).Avoids q :=
  ⟨fun w => ⟨[Event.SetProperty key value], rfl, by simp [he]⟩⟩

theorem avoids_atoiGUIValue (q : Event → Bool) (H : Headers) (item : Nat) :
    (atoiGUIValue H item).Avoids q := by
  refine ⟨fun w => ⟨[], ?_, by simp⟩⟩
  simp only [atoiGUIValue]
  split <;> simp

theorem avoids_atofGUIValue (q : Event → Bool) (H : Headers) (item : Nat) :
    (atofGUIValue H item).Avoids q := by
  refine ⟨fun w => ⟨[], ?_, by simp⟩⟩
  simp only [atofGUIValue]
  split <;> simp

theorem avoids_Convert3DMarkerToIndex (q : Event → Bool) (i : Nat) :
    (Convert3DMarkerToIndex i).Avoids q := by
  refine ⟨fun w => ⟨[], ?_, by simp⟩⟩
  simp only [Convert3DMarkerToIndex]
  split <;> simp

theorem avoids_moduleProcessData (q : Event → Bool) (P : Pipeline) (plugin : Plugin)
    (p : PixelType) (he : q (Event.module "ProcessData" Arg.none) = false) :
    (moduleProcessData P plugin p).Avoids q :=
  ⟨fun w => ⟨[Event.module "ProcessData" Arg.none], moduleProcessData_log P plugin p w,
    by simp [he]⟩⟩

theorem Run.avoids_bind (q : Event → Bool) {α β : Type} {x : Run α} {f : α → Run β}
    (hx : x.Avoids q) (hf : ∀ a, (f a).Avoids q) : (x >>= f).Avoids q := by
  refine ⟨fun w => ?_⟩
  obtain ⟨first, hfirst, hq⟩ := hx.logs w
  simp only [Run.bind_apply]
  split
  · rename_i a w1 heq
    obtain ⟨second, hsecond, hq2⟩ := (hf a).logs w1
    rw [heq] at hfirst
    simp only at hfirst
    refine ⟨first ++ second, ?_, ?_⟩
    · rw [hsecond, hfirst]; simp only [List.append_assoc]
    · intro e he
      rcases List.mem_append.mp he with h | h
      · exact hq e h
      · exact hq2 e h
  · rename_i e w1 heq
    rw [heq] at hfirst
    exact ⟨first, hfirst, hq⟩

theorem avoids_seedLoop (q : Event → Bool) (AddSeed : Arg → Event)
    (hadd : ∀ a, q (AddSeed a) = false) (l : List Nat) : (seedLoop AddSeed l).Avoids q := by
  induction l with
  | nil => exact Run.avoids_pure q ()
  | cons i rest ih =>
    exact Run.avoids_bind q (avoids_Convert3DMarkerToIndex q i)
      (fun seed => Run.avoids_bind q (Run.avoids_emit q _ (hadd _)) (fun _ => ih))

/-- A runner logs its own invocation, calls on the module and its filter, and
the report text: no event of any other kind. -/
theorem execute_avoids (q : Event → Bool)
    (hq : ∀ e, e.isExecute = true ∨ e.onModule = true ∨ e.isReport = true → q e = false)
    (H : Headers) (P : Pipeline) (plugin : Plugin) (p : PixelType) :
    (plugin.Execute H P p).Avoids q := by
  cases plugin <;>
  · simp only [Plugin.Execute, vvITKAntiAlias.AntiAliasRunner.Execute,
      vvITKConfidenceConnected.ConfidenceConnectedRunner.Execute,
      vvITKGeodesicActiveContour.GeodesicActiveContoureRunner.Execute,
      vvITKGeodesicActiveContourModule.GeodesicActiveContourModuleRunner.Execute,
      vvITKGradientAnisotropicDiffusion.GradientAnisotropicDiffusionRunner.Execute,
      vvITKGradientMagnitude.GradientMagnitudeRunner.Execute,
      vvITKIntensityWindowing.IntensityWindowingRunner.Execute,
      vvITKSigmoid.SigmoidRunner.Execute]
    with_reducible repeat' first
      | exact Run.avoids_pure _ _
      | exact Run.avoids_getInfo _
      | exact avoids_atoiGUIValue _ _ _
      | exact avoids_atofGUIValue _ _ _
      | apply avoids_seedLoop
      | apply avoids_moduleProcessData
      | apply Run.avoids_SetProperty
      | apply Run.avoids_emit
      | apply Run.avoids_bind
      | intro _
    all_goals first
      | exact hq _ (Or.inl rfl)
      | exact hq _ (Or.inr (Or.inl rfl))
      | exact hq _ (Or.inr (Or.inr rfl))

/-! ## The ways `ProcessData` ends -/

/-- What `ProcessData` does in each state: a failed check (of the preconditions,
or the `default` label of AntiAlias) returns -1 with `VVP_ERROR` set at once; a
supported tag leads to the runner and the handling at the boundary; any other tag
falls out of the `switch`. -/
theorem processData_outcome (H : Headers) (P : Pipeline) (plugin : Plugin) (w : World) :
    (∃ message, (plugin.ProcessData H P).run w = ⟨.ok (-1), w.withError message⟩) ∨
    (∃ p, (plugin.ProcessData H P).run w
      = atBoundary plugin.reportsDone ((plugin.Execute H P p).run w)) ∨
    (plugin.ProcessData H P).run w
      = ⟨.ok 0, if plugin.reportsDone = true then
          { w with log := w.log ++
              [Event.UpdateProgress 1 "Geodesic Active Contour LevelSet Done !"] }
          else w⟩ := by
  by_cases hcomp : plugin.singleComponentOnly = true ∧ w.info.InputVolumeNumberOfComponents ≠ 1
  · left
    obtain ⟨hplugin, hcomp⟩ := hcomp
    refine ⟨plugin.singleComponentMessage, ?_⟩
    cases plugin <;> simp [Plugin.singleComponentOnly] at hplugin <;>
      simp [Plugin.ProcessData, vvITKAntiAlias.ProcessData, vvITKConfidenceConnected.ProcessData,
        vvITKGeodesicActiveContour.ProcessData, vvITKGeodesicActiveContourModule.ProcessData,
        Run.run, Run.getInfo, Run.SetProperty, World.withError, Plugin.singleComponentMessage, hcomp]
  have h1 : plugin.singleComponentOnly = true → w.info.InputVolumeNumberOfComponents = 1 :=
    fun h => by by_contra hne; exact hcomp ⟨h, hne⟩
  by_cases hmarkers : plugin.requiresSeeds = true ∧ w.info.NumberOfMarkers < 1
  · left
    obtain ⟨hplugin, hmarkers⟩ := hmarkers
    refine ⟨plugin.markersMessage, ?_⟩
    cases plugin <;> simp [Plugin.requiresSeeds] at hplugin <;>
      simp [Plugin.ProcessData, vvITKConfidenceConnected.ProcessData,
        vvITKGeodesicActiveContourModule.ProcessData, Run.run, Run.getInfo, Run.SetProperty,
        World.withError, Plugin.markersMessage, h1 rfl, hmarkers]
  have hpre : plugin.preconditions w.info :=
    ⟨h1, fun h => by by_contra hlt; exact hmarkers ⟨h, by omega⟩⟩
  by_cases htag : ∃ p, w.info.InputVolumeScalarType = H.tag p
  · obtain ⟨p, htag⟩ := htag
    exact Or.inr (Or.inl ⟨p, processData_of_tag H P plugin p w hpre htag⟩)
  have htag2 : ∀ p, w.info.InputVolumeScalarType ≠ H.tag p := fun p h => htag ⟨p, h⟩
  by_cases hplugin : plugin = .AntiAlias
  · left
    subst hplugin
    refine ⟨"Pixel Type Unknown for the AntiAlias filter", ?_⟩
    simp [Plugin.ProcessData, Run.run, vvITKAntiAlias.ProcessData, Run.getInfo, Run.tryCatch,
      Run.SetProperty, World.withError, scalarTypeSwitch_none H _ htag2, h1 rfl]
  · exact Or.inr (Or.inr (processData_unknown_scalar_type H P plugin w hplugin hpre htag2))

/-- The log and the result of `ProcessData` in every state: but for the events of
the list `events`, none of which sets `VVP_ERROR` or reports progress, the call
ends in one of three ways. It returns -1 right after setting `VVP_ERROR`; or it
returns 0, right after reporting progress 1.0 in the two level-set plugins; or
an exception leaves it. -/
theorem processData_ends (H : Headers) (P : Pipeline) (plugin : Plugin) (w : World) :
    ∃ events, (∀ e ∈ events, e.isError = false ∧ e.isProgress = false) ∧
      ((∃ (w1 : World) (message : String), w1.log = w.log ++ events ∧
          (plugin.ProcessData H P).run w = ⟨.ok (-1), w1.withError message⟩) ∨
        (((plugin.ProcessData H P).run w).result = .ok 0 ∧
          ((plugin.ProcessData H P).run w).world.log = w.log ++ events ++
            (if plugin.reportsDone = true then
              [Event.UpdateProgress 1 "Geodesic Active Contour LevelSet Done !"] else [])) ∨
        (∃ e, ((plugin.ProcessData H P).run w).result = .error e ∧
          ((plugin.ProcessData H P).run w).world.log = w.log ++ events)) := by
  rcases processData_outcome H P plugin w with ⟨message, h⟩ | ⟨p, h⟩ | h
  · exact ⟨[], by simp, Or.inl ⟨w, message, by simp, h⟩⟩
  · have hav := execute_avoids (fun e => e.isError || e.isProgress)
      (fun e he => by
        cases e <;> simp [Event.isExecute, Event.onModule, Event.isReport, Event.isError,
          Event.isProgress] at he ⊢
        rw [he]; decide) H P plugin p
    obtain ⟨events, hlog, hq⟩ := hav.logs w
    refine ⟨events, fun e he => by simpa using hq e he, ?_⟩
    rw [h]
    simp only [Run.run] at hlog ⊢
    rcases hx : (plugin.Execute H P p) w with ⟨r, w1⟩
    rw [hx] at hlog
    simp only at hlog
    rcases r with e | a
    · cases e
      case itkExceptionObject what =>
        exact Or.inl ⟨w1, what, hlog, by simp [atBoundary]⟩
      case otherException what =>
        exact Or.inr (Or.inr ⟨.otherException what, by simp [atBoundary],
          by simp [atBoundary, hlog]⟩)
      case nullPointerRead =>
        exact Or.inr (Or.inr ⟨.nullPointerRead, by simp [atBoundary],
          by simp [atBoundary, hlog]⟩)
    · refine Or.inr (Or.inl ⟨by simp [atBoundary], ?_⟩)
      cases plugin.reportsDone <;> simp [atBoundary, hlog]
  · refine ⟨[], by simp, Or.inr (Or.inl ⟨by rw [h], ?_⟩)⟩
    rw [h]
    cases plugin.reportsDone <;> simp

/-! ## Progress 1.0 of the level-set plugins -/

/-- C23. For GeodesicActiveContour and GeodesicActiveContourModule and every
state, the events `ProcessData` logs are these: on a call that returns 0, events
none of which reports progress and then, last, the one report
`UpdateProgress( info, 1.0, "Geodesic Active Contour LevelSet Done !" )`; on a
call that returns -1, events none of which reports progress. -/
theorem processData_reports_done_once (H : Headers) (P : Pipeline) (plugin : Plugin) (w : World)
    (hplugin : plugin = .GeodesicActiveContour ∨ plugin = .GeodesicActiveContourModule) :
    ∃ events, (∀ e ∈ events, e.isProgress = false) ∧
      (((plugin.ProcessData H P).run w).result = .ok 0 →
        ((plugin.ProcessData H P).run w).world.log = w.log ++ events ++
          [Event.UpdateProgress 1 "Geodesic Active Contour LevelSet Done !"]) ∧
      (((plugin.ProcessData H P).run w).result = .ok (-1) →
        ((plugin.ProcessData H P).run w).world.log = w.log ++ events) := by
  have hdone : plugin.reportsDone = true := by
    rcases hplugin with h | h <;> subst h <;> rfl
  obtain ⟨events, hq, hend⟩ := processData_ends H P plugin w
  rcases hend with ⟨w1, message, hlog, hrun⟩ | ⟨hres, hlog⟩ | ⟨e, hres, hlog⟩
  · refine ⟨events ++ [Event.SetProperty .VVP_ERROR message], ?_, ?_, ?_⟩
    · intro e he
      rcases List.mem_append.mp he with h | h
      · exact (hq e h).2
      · rw [List.mem_singleton.mp h]; rfl
    · rw [hrun]; intro h; cases h
    · rw [hrun]; intro _
      simp [World.withError, hlog]
  · refine ⟨events, fun e he => (hq e he).2, fun _ => ?_, ?_⟩
    · rw [hlog, if_pos hdone]
    · rw [hres]; intro h; cases h
  · refine ⟨events, fun e he => (hq e he).2, ?_, ?_⟩ <;>
    · rw [hres]; intro h; cases h

/-! ## The status of `ProcessData` and `VVP_ERROR` -/

/-- C26. For each of the eight plugins and every state: a `ProcessData` that
returns, returns 0 or -1; it returns -1 if and only if one of the calls it logged
sets `VVP_ERROR`; and when it returns -1, setting `VVP_ERROR` to a message was
its last action, whether the message is that of a failed check or that of a
caught exception. -/
theorem processData_status_and_error (H : Headers) (P : Pipeline) (plugin : Plugin) (w : World) :
    ∃ events, ((plugin.ProcessData H P).run w).world.log = w.log ++ events ∧
      (∀ r, ((plugin.ProcessData H P).run w).result = .ok r → r = 0 ∨ r = -1) ∧
      (((plugin.ProcessData H P).run w).result = .ok (-1) ↔
        ∃ message, Event.SetProperty .VVP_ERROR message ∈ events) ∧
      (((plugin.ProcessData H P).run w).result = .ok (-1) →
        ∃ (w1 : World) (message : String),
          ((plugin.ProcessData H P).run w).world = w1.withError message) := by
  obtain ⟨events, hq, hend⟩ := processData_ends H P plugin w
  have hnone : ∀ message, Event.SetProperty .VVP_ERROR message ∉ events := fun message hmem => by
    have := (hq _ hmem).1
    simp [Event.isError] at this
  rcases hend with ⟨w1, message, hlog, hrun⟩ | ⟨hres, hlog⟩ | ⟨e, hres, hlog⟩
  · refine ⟨events ++ [Event.SetProperty .VVP_ERROR message], ?_, ?_, ?_, ?_⟩
    · rw [hrun]; simp [World.withError, hlog]
    · rw [hrun]; intro r h; cases h; exact Or.inr rfl
    · rw [hrun]; exact ⟨fun _ => ⟨message, by simp⟩, fun _ => rfl⟩
    · rw [hrun]; exact fun _ => ⟨w1, message, rfl⟩
  · refine ⟨events ++ (if plugin.reportsDone = true then
        [Event.UpdateProgress 1 "Geodesic Active Contour LevelSet Done !"] else []), ?_, ?_, ?_, ?_⟩
    · rw [hlog]; simp only [List.append_assoc]
    · rw [hres]; intro r h; cases h; exact Or.inl rfl
    · rw [hres]
      refine ⟨fun h => (by cases h), fun ⟨message, hmem⟩ => ?_⟩
      rcases List.mem_append.mp hmem with h | h
      · exact absurd h (hnone message)
      · split at h <;> simp at h
    · rw [hres]; intro h; cases h
  · refine ⟨events, hlog, ?_, ?_, ?_⟩
    · rw [hres]; intro r h; cases h
    · rw [hres]
      exact ⟨fun h => (by cases h), fun ⟨message, hmem⟩ => absurd hmem (hnone message)⟩
    · rw [hres]; intro h; cases h

/-! ## The order of the two precondition checks -/

/-- C30. In ConfidenceConnected and GeodesicActiveContourModule, an input with a
component count other than 1 and fewer than one marker makes `ProcessData` return
-1 with `VVP_ERROR` set to "This filter requires a single-component data set as
input", which is not the plugin's message about the markers: the state is the one
before the call but for that property and that one call in the log. -/
theorem processData_checks_components_first (H : Headers) (P : Pipeline) (plugin : Plugin)
    (w : World) (hplugin : plugin.requiresSeeds = true)
    (hcomp : w.info.InputVolumeNumberOfComponents ≠ 1) (hmarkers : w.info.NumberOfMarkers < 1) :
    (plugin.ProcessData H P).run w
      = ⟨.ok (-1), w.withError "This filter requires a single-component data set as input"⟩ ∧
    ((plugin.ProcessData H P).run w).world.info.properties .VVP_ERROR
      = some "This filter requires a single-component data set as input" ∧
    plugin.markersMessage ≠ "This filter requires a single-component data set as input" := by
  have hrun : (plugin.ProcessData H P).run w
      = ⟨.ok (-1), w.withError "This filter requires a single-component data set as input"⟩ := by
    cases plugin <;> simp [Plugin.requiresSeeds] at hplugin <;>
      simp [Plugin.ProcessData, vvITKConfidenceConnected.ProcessData,
        vvITKGeodesicActiveContourModule.ProcessData, Run.run, Run.getInfo, Run.SetProperty,
        World.withError, hcomp]
  refine ⟨hrun, ?_, ?_⟩
  · rw [hrun]; simp [World.withError]
  · cases plugin <;> simp [Plugin.requiresSeeds] at hplugin <;> decide

/-! ## The conversion of the bounds to the pixel type -/

/-- The narrowing to `float` at some values: the `float`s nearest to 2.7 and to
0.05 are 11324621/2^22 and 13421773/2^28; 300 is a `float`; the odd integer
2^24 + 1 loses its last bit; 2^31 - 1 becomes 2^31, which is no `int`; and
2.99999999 becomes 3. -/
theorem toFloat_values :
    ((toFloat (27 / 10)).num = 11324621 ∧ (toFloat (27 / 10)).den = 4194304) ∧
    ((toFloat (1 / 20)).num = 13421773 ∧ (toFloat (1 / 20)).den = 268435456) ∧
    toFloat 300 = 300 ∧
    truncate (toFloat (Reference.atof "16777217")) = 16777216 ∧
    truncate (toFloat (Reference.atof "2147483647")) = 2147483648 ∧
    static_cast Reference.headers .signedInt (toFloat (Reference.atof "2147483647")) = none ∧
    truncate (toFloat (Reference.atof "2.99999999")) = 3 := by
  refine ⟨⟨?_, ?_⟩, ⟨?_, ?_⟩, ?_, ?_, ?_, ?_, ?_⟩ <;> with_unfolding_all decide

/-- C1, at a concrete input: AntiAlias on the reference `unsigned char` volume with
the default values "5" and "0.05" and a pipeline that completes. -/
theorem processData_dispatches_one_runner_witness :
    ((Reference.world ["5", "0.05"]).info.InputVolumeScalarType
        = Reference.headers.tag .unsignedChar ∧
      Plugin.preconditions .AntiAlias (Reference.world ["5", "0.05"]).info ∧
      ((Plugin.Execute Reference.headers Reference.pipeline .AntiAlias .unsignedChar).run
        (Reference.world ["5", "0.05"])).result = .ok ()) ∧
    ((Plugin.ProcessData Reference.headers Reference.pipeline .AntiAlias).run
        (Reference.world ["5", "0.05"])).result = .ok 0 ∧
    runnerCalls ((Plugin.ProcessData Reference.headers Reference.pipeline .AntiAlias).run
        (Reference.world ["5", "0.05"])).world.log
      = runnerCalls (Reference.world ["5", "0.05"]).log
        ++ [Event.Execute .AntiAlias .unsignedChar] :=
  ⟨⟨rfl, ⟨fun _ => rfl, fun _ => by decide⟩, rfl⟩,
    processData_dispatches_one_runner Reference.headers Reference.pipeline .AntiAlias
      .unsignedChar (Reference.world ["5", "0.05"]) rfl ⟨fun _ => rfl, fun _ => by decide⟩ rfl⟩

/-- C2, at a concrete input: GeodesicActiveContour on the reference volume with 3
components per voxel. -/
theorem processData_rejects_multi_component_witness :
    (Plugin.singleComponentOnly .GeodesicActiveContour = true ∧
      (Reference.ofComponents 3 []).info.InputVolumeNumberOfComponents ≠ 1) ∧
    ((Plugin.ProcessData Reference.headers Reference.pipeline .GeodesicActiveContour).run
        (Reference.ofComponents 3 [])).result = .ok (-1) :=
  ⟨⟨rfl, by decide⟩,
    congrArg Outcome.result
      (processData_rejects_multi_component Reference.headers Reference.pipeline
        .GeodesicActiveContour (Reference.ofComponents 3 []) rfl (by decide)).1⟩

/-- C3, at a concrete input: ConfidenceConnected on the reference volume without
markers. -/
theorem processData_rejects_missing_markers_witness :
    (Plugin.requiresSeeds .ConfidenceConnected = true ∧
      (Reference.noMarkers []).info.InputVolumeNumberOfComponents = 1 ∧
      (Reference.noMarkers []).info.NumberOfMarkers < 1) ∧
    ((Plugin.ProcessData Reference.headers Reference.pipeline .ConfidenceConnected).run
        (Reference.noMarkers [])).result = .ok (-1) :=
  ⟨⟨rfl, rfl, by decide⟩,
    congrArg Outcome.result
      (processData_rejects_missing_markers Reference.headers Reference.pipeline
        .ConfidenceConnected (Reference.noMarkers []) rfl rfl (by decide)).1⟩

/-- C5, at a concrete input: IntensityWindowing on the reference volume with a
pipeline that raises an `itk::ExceptionObject`. -/
theorem processData_catches_itk_exception_witness :
    ((Reference.world ["0", "255", "0", "255"]).info.InputVolumeScalarType
        = Reference.headers.tag .unsignedChar ∧
      Plugin.preconditions .IntensityWindowing (Reference.world ["0", "255", "0", "255"]).info ∧
      ((Plugin.Execute Reference.headers
          (Reference.failing (.itkExceptionObject "itk::ERROR: requested region is outside"))
          .IntensityWindowing .unsignedChar).run
        (Reference.world ["0", "255", "0", "255"])).result
        = .error (.itkExceptionObject "itk::ERROR: requested region is outside")) ∧
    ((Plugin.ProcessData Reference.headers
        (Reference.failing (.itkExceptionObject "itk::ERROR: requested region is outside"))
        .IntensityWindowing).run (Reference.world ["0", "255", "0", "255"])).result = .ok (-1) ∧
    ((Plugin.ProcessData Reference.headers
        (Reference.failing (.itkExceptionObject "itk::ERROR: requested region is outside"))
        .IntensityWindowing).run
      (Reference.world ["0", "255", "0", "255"])).world.info.properties .VVP_ERROR
      = some "itk::ERROR: requested region is outside" :=
  ⟨⟨rfl, ⟨fun h => Bool.noConfusion h, fun h => Bool.noConfusion h⟩, rfl⟩,
    processData_catches_itk_exception Reference.headers _ .IntensityWindowing .unsignedChar
      (Reference.world ["0", "255", "0", "255"]) _ rfl
      ⟨fun h => Bool.noConfusion h, fun h => Bool.noConfusion h⟩ rfl⟩

/-- C6 as amended, at a concrete input: IntensityWindowing on the reference volume
with a pipeline that raises an exception of another class. -/
theorem processData_catches_only_itk_exceptions_witness :
    ((Reference.world ["0", "255", "0", "255"]).info.InputVolumeScalarType
        = Reference.headers.tag .unsignedChar ∧
      Plugin.preconditions .IntensityWindowing (Reference.world ["0", "255", "0", "255"]).info) ∧
    ((Plugin.ProcessData Reference.headers
        (Reference.failing (.otherException "std::bad_alloc"))
        .IntensityWindowing).run (Reference.world ["0", "255", "0", "255"])).result
      = .error (.otherException "std::bad_alloc") :=
  ⟨⟨rfl, ⟨fun h => Bool.noConfusion h, fun h => Bool.noConfusion h⟩⟩,
    (processData_catches_only_itk_exceptions Reference.headers
      (Reference.failing (.otherException "std::bad_alloc")) .IntensityWindowing .unsignedChar
      (Reference.world ["0", "255", "0", "255"]) rfl
      ⟨fun h => Bool.noConfusion h, fun h => Bool.noConfusion h⟩).2 _ (fun m h => by cases h) rfl⟩

/-- C8 as amended, at a concrete input: ConfidenceConnected on the reference volume
with a first marker inside and a second marker outside. -/
theorem processData_rejects_seed_outside_witness :
    (Plugin.requiresSeeds .ConfidenceConnected = true ∧
      (Reference.twoMarkers ["5", "2.5", "255", "2", "0"]).info.InputVolumeScalarType
        = Reference.headers.tag .unsignedChar ∧
      Plugin.preconditions .ConfidenceConnected
        (Reference.twoMarkers ["5", "2.5", "255", "2", "0"]).info ∧
      Plugin.valuesPresent .ConfidenceConnected
        (Reference.twoMarkers ["5", "2.5", "255", "2", "0"]).info ∧
      insideVolume (Reference.twoMarkers ["5", "2.5", "255", "2", "0"]).info
        (markerIndex (Reference.twoMarkers ["5", "2.5", "255", "2", "0"]).info 0) ∧
      ¬ insideVolume (Reference.twoMarkers ["5", "2.5", "255", "2", "0"]).info
        (markerIndex (Reference.twoMarkers ["5", "2.5", "255", "2", "0"]).info 1)) ∧
    ((Plugin.ProcessData Reference.headers Reference.pipeline .ConfidenceConnected).run
        (Reference.twoMarkers ["5", "2.5", "255", "2", "0"])).result = .ok (-1) :=
  ⟨⟨rfl, rfl, ⟨fun _ => rfl, fun _ => by decide⟩, by decide, by with_unfolding_all decide,
      by with_unfolding_all decide⟩,
    (processData_rejects_seed_outside Reference.headers Reference.pipeline .ConfidenceConnected
      .unsignedChar (Reference.twoMarkers ["5", "2.5", "255", "2", "0"]) 1 rfl rfl
      ⟨fun _ => rfl, fun _ => by decide⟩ (by decide) (by decide) (by decide)
      (fun i hi => by
        have h0 : i = 0 := by omega
        subst h0
        with_unfolding_all decide)
      (by with_unfolding_all decide)).1⟩

/-- C10, at a concrete input: the value "1" of 'Produce composite output'. -/
theorem confidenceConnected_updateGUI_output_witness :
    ((Reference.info ["5", "2.5", "255", "2", "1"]).guiProperties 4 .VVP_GUI_VALUE = some "1" ∧
      Reference.headers.atoi "1" ≠ 0) ∧
    ((vvITKConfidenceConnected.UpdateGUI Reference.headers
        (Reference.info ["5", "2.5", "255", "2", "1"])).2.OutputVolumeNumberOfComponents = 2 ∧
      (vvITKConfidenceConnected.UpdateGUI Reference.headers
        (Reference.info ["5", "2.5", "255", "2", "1"])).2.OutputVolumeScalarType
        = (Reference.info ["5", "2.5", "255", "2", "1"]).InputVolumeScalarType ∧
      (vvITKConfidenceConnected.UpdateGUI Reference.headers
        (Reference.info ["5", "2.5", "255", "2", "1"])).2.properties
          .VVP_PER_VOXEL_MEMORY_REQUIRED = some "2") :=
  ⟨⟨rfl, by decide⟩,
    (confidenceConnected_updateGUI_output Reference.headers
      (Reference.info ["5", "2.5", "255", "2", "1"])).1 "1" rfl (by decide)⟩

/-- C15, at a concrete input: 3 components per voxel and scalars of 2 bytes; the
declared value is "10". -/
theorem gradientAnisotropicDiffusion_per_voxel_memory_witness :
    ((0 ≤ (Reference.ofScalarSize 3 2 []).InputVolumeScalarSize ∧
        (Reference.ofScalarSize 3 2 []).InputVolumeScalarSize ≤ 2 ^ 31 - 9) ∧
      (Reference.ofScalarSize 3 2 []).InputVolumeNumberOfComponents > 1) ∧
    (vvITKGradientAnisotropicDiffusion.UpdateGUI Reference.headers
        (Reference.ofScalarSize 3 2 [])).2.properties .VVP_PER_VOXEL_MEMORY_REQUIRED
      = some (sprintf_d (8 + (Reference.ofScalarSize 3 2 []).InputVolumeScalarSize)) ∧
    sprintf_d (8 + (Reference.ofScalarSize 3 2 []).InputVolumeScalarSize) = "10" :=
  ⟨⟨⟨by decide, by decide⟩, by decide⟩,
    (gradientAnisotropicDiffusion_per_voxel_memory Reference.headers
      (Reference.ofScalarSize 3 2 []) ⟨by decide, by decide⟩).2.1 (by decide),
    by decide⟩

/-- C22, at a concrete input: Sigmoid on a volume of 3 components per voxel and
scalars of 2 bytes; the declared value is "4". -/
theorem updateGUI_per_voxel_memory_witness :
    (-(2 ^ 30) ≤ (Reference.ofScalarSize 3 2 []).InputVolumeScalarSize ∧
      (Reference.ofScalarSize 3 2 []).InputVolumeScalarSize < 2 ^ 30) ∧
    (Plugin.UpdateGUI Reference.headers .Sigmoid
        (Reference.ofScalarSize 3 2 [])).2.properties .VVP_PER_VOXEL_MEMORY_REQUIRED
      = some (if (Reference.ofScalarSize 3 2 []).InputVolumeNumberOfComponents > 1
          then sprintf_d (2 * (Reference.ofScalarSize 3 2 []).InputVolumeScalarSize) else "0") ∧
    (if (Reference.ofScalarSize 3 2 []).InputVolumeNumberOfComponents > 1
      then sprintf_d (2 * (Reference.ofScalarSize 3 2 []).InputVolumeScalarSize) else "0")
      = "4" :=
  ⟨⟨by decide, by decide⟩,
    (updateGUI_per_voxel_memory Reference.headers (Reference.ofScalarSize 3 2 [])
      ⟨by decide, by decide⟩).2.2,
    by decide⟩

/-- C17, at a concrete input: Sigmoid on the reference `unsigned char` volume
(scalar range 0..255) with the values "5.0", "0.0", "0" and "255". -/
theorem sigmoid_beta_normalized_witness :
    ((Reference.world ["5.0", "0.0", "0", "255"]).info.guiProperties 0 .VVP_GUI_VALUE
        = some "5.0" ∧
      (Reference.world ["5.0", "0.0", "0", "255"]).info.guiProperties 1 .VVP_GUI_VALUE
        = some "0.0" ∧
      (Reference.world ["5.0", "0.0", "0", "255"]).info.guiProperties 2 .VVP_GUI_VALUE
        = some "0" ∧
      (Reference.world ["5.0", "0.0", "0", "255"]).info.guiProperties 3 .VVP_GUI_VALUE
        = some "255") ∧
    ((vvITKSigmoid.SigmoidRunner.Execute Reference.headers Reference.pipeline .unsignedChar).run
        (Reference.world ["5.0", "0.0", "0", "255"])).world.log
      = (Reference.world ["5.0", "0.0", "0", "255"]).log ++
      [Event.Execute .Sigmoid .unsignedChar,
       Event.module "SetPluginInfo" Arg.none,
       Event.module "SetUpdateMessage"
         (Arg.str "Transforming intensities with a Sigmoid function..."),
       Event.filter "SetAlpha" (Arg.real (vvITKSigmoid.SigmoidRunner.alpha
         (Reference.headers.atof "5.0")
         ((Reference.world ["5.0", "0.0", "0", "255"]).info.InputVolumeScalarRange 0)
         ((Reference.world ["5.0", "0.0", "0", "255"]).info.InputVolumeScalarRange 1))),
       Event.filter "SetBeta" (Arg.real
         ((1 + Reference.headers.atof "0.0") / 2
             * (Reference.world ["5.0", "0.0", "0", "255"]).info.InputVolumeScalarRange 1
           + (1 - Reference.headers.atof "0.0") / 2
             * (Reference.world ["5.0", "0.0", "0", "255"]).info.InputVolumeScalarRange 0)),
       Event.filter "SetOutputMinimum"
         (Arg.pixel (static_cast Reference.headers .unsignedChar (Reference.headers.atof "0"))),
       Event.filter "SetOutputMaximum"
         (Arg.pixel (static_cast Reference.headers .unsignedChar (Reference.headers.atof "255"))),
       Event.module "ProcessData" Arg.none] :=
  ⟨⟨rfl, rfl, rfl, rfl⟩,
    (sigmoid_beta_normalized Reference.headers Reference.pipeline .unsignedChar
      (Reference.world ["5.0", "0.0", "0", "255"]) "5.0" "0.0" "0" "255" rfl rfl rfl rfl).1⟩

/-- C18, at a concrete input: AntiAlias on the reference volume with the scalar
type tag 1, none of the ten tags 2..11. -/
theorem antiAlias_processData_unknown_scalar_type_witness :
    ((Reference.ofScalarType 1 ["5", "0.05"]).info.InputVolumeNumberOfComponents = 1 ∧
      ∀ p, (Reference.ofScalarType 1 ["5", "0.05"]).info.InputVolumeScalarType
        ≠ Reference.headers.tag p) ∧
    ((vvITKAntiAlias.ProcessData Reference.headers Reference.pipeline).run
        (Reference.ofScalarType 1 ["5", "0.05"])).result = .ok (-1) :=
  ⟨⟨rfl, fun p => by cases p <;> decide⟩,
    congrArg Outcome.result
      (antiAlias_processData_unknown_scalar_type Reference.headers Reference.pipeline
        (Reference.ofScalarType 1 ["5", "0.05"]) rfl (fun p => by cases p <;> decide)).1⟩

/-- C20, at a concrete input: ConfidenceConnected on the reference volume with its
default values. -/
theorem execute_configures_before_running_witness :
    ∃ pre post,
      ((Plugin.Execute Reference.headers Reference.pipeline .ConfidenceConnected
          .unsignedChar).run (Reference.world ["5", "2.5", "255", "2", "0"])).world.log
        = (Reference.world ["5", "2.5", "255", "2", "0"]).log ++ pre ++ post ∧
      pipelineRuns pre = [] ∧
      (post = [] ∨ ∃ rest, post = Event.module "ProcessData" Arg.none :: rest ∧
        ∀ e ∈ rest, e.onModule = false) ∧
      ((∃ a, ((Plugin.Execute Reference.headers Reference.pipeline .ConfidenceConnected
          .unsignedChar).run (Reference.world ["5", "2.5", "255", "2", "0"])).result = .ok a) →
        post ≠ []) :=
  execute_configures_before_running Reference.headers Reference.pipeline .ConfidenceConnected
    .unsignedChar (Reference.world ["5", "2.5", "255", "2", "0"])

/-- C19, at a concrete input: GeodesicActiveContourModule on the reference volume
(one marker, at the origin) with its nine default values and a pipeline that
completes after 37 iterations with the RMS change 2: the report is
"Total number of iterations = 37 \n Final RMS error = 2". -/
theorem runner_reports_iterations_witness :
    ((Plugin.GeodesicActiveContourModule = .GeodesicActiveContour ∨
        Plugin.GeodesicActiveContourModule = .GeodesicActiveContourModule) ∧
      Plugin.valuesPresent .GeodesicActiveContourModule
        (Reference.world ["5.0", "1.0", "0.0", "6.0", "1.0", "1.0", "1.0", "0.06", "100.0"]).info ∧
      insideVolume
        (Reference.world ["5.0", "1.0", "0.0", "6.0", "1.0", "1.0", "1.0", "0.06", "100.0"]).info
        (markerIndex
          (Reference.world ["5.0", "1.0", "0.0", "6.0", "1.0", "1.0", "1.0", "0.06", "100.0"]).info
          0)) ∧
    ((Plugin.Execute Reference.headers (Reference.converged 37 2) .GeodesicActiveContourModule
        .unsignedChar).run
      (Reference.world
        ["5.0", "1.0", "0.0", "6.0", "1.0", "1.0", "1.0", "0.06", "100.0"])).world.info.properties
        .VVP_REPORT_TEXT
      = some "Total number of iterations = 37 \n Final RMS error = 2" := by
  refine ⟨⟨Or.inr rfl, by decide, by with_unfolding_all decide⟩, ?_⟩
  obtain ⟨w1, _, _, _, hdone, _⟩ :=
    runner_reports_iterations Reference.headers (Reference.converged 37 2)
      .GeodesicActiveContourModule .unsignedChar
      (Reference.world ["5.0", "1.0", "0.0", "6.0", "1.0", "1.0", "1.0", "0.06", "100.0"])
      (Or.inr rfl) (fun _ => by decide)
      (fun _ i hi => by
        have h0 : i = 0 := by
          have : i < 1 := List.mem_range.mp hi
          omega
        subst h0
        with_unfolding_all decide)
  exact (hdone rfl).2.1

/-- C21, at a concrete input: ConfidenceConnected on the reference volume (one
marker, at the origin) with its default values. -/
theorem runner_adds_one_seed_per_marker_witness :
    (Plugin.requiresSeeds .ConfidenceConnected = true ∧
      Plugin.valuesPresent .ConfidenceConnected (Reference.world ["5", "2.5", "255", "2", "0"]).info ∧
      (0 ≤ (Reference.world ["5", "2.5", "255", "2", "0"]).info.NumberOfMarkers ∧ (Reference.world ["5", "2.5", "255", "2", "0"]).info.NumberOfMarkers < 2 ^ 31) ∧
      insideVolume (Reference.world ["5", "2.5", "255", "2", "0"]).info (markerIndex (Reference.world ["5", "2.5", "255", "2", "0"]).info 0)) ∧
    ∃ before after,
      ((Plugin.Execute Reference.headers Reference.pipeline .ConfidenceConnected
          .unsignedChar).run (Reference.world ["5", "2.5", "255", "2", "0"])).world.log
        = (Reference.world ["5", "2.5", "255", "2", "0"]).log ++ before
          ++ (List.range (Reference.world ["5", "2.5", "255", "2", "0"]).info.NumberOfMarkers.toNat).map
              (fun i => Plugin.AddSeed .ConfidenceConnected (seedOfMarker (Reference.world ["5", "2.5", "255", "2", "0"]).info i))
          ++ after ∧
      seedsAdded before = [] ∧ pipelineRuns before = [] ∧
      seedsAdded after = [] ∧ pipelineRuns after = [Event.module "ProcessData" Arg.none] ∧
      (((List.range (Reference.world ["5", "2.5", "255", "2", "0"]).info.NumberOfMarkers.toNat).map
          (fun i => Plugin.AddSeed .ConfidenceConnected (seedOfMarker (Reference.world ["5", "2.5", "255", "2", "0"]).info i))).length : Int)
        = (Reference.world ["5", "2.5", "255", "2", "0"]).info.NumberOfMarkers :=
  ⟨⟨rfl, by decide, ⟨by decide, by decide⟩, by with_unfolding_all decide⟩,
    runner_adds_one_seed_per_marker Reference.headers Reference.pipeline .ConfidenceConnected
      .unsignedChar (Reference.world ["5", "2.5", "255", "2", "0"]) rfl (by decide) ⟨by decide, by decide⟩
      (fun i hi => by
        have h0 : i = 0 := by
          have : (i : Int) < 1 := hi
          omega
        subst h0
        with_unfolding_all decide)⟩

/-- C23, at a concrete input: GeodesicActiveContour on the reference volume with
a pipeline that completes. -/
theorem processData_reports_done_once_witness :
    (Plugin.GeodesicActiveContour = .GeodesicActiveContour ∨
      Plugin.GeodesicActiveContour = .GeodesicActiveContourModule) ∧
    ∃ events, (∀ e ∈ events, e.isProgress = false) ∧
      (((Plugin.ProcessData Reference.headers Reference.pipeline .GeodesicActiveContour).run
          (Reference.world [])).result = .ok 0 →
        ((Plugin.ProcessData Reference.headers Reference.pipeline .GeodesicActiveContour).run
          (Reference.world [])).world.log = (Reference.world []).log ++ events ++
          [Event.UpdateProgress 1 "Geodesic Active Contour LevelSet Done !"]) ∧
      (((Plugin.ProcessData Reference.headers Reference.pipeline .GeodesicActiveContour).run
          (Reference.world [])).result = .ok (-1) →
        ((Plugin.ProcessData Reference.headers Reference.pipeline .GeodesicActiveContour).run
          (Reference.world [])).world.log = (Reference.world []).log ++ events) :=
  ⟨Or.inl rfl,
    processData_reports_done_once Reference.headers Reference.pipeline .GeodesicActiveContour
      (Reference.world []) (Or.inl rfl)⟩

/-- C25, at a concrete input: the range 0..255 of the reference volume and the
normalized beta 0. -/
theorem sigmoid_alpha_beta_range_witness :
    ((0 : ℚ) ≤ 255 ∧ (-1 : ℚ) ≤ 0 ∧ (0 : ℚ) ≤ 1) ∧
    (0 ≤ vvITKSigmoid.SigmoidRunner.beta 0 0 255 ∧
      vvITKSigmoid.SigmoidRunner.beta 0 0 255 ≤ 255) :=
  ⟨⟨by norm_num, by norm_num, by norm_num⟩,
    (sigmoid_alpha_beta_range 0 255 (by norm_num)).1 0 (by norm_num) (by norm_num)⟩

/-- C26, at a concrete input: AntiAlias on the reference volume with 3 components
per voxel. -/
theorem processData_status_and_error_witness :
    ∃ events,
      ((Plugin.ProcessData Reference.headers Reference.pipeline .AntiAlias).run
        (Reference.ofComponents 3 ["5", "0.05"])).world.log
        = (Reference.ofComponents 3 ["5", "0.05"]).log ++ events ∧
      (∀ r, ((Plugin.ProcessData Reference.headers Reference.pipeline .AntiAlias).run
        (Reference.ofComponents 3 ["5", "0.05"])).result = .ok r → r = 0 ∨ r = -1) ∧
      (((Plugin.ProcessData Reference.headers Reference.pipeline .AntiAlias).run
          (Reference.ofComponents 3 ["5", "0.05"])).result = .ok (-1) ↔
        ∃ message, Event.SetProperty .VVP_ERROR message ∈ events) ∧
      (((Plugin.ProcessData Reference.headers Reference.pipeline .AntiAlias).run
          (Reference.ofComponents 3 ["5", "0.05"])).result = .ok (-1) →
        ∃ (w1 : World) (message : String),
          ((Plugin.ProcessData Reference.headers Reference.pipeline .AntiAlias).run
            (Reference.ofComponents 3 ["5", "0.05"])).world = w1.withError message) :=
  processData_status_and_error Reference.headers Reference.pipeline .AntiAlias
    (Reference.ofComponents 3 ["5", "0.05"])

/-- C27, at a concrete input: ConfidenceConnected on the reference volume with
'Produce composite output' set to "2". -/
theorem confidenceConnected_composite_agrees_witness :
    ((Reference.world ["5", "2.5", "255", "2", "2"]).info.guiProperties 4 .VVP_GUI_VALUE = some "2" ∧
      Plugin.valuesPresent .ConfidenceConnected (Reference.world ["5", "2.5", "255", "2", "2"]).info ∧
      insideVolume (Reference.world ["5", "2.5", "255", "2", "2"]).info (markerIndex (Reference.world ["5", "2.5", "255", "2", "2"]).info 0)) ∧
    (vvITKConfidenceConnected.UpdateGUI Reference.headers (Reference.world ["5", "2.5", "255", "2", "2"]).info).2.OutputVolumeNumberOfComponents
      = (if Reference.headers.atoi "2" ≠ 0 then 2 else 1) ∧
    ((vvITKConfidenceConnected.UpdateGUI Reference.headers
        (Reference.world ["5", "2.5", "255", "2", "2"]).info).2.OutputVolumeNumberOfComponents = 2 ↔
      Event.module "SetProduceDoubleOutput" (Arg.bool true) ∈
        ((vvITKConfidenceConnected.ConfidenceConnectedRunner.Execute Reference.headers
          Reference.pipeline .unsignedChar).run (Reference.world ["5", "2.5", "255", "2", "2"])).world.log.drop (Reference.world ["5", "2.5", "255", "2", "2"]).log.length) :=
  ⟨⟨rfl, by decide, by with_unfolding_all decide⟩,
    (confidenceConnected_composite_agrees Reference.headers Reference.pipeline .unsignedChar
      (Reference.world ["5", "2.5", "255", "2", "2"]) "2" rfl (by decide)
      (fun i hi => by
        have h0 : i = 0 := by
          have : i < 1 := List.mem_range.mp hi
          omega
        subst h0
        with_unfolding_all decide)).1,
    (confidenceConnected_composite_agrees Reference.headers Reference.pipeline .unsignedChar
      (Reference.world ["5", "2.5", "255", "2", "2"]) "2" rfl (by decide)
      (fun i hi => by
        have h0 : i = 0 := by
          have : i < 1 := List.mem_range.mp hi
          omega
        subst h0
        with_unfolding_all decide)).2.2⟩

/-- C30, at a concrete input: ConfidenceConnected on the reference volume with 3
components per voxel and no marker. -/
theorem processData_checks_components_first_witness :
    (Plugin.requiresSeeds .ConfidenceConnected = true ∧
      (Reference.unseeded 3 ["5", "2.5", "255", "2", "0"]).info.InputVolumeNumberOfComponents
        ≠ 1 ∧
      (Reference.unseeded 3 ["5", "2.5", "255", "2", "0"]).info.NumberOfMarkers < 1) ∧
    ((Plugin.ProcessData Reference.headers Reference.pipeline .ConfidenceConnected).run
        (Reference.unseeded 3 ["5", "2.5", "255", "2", "0"])).world.info.properties .VVP_ERROR
      = some "This filter requires a single-component data set as input" :=
  ⟨⟨rfl, by decide, by decide⟩,
    (processData_checks_components_first Reference.headers Reference.pipeline
      .ConfidenceConnected (Reference.unseeded 3 ["5", "2.5", "255", "2", "0"]) rfl (by decide)
      (by decide)).2.1⟩

end VolViewPlugins
